import Mathlib

/-!
Conformance harness of the B91 ECP backend (`ecp_alt_b91_backend_test.c`).

A shallow embedding of the vector table `ecp_test_cases` and of the function
`ecp_alt_b91_backend_test`, followed by the properties established about them.

The mbedTLS operations the harness calls are external: they are represented by
an environment `Env` giving, for the loop index at which a call is made, the
status the call returns.  The harness itself is embedded as a pure function
producing the sequence of external calls it makes (with their arguments and
returned statuses) together with the returned `result`.
-/

namespace B91

/-! ## Vector table -/

/-- Identifiers of `mbedtls_ecp_group_id` that occur in the table. -/
inductive mbedtls_ecp_group_id where
  | MBEDTLS_ECP_DP_SECP521R1
  | MBEDTLS_ECP_DP_BP512R1
  | MBEDTLS_ECP_DP_SECP384R1
  | MBEDTLS_ECP_DP_BP384R1
  | MBEDTLS_ECP_DP_SECP256R1
  | MBEDTLS_ECP_DP_SECP256K1
  | MBEDTLS_ECP_DP_BP256R1
  | MBEDTLS_ECP_DP_SECP224R1
  | MBEDTLS_ECP_DP_SECP224K1
  | MBEDTLS_ECP_DP_SECP192R1
  | MBEDTLS_ECP_DP_SECP192K1
  | MBEDTLS_ECP_DP_CURVE25519
  | MBEDTLS_ECP_DP_CURVE448
  deriving DecidableEq, Repr

/-- A compound literal `(const unsigned char[size]) {init...}`: the declared
array bound and the initialisers as written. -/
structure compound_literal where
  size : Nat
  init : List Nat
  deriving DecidableEq, Repr

/-- Bytes of the array object a compound literal denotes: the initialisers,
with the remaining elements (if any) zero. -/
def compound_literal.bytes (a : compound_literal) : List Nat :=
  a.init ++ List.replicate (a.size - a.init.length) 0

/-- Element type of `ecp_test_cases`.  A pointer field is represented by the
array object it points to; `sum = none` is the `NULL` pointer. -/
structure ecp_test_case where
  ecp_group_id : mbedtls_ecp_group_id
  sk : compound_literal
  sk_len : Nat
  pk : compound_literal
  pk_len : Nat
  sum : Option compound_literal
  deriving DecidableEq, Repr

/-- Table entry guarded by `MBEDTLS_ECP_DP_SECP521R1_ENABLED`. -/
def ecp_test_case_SECP521R1 : ecp_test_case where
  ecp_group_id := .MBEDTLS_ECP_DP_SECP521R1
  sk := ⟨66,
     [0x01, 0xeb, 0x60, 0x88, 0x03, 0x15, 0x7b, 0x13, 0xb1, 0xc3, 0x5b, 0xa8, 0x7b, 0x09, 0xa4,
      0x2e, 0xa6, 0x0f, 0xc7, 0x06, 0x66, 0x55, 0x22, 0x57, 0x0c, 0x08, 0x5a, 0x50, 0xa4, 0x44,
      0x5f, 0xea, 0x85, 0xed, 0x7f, 0xf3, 0xcf, 0x0c, 0x01, 0xd9, 0x4a, 0x87, 0x9e, 0xcc, 0xa4,
      0x60, 0x1b, 0x3d, 0x08, 0xfb, 0x37, 0x8d, 0x51, 0x07, 0x76, 0xcc, 0xf1, 0x32, 0x0d, 0x8d,
      0x12, 0x41, 0x2b, 0xa4, 0x5d, 0x8d]⟩
  sk_len := 66
  pk := ⟨133,
     [0x04, 0x00, 0xef, 0xa5, 0x11, 0x33, 0x8b, 0x71, 0xba, 0x23, 0x9a, 0x37, 0xed, 0xad, 0xfa,
      0xf6, 0x94, 0x3f, 0xac, 0x7e, 0x23, 0x63, 0x4f, 0xcd, 0xad, 0x45, 0x70, 0xa9, 0x0b, 0x26,
      0xee, 0x96, 0x4f, 0x7e, 0x46, 0xce, 0xa7, 0xe5, 0x1f, 0xa3, 0xcc, 0xa5, 0xe1, 0x64, 0x57,
      0x92, 0x1a, 0x29, 0xa4, 0x1a, 0x0c, 0x82, 0xd4, 0x40, 0x59, 0x20, 0x20, 0x99, 0x87, 0xf3,
      0x46, 0x04, 0x9e, 0x25, 0x1a, 0x6d, 0x21, 0x01, 0x2a, 0xd3, 0x86, 0x7a, 0x8c, 0xcc, 0xfa,
      0x68, 0x99, 0x1f, 0xc5, 0x60, 0x35, 0x7b, 0x34, 0x8f, 0xf1, 0xfd, 0xa3, 0x5a, 0xac, 0x9b,
      0x09, 0xdf, 0xa5, 0x44, 0x45, 0xd8, 0xc9, 0x49, 0xa9, 0x05, 0xa5, 0x45, 0xba, 0xfc, 0x3b,
      0xb4, 0xe0, 0xda, 0x9d, 0x67, 0x3d, 0xb4, 0x05, 0xa7, 0x39, 0x57, 0xa2, 0x7d, 0x12, 0x6f,
      0x5c, 0x34, 0xab, 0xc1, 0x8d, 0xef, 0xe0, 0xec, 0x9a, 0xed, 0xad, 0x1b, 0x71]⟩
  pk_len := 133
  sum := some (⟨133,
     [0x04, 0x01, 0x68, 0x45, 0x34, 0x25, 0x5b, 0xad, 0x67, 0x54, 0x6b, 0x7c, 0x45, 0xe7, 0x60,
      0x7b, 0xe7, 0x2f, 0xe4, 0x94, 0xf6, 0x28, 0x06, 0x74, 0x0d, 0x85, 0xe4, 0xba, 0xcb, 0xec,
      0x51, 0xed, 0x37, 0xda, 0xbb, 0xf0, 0xb5, 0xa9, 0x07, 0xe4, 0xca, 0xed, 0x79, 0xb1, 0x2d,
      0xce, 0xf8, 0x4d, 0x7a, 0xee, 0x85, 0x41, 0x48, 0xac, 0x16, 0x51, 0x20, 0x88, 0x1e, 0x49,
      0x03, 0xc5, 0x1f, 0x99, 0x3f, 0x8a, 0x7d, 0x00, 0x10, 0xe1, 0xb7, 0xf9, 0x28, 0x76, 0xe4,
      0xf5, 0x36, 0xc0, 0x57, 0xd5, 0xf9, 0xba, 0xab, 0x49, 0x32, 0xf9, 0x84, 0xa9, 0x53, 0x14,
      0x73, 0xfe, 0xfe, 0xf3, 0xe9, 0xa2, 0xf4, 0x0d, 0xa6, 0x3c, 0xd7, 0x3a, 0x3b, 0xfc, 0x30,
      0xaa, 0xff, 0x2c, 0x86, 0x7a, 0xa7, 0xf0, 0x0b, 0x83, 0xb7, 0x3a, 0x98, 0x52, 0xac, 0x66,
      0x0c, 0x4c, 0x4b, 0x49, 0x9f, 0xea, 0xfa, 0x2b, 0xa6, 0x32, 0xe4, 0x87, 0xbf]⟩)

/-- Table entry guarded by `MBEDTLS_ECP_DP_BP512R1_ENABLED`. -/
def ecp_test_case_BP512R1 : ecp_test_case where
  ecp_group_id := .MBEDTLS_ECP_DP_BP512R1
  sk := ⟨64,
     [0x64, 0x35, 0x05, 0x6c, 0x1d, 0x98, 0xc8, 0xe1, 0x30, 0x5e, 0xf4, 0x11, 0x2c, 0x05, 0x68,
      0x98, 0x31, 0xf4, 0xba, 0x16, 0xf4, 0x67, 0x9a, 0x78, 0x6a, 0x8f, 0x7c, 0x18, 0x36, 0xca,
      0x3f, 0xd4, 0xc1, 0x4a, 0x9b, 0xfd, 0x32, 0x70, 0x68, 0x76, 0xb1, 0xc8, 0x1d, 0x9a, 0xae,
      0x8a, 0x24, 0x01, 0xad, 0xf7, 0x45, 0x36, 0x18, 0x23, 0x9e, 0x3e, 0x1e, 0xf2, 0xfa, 0x03,
      0x35, 0xd1, 0xad, 0x92]⟩
  sk_len := 64
  pk := ⟨129,
     [0x04, 0x47, 0x6a, 0x9d, 0x4e, 0xb4, 0xb9, 0x1c, 0x82, 0x11, 0xa4, 0xff, 0x40, 0x60, 0xf1,
      0x34, 0xd8, 0x29, 0x26, 0xa8, 0xd8, 0xcc, 0x08, 0x38, 0x5d, 0xe4, 0x93, 0xc0, 0xfc, 0xb2,
      0xe5, 0x60, 0x39, 0x1f, 0x7c, 0x37, 0x60, 0x77, 0xc6, 0x1d, 0x4b, 0x4d, 0x3c, 0x61, 0xcf,
      0x6e, 0x38, 0x44, 0x37, 0x7c, 0x7f, 0x42, 0x7b, 0xbf, 0x8e, 0x45, 0x79, 0x53, 0x8a, 0x94,
      0x4d, 0xef, 0x08, 0xb0, 0x99, 0x92, 0xce, 0xa2, 0xa7, 0x87, 0xda, 0x2c, 0x92, 0x2a, 0x59,
      0x58, 0xc4, 0xa2, 0x05, 0x77, 0x8a, 0x31, 0x68, 0x36, 0xf4, 0x4d, 0x61, 0xb3, 0x27, 0x97,
      0xc5, 0x98, 0x24, 0xed, 0x6c, 0x28, 0x8c, 0xee, 0xd8, 0x2c, 0xc3, 0x90, 0xf1, 0x36, 0xc6,
      0x62, 0xca, 0x3c, 0xb9, 0xa4, 0x4f, 0x27, 0x92, 0x7f, 0x8b, 0x43, 0x36, 0x43, 0x04, 0x82,
      0xb7, 0x4b, 0x52, 0x9a, 0x02, 0xc9, 0x2a, 0x08, 0x36]⟩
  pk_len := 129
  sum := some (⟨129,
     [0x04, 0x1d, 0x10, 0xaa, 0xb7, 0x2b, 0x6b, 0x1c, 0x8e, 0xde, 0x85, 0x9b, 0xf3, 0x8c, 0xaf,
      0xbb, 0x86, 0xdd, 0xc9, 0x0b, 0xc0, 0xdc, 0x28, 0x1c, 0xf4, 0x1e, 0x81, 0x9d, 0x8a, 0x93,
      0x43, 0xcf, 0xf9, 0xfe, 0x30, 0xb2, 0x04, 0x50, 0x08, 0x96, 0x1c, 0x61, 0xc7, 0x5c, 0xea,
      0x28, 0xef, 0x9e, 0x9a, 0x34, 0xaf, 0x77, 0x2b, 0x89, 0x63, 0x6d, 0x81, 0x72, 0x6a, 0x72,
      0x3d, 0xca, 0x10, 0x1f, 0xfc, 0x9d, 0xe5, 0x89, 0xd7, 0x82, 0x46, 0xe2, 0x59, 0x88, 0xa8,
      0x4d, 0x2c, 0x91, 0x28, 0x5d, 0x40, 0x8d, 0xc0, 0xe9, 0x4f, 0xb1, 0x70, 0xcf, 0xf3, 0x05,
      0xb6, 0xb8, 0xf9, 0xd7, 0x24, 0x7e, 0xf5, 0x9d, 0x65, 0x4f, 0xb6, 0xb8, 0x7f, 0x44, 0xae,
      0x38, 0x21, 0xbc, 0x32, 0xef, 0x6f, 0xf7, 0x8a, 0xd5, 0xa5, 0xe7, 0xee, 0xa3, 0x76, 0xc5,
      0xee, 0x1f, 0x4f, 0x7c, 0xfc, 0x8e, 0x39, 0x7b, 0xe7]⟩)

/-- Table entry guarded by `MBEDTLS_ECP_DP_SECP384R1_ENABLED`. -/
def ecp_test_case_SECP384R1 : ecp_test_case where
  ecp_group_id := .MBEDTLS_ECP_DP_SECP384R1
  sk := ⟨48,
     [0x35, 0x05, 0x64, 0x07, 0xb0, 0xfd, 0x3e, 0x09, 0xe3, 0x07, 0x41, 0xdc, 0x8a, 0xd3, 0xef,
      0xc7, 0xad, 0x29, 0xc5, 0x97, 0x8a, 0xbb, 0x15, 0x10, 0xac, 0xd2, 0x47, 0xac, 0xdc, 0xa7,
      0x45, 0xf0, 0x27, 0x17, 0x8f, 0x4a, 0x7a, 0xd1, 0xcc, 0xd2, 0x17, 0xc2, 0x22, 0x6a, 0x99,
      0xf1, 0x8b, 0xc0]⟩
  sk_len := 48
  pk := ⟨97,
     [0x04, 0xc8, 0x2d, 0xaa, 0x27, 0xd0, 0x91, 0x1f, 0x3d, 0x41, 0xf5, 0xe7, 0xa6, 0x46, 0xae,
      0xf8, 0xca, 0x74, 0x31, 0x63, 0xe2, 0x1f, 0x38, 0x25, 0x05, 0x5f, 0xa0, 0xfa, 0x49, 0x51,
      0x71, 0xea, 0x4f, 0xb6, 0x1a, 0xc3, 0xfd, 0xf3, 0x8e, 0x95, 0xe6, 0xfe, 0x7b, 0xff, 0x65,
      0x26, 0xd4, 0xf0, 0x8e, 0x06, 0x70, 0x03, 0x10, 0xba, 0xd8, 0x7c, 0x54, 0x55, 0x23, 0x18,
      0x57, 0x27, 0x6d, 0xe2, 0xc4, 0x4e, 0x30, 0xb7, 0x36, 0xdc, 0x15, 0xb6, 0xdf, 0xaf, 0xb0,
      0xe4, 0x78, 0xbb, 0xad, 0x1d, 0xf0, 0x50, 0x00, 0xbd, 0x90, 0xfa, 0x4c, 0xb3, 0x3d, 0xbc,
      0xf9, 0x54, 0xf6, 0x61, 0xaf, 0xcb, 0xfc]⟩
  pk_len := 97
  sum := some (⟨97,
     [0x04, 0xf5, 0xf1, 0x09, 0xb7, 0x3d, 0x7e, 0x05, 0x13, 0xc7, 0x6a, 0x99, 0x17, 0xcf, 0x3b,
      0x5a, 0x5a, 0x04, 0x1a, 0x6e, 0xa4, 0x23, 0x9d, 0x47, 0xab, 0x04, 0x5e, 0xe4, 0x83, 0xa3,
      0x0b, 0xac, 0x16, 0x2d, 0x6e, 0x5d, 0x87, 0x23, 0xcd, 0xbc, 0x3b, 0xdb, 0xb7, 0x21, 0xc1,
      0x18, 0x19, 0x8d, 0x3b, 0x80, 0x6f, 0x93, 0xa6, 0xbd, 0xa0, 0x72, 0x7d, 0x58, 0x90, 0xa4,
      0x87, 0x8a, 0xe4, 0x6d, 0x1c, 0xf5, 0xeb, 0x3b, 0x8b, 0x38, 0x97, 0x42, 0x33, 0x3c, 0x9e,
      0x43, 0x4d, 0x63, 0x7a, 0x21, 0x9e, 0x02, 0x7a, 0x0d, 0x19, 0x26, 0x45, 0xa8, 0x74, 0x29,
      0x7c, 0x24, 0x8e, 0x71, 0x95, 0xcf, 0x9d]⟩)

/-- Table entry guarded by `MBEDTLS_ECP_DP_BP384R1_ENABLED`. -/
def ecp_test_case_BP384R1 : ecp_test_case where
  ecp_group_id := .MBEDTLS_ECP_DP_BP384R1
  sk := ⟨48,
     [0x50, 0xff, 0xbb, 0xab, 0x9c, 0x62, 0x8c, 0x3e, 0xc4, 0x1d, 0xb9, 0x00, 0x5e, 0x1a, 0xf0,
      0x8d, 0x64, 0x58, 0x44, 0x97, 0x2c, 0xf5, 0x2f, 0xcf, 0x7d, 0xb8, 0x36, 0xcc, 0x3a, 0x33,
      0x46, 0x85, 0x4c, 0xf5, 0x6f, 0x89, 0xfc, 0xd9, 0xc4, 0x98, 0xc5, 0x12, 0x8a, 0x59, 0xcb,
      0xff, 0x91, 0xc7]⟩
  sk_len := 48
  pk := ⟨97,
     [0x04, 0x3a, 0xef, 0x56, 0x8a, 0x8b, 0x51, 0x2b, 0xb7, 0x49, 0x3c, 0x92, 0xc4, 0x6a, 0x12,
      0xd5, 0x84, 0x2f, 0x53, 0x89, 0x8c, 0x38, 0x29, 0x3f, 0xe0, 0xbc, 0x94, 0x47, 0x5e, 0xd1,
      0x74, 0x04, 0x50, 0x31, 0x6a, 0x80, 0xc3, 0xe3, 0x69, 0x02, 0xac, 0xe7, 0xcd, 0x21, 0x65,
      0x6c, 0x1d, 0x8a, 0x1a, 0x74, 0xf8, 0x79, 0x88, 0x75, 0x42, 0xe1, 0x7c, 0xb1, 0x7d, 0xa7,
      0xf8, 0xda, 0x57, 0xdc, 0x00, 0x1f, 0xd6, 0x07, 0xa6, 0xc6, 0x85, 0xc5, 0x8d, 0xc3, 0xaa,
      0x4c, 0xd1, 0x4f, 0xf9, 0x65, 0xf0, 0x56, 0xce, 0x0f, 0x48, 0x54, 0x9a, 0xf4, 0xe2, 0x15,
      0x08, 0x05, 0x9e, 0xbc, 0xb8, 0x17, 0x03]⟩
  pk_len := 97
  sum := some (⟨97,
     [0x04, 0x7c, 0x9b, 0xab, 0x7c, 0x51, 0xc0, 0x36, 0x5c, 0xdd, 0x22, 0xf7, 0x10, 0xb7, 0x39,
      0x14, 0x50, 0xf9, 0xe1, 0x05, 0x09, 0x74, 0x5b, 0x1a, 0x5c, 0x21, 0xcc, 0x10, 0xca, 0x9a,
      0xf4, 0x3a, 0x72, 0x57, 0x43, 0xfb, 0x52, 0x9e, 0x6d, 0x20, 0x77, 0x4a, 0xcd, 0x6a, 0xd8,
      0xa1, 0x39, 0x94, 0x7e, 0x7e, 0x08, 0x49, 0x91, 0x98, 0x86, 0x76, 0xb7, 0xca, 0xb8, 0xbe,
      0x15, 0xd6, 0x50, 0x64, 0xb2, 0x0c, 0x07, 0x6c, 0x07, 0x0f, 0x48, 0xd4, 0xd9, 0x95, 0x2f,
      0xf0, 0xb0, 0x21, 0xd0, 0x39, 0xe0, 0x43, 0xbd, 0x40, 0x0a, 0xa7, 0x8d, 0xaf, 0x4b, 0xc3,
      0xff, 0xf6, 0x76, 0xd4, 0x19, 0x2f, 0x7f]⟩)

/-- Table entry guarded by `MBEDTLS_ECP_DP_SECP256R1_ENABLED`. -/
def ecp_test_case_SECP256R1 : ecp_test_case where
  ecp_group_id := .MBEDTLS_ECP_DP_SECP256R1
  sk := ⟨32,
     [0x3d, 0x1d, 0x83, 0xfa, 0xf6, 0xbb, 0x86, 0xe9, 0xf8, 0x9e, 0x45, 0x6a, 0xa8, 0x29, 0x6f,
      0x52, 0x04, 0x79, 0xff, 0xc4, 0x94, 0xd8, 0xe0, 0xe7, 0xcd, 0xe8, 0xe0, 0x83, 0xab, 0xcf,
      0x63, 0x0b]⟩
  sk_len := 32
  pk := ⟨65,
     [0x04, 0xd3, 0x48, 0xb6, 0x80, 0x35, 0x49, 0x67, 0x97, 0xc9, 0x28, 0xc4, 0xfe, 0xa6, 0x13,
      0xe1, 0xb3, 0xee, 0x51, 0x95, 0xfd, 0x20, 0x7f, 0xe7, 0xdc, 0x7d, 0xc0, 0x6b, 0x4e, 0xa6,
      0x5d, 0x6f, 0x42, 0x61, 0xc4, 0xeb, 0x3b, 0x95, 0x5e, 0xea, 0x57, 0xe1, 0x21, 0xcc, 0x11,
      0xd6, 0x79, 0x7c, 0x5f, 0xf7, 0x52, 0xea, 0x17, 0x07, 0x81, 0xb5, 0x53, 0x7e, 0xbb, 0x4f,
      0xba, 0xdd, 0xbf, 0xd4, 0x08]⟩
  pk_len := 65
  sum := some (⟨65,
     [0x04, 0xd4, 0x87, 0x27, 0x27, 0xbf, 0xaf, 0x6a, 0xea, 0xb7, 0x84, 0xa8, 0x1a, 0xd8, 0x29,
      0x9e, 0x2b, 0xa7, 0x87, 0x4f, 0xa9, 0xb5, 0x7a, 0x66, 0x5f, 0xbe, 0x5c, 0xef, 0x83, 0x49,
      0x89, 0xd1, 0x34, 0x46, 0x2a, 0x54, 0xe6, 0x92, 0x56, 0xde, 0xcd, 0x44, 0xe9, 0x99, 0x2a,
      0x80, 0xad, 0x78, 0xe6, 0x29, 0xcc, 0x77, 0xdd, 0x1c, 0x93, 0x03, 0xe2, 0xe9, 0x99, 0x58,
      0x86, 0x8f, 0xea, 0xac, 0x3d]⟩)

/-- Table entry guarded by `MBEDTLS_ECP_DP_SECP256K1_ENABLED`. -/
def ecp_test_case_SECP256K1 : ecp_test_case where
  ecp_group_id := .MBEDTLS_ECP_DP_SECP256K1
  sk := ⟨32,
     [0x38, 0x4c, 0x12, 0x83, 0xf8, 0x4d, 0xba, 0x47, 0xcf, 0x6b, 0x71, 0xff, 0xc3, 0x7c, 0x8d,
      0x08, 0x65, 0xee, 0xed, 0x5b, 0x2b, 0x48, 0xf3, 0x79, 0xdf, 0x52, 0x53, 0xff, 0x10, 0xf9,
      0x22, 0x7c]⟩
  sk_len := 32
  pk := ⟨65,
     [0x04, 0x73, 0x06, 0x4b, 0x4b, 0x3e, 0x38, 0x2f, 0xa0, 0x89, 0x1f, 0x61, 0xfc, 0x85, 0xf9,
      0x51, 0xbe, 0xe4, 0x3d, 0x2c, 0xe9, 0x3e, 0xb0, 0x79, 0x77, 0xaf, 0x9f, 0xd7, 0xd9, 0x71,
      0x68, 0x31, 0x22, 0xc4, 0x9a, 0x25, 0x0c, 0x81, 0x64, 0x0a, 0xc7, 0xd5, 0x40, 0xb3, 0xe8,
      0x9f, 0xb5, 0xb3, 0xc4, 0xc9, 0x6a, 0x13, 0x3e, 0xf8, 0x3e, 0x8d, 0xa2, 0xfe, 0x1d, 0xd0,
      0x47, 0x64, 0x88, 0x8e, 0x7a]⟩
  pk_len := 65
  sum := some (⟨65,
     [0x04, 0x50, 0x81, 0x70, 0xde, 0x4b, 0x36, 0x41, 0xe8, 0x1a, 0x41, 0xf0, 0x5b, 0x88, 0x1e,
      0x4e, 0xed, 0xed, 0x46, 0x0c, 0xf3, 0xd5, 0xfb, 0xe6, 0x8a, 0x13, 0xa1, 0xf5, 0x57, 0x69,
      0x0a, 0x3d, 0x33, 0x0f, 0x6f, 0xb5, 0x99, 0x80, 0x58, 0x12, 0xc2, 0x12, 0x62, 0xfc, 0xd2,
      0x5b, 0x2e, 0xa2, 0x27, 0xe7, 0x99, 0xab, 0x91, 0x51, 0x41, 0x0f, 0x06, 0x1e, 0x3d, 0xfd,
      0x06, 0xa1, 0x8a, 0xc7, 0xf2]⟩)

/-- Table entry guarded by `MBEDTLS_ECP_DP_BP256R1_ENABLED`. -/
def ecp_test_case_BP256R1 : ecp_test_case where
  ecp_group_id := .MBEDTLS_ECP_DP_BP256R1
  sk := ⟨32,
     [0xa6, 0xb5, 0x48, 0x3f, 0x74, 0xd9, 0x94, 0x9f, 0x09, 0xcd, 0x56, 0x29, 0x19, 0xde, 0xfc,
      0x41, 0x3a, 0x83, 0xf1, 0x2a, 0xda, 0x4f, 0x5f, 0xf4, 0x8e, 0xb5, 0x20, 0x59, 0x11, 0x8e,
      0xe6, 0x03]⟩
  sk_len := 32
  pk := ⟨65,
     [0x04, 0x95, 0x44, 0xdb, 0xb4, 0xdc, 0x6f, 0x39, 0x23, 0xb1, 0x3b, 0x13, 0xb6, 0xcc, 0xcc,
      0xde, 0xfb, 0xc0, 0x10, 0xfa, 0x8a, 0x06, 0x30, 0xb9, 0x10, 0x22, 0xc8, 0x84, 0x7c, 0xf3,
      0xba, 0xbd, 0x3a, 0x67, 0xb4, 0x48, 0x68, 0x59, 0x54, 0x68, 0xab, 0x2d, 0x2d, 0x6f, 0xa7,
      0xbf, 0x61, 0x92, 0x2b, 0x07, 0xc0, 0x8c, 0xb9, 0x3f, 0x88, 0x02, 0x09, 0xfe, 0xfa, 0x72,
      0x87, 0x19, 0xaa, 0x19, 0xcc]⟩
  pk_len := 65
  sum := some (⟨65,
     [0x04, 0x7d, 0x88, 0xb4, 0x73, 0xa0, 0x7d, 0x66, 0x5c, 0xc2, 0x9b, 0x7a, 0xbc, 0x0c, 0xab,
      0x04, 0xc9, 0x79, 0x3e, 0x9a, 0x4e, 0xd3, 0x27, 0x75, 0x1e, 0x4d, 0x07, 0x7b, 0x5c, 0xbc,
      0xce, 0x15, 0xdb, 0x01, 0xb3, 0xd0, 0xcd, 0x27, 0x1b, 0xe1, 0x57, 0x58, 0x07, 0x88, 0xfd,
      0xfd, 0x89, 0xd7, 0x71, 0xcf, 0xbb, 0xa2, 0xcb, 0x03, 0xd4, 0x34, 0xb1, 0x9e, 0x34, 0x21,
      0x31, 0x07, 0x51, 0x6a, 0x0e]⟩)

/-- Table entry guarded by `MBEDTLS_ECP_DP_SECP224R1_ENABLED`. -/
def ecp_test_case_SECP224R1 : ecp_test_case where
  ecp_group_id := .MBEDTLS_ECP_DP_SECP224R1
  sk := ⟨28,
     [0x34, 0xac, 0xe1, 0x1f, 0xfa, 0x5e, 0x25, 0xac, 0xee, 0x68, 0xa8, 0xc1, 0x47, 0x64, 0xa2,
      0xa4, 0x69, 0xd5, 0x2c, 0x99, 0x3c, 0x77, 0xf9, 0xc2, 0x38, 0x42, 0x79, 0x93]⟩
  sk_len := 28
  pk := ⟨57,
     [0x04, 0x37, 0x84, 0x05, 0x01, 0xf4, 0x98, 0x12, 0x37, 0x5e, 0xf7, 0x13, 0xcb, 0x29, 0x6a,
      0x43, 0xf4, 0x47, 0xd2, 0xe4, 0x14, 0x3c, 0x10, 0xef, 0x9c, 0x00, 0x59, 0xb6, 0x01, 0x69,
      0x71, 0x76, 0x46, 0x9e, 0x85, 0xa7, 0xc6, 0x39, 0x23, 0x59, 0xf7, 0xfd, 0x41, 0xfe, 0xa8,
      0x3e, 0x6b, 0x97, 0x68, 0xe4, 0x5b, 0x1d, 0xea, 0xcd, 0x85, 0x15, 0xa3]⟩
  pk_len := 57
  sum := some (⟨57,
     [0x04, 0x7d, 0x26, 0x1b, 0xf6, 0xb4, 0xa9, 0x45, 0xf8, 0x0f, 0x93, 0xef, 0x05, 0x43, 0x98,
      0x1b, 0x48, 0xf5, 0xea, 0x5c, 0x07, 0x7d, 0xe9, 0x42, 0xc6, 0x9a, 0x11, 0x27, 0x62, 0x00,
      0xef, 0x24, 0x13, 0x53, 0xe0, 0x6b, 0x9b, 0xf5, 0xdd, 0x76, 0xfe, 0xa9, 0xd0, 0x0e, 0xdc,
      0x1f, 0x3d, 0xec, 0x15, 0x36, 0x5e, 0x53, 0xe1, 0x30, 0xb7, 0x25, 0x26]⟩)

/-- Table entry guarded by `MBEDTLS_ECP_DP_SECP224K1_ENABLED`. -/
def ecp_test_case_SECP224K1 : ecp_test_case where
  ecp_group_id := .MBEDTLS_ECP_DP_SECP224K1
  sk := ⟨28,
     [0xba, 0xc8, 0xa0, 0x42, 0xe1, 0x0c, 0xa2, 0xf3, 0xf0, 0x76, 0x04, 0x74, 0xb7, 0x1a, 0x8f,
      0x42, 0xc3, 0x25, 0xeb, 0x57, 0xcd, 0x8d, 0xb0, 0xf9, 0x73, 0x1a, 0x18, 0x26]⟩
  sk_len := 28
  pk := ⟨57,
     [0x04, 0x7f, 0x07, 0xbe, 0xb0, 0x26, 0xd8, 0x6c, 0xe4, 0x09, 0xe8, 0xa6, 0x21, 0x70, 0x37,
      0x52, 0xd6, 0x14, 0x58, 0x4c, 0x99, 0xc8, 0x62, 0x28, 0x6c, 0xeb, 0x3f, 0xf8, 0x30, 0xbb,
      0x82, 0x4c, 0x8a, 0x88, 0xb4, 0x7f, 0x14, 0x17, 0xd0, 0xf5, 0xba, 0xd0, 0x0f, 0xf6, 0xb8,
      0x8c, 0xbb, 0x11, 0x3e, 0x7d, 0x73, 0xc5, 0xf4, 0x4d, 0x22, 0x78, 0x0f]⟩
  pk_len := 57
  sum := some (⟨57,
     [0x04, 0xb2, 0xbe, 0x4b, 0xc0, 0x62, 0xf2, 0xf6, 0x0e, 0x7f, 0x48, 0x25, 0x50, 0x81, 0xed,
      0xac, 0x14, 0xaa, 0x42, 0x5f, 0x0d, 0x12, 0x52, 0x6d, 0xe0, 0xbc, 0x08, 0x0b, 0x9f, 0xc9,
      0x82, 0x19, 0x07, 0xbf, 0x19, 0x1a, 0x1c, 0xdc, 0x75, 0xbc, 0xe4, 0x5d, 0xcb, 0x4b, 0x9f,
      0x2a, 0xbf, 0x1c, 0xd2, 0xa3, 0x63, 0x33, 0x3f, 0x32, 0xd0, 0xcf, 0x33]⟩)

/-- Table entry guarded by `MBEDTLS_ECP_DP_SECP192R1_ENABLED`. -/
def ecp_test_case_SECP192R1 : ecp_test_case where
  ecp_group_id := .MBEDTLS_ECP_DP_SECP192R1
  sk := ⟨24,
     [0x52, 0x9f, 0x95, 0xf5, 0x4e, 0x73, 0xb6, 0x75, 0x14, 0xcc, 0x92, 0x0c, 0xcc, 0x07, 0x84,
      0x06, 0x01, 0xf3, 0xde, 0x42, 0xad, 0x79, 0x6c, 0x82]⟩
  sk_len := 24
  pk := ⟨49,
     [0x04, 0x61, 0xe9, 0x8d, 0x7e, 0x8e, 0x40, 0x31, 0x20, 0x27, 0xfb, 0x3f, 0x45, 0x4b, 0x65,
      0x0e, 0xfc, 0x41, 0x56, 0x49, 0x20, 0xe6, 0x5c, 0xd4, 0xaa, 0x40, 0xfe, 0xbc, 0x03, 0xc1,
      0xfc, 0x0d, 0x5e, 0x4f, 0xe9, 0x55, 0x08, 0x8c, 0x90, 0x04, 0xeb, 0xdc, 0x63, 0x89, 0xb2,
      0x58, 0x28, 0xfa, 0x28]⟩
  pk_len := 49
  sum := some (⟨49,
     [0x04, 0x0a, 0xe7, 0xc5, 0x9e, 0x3b, 0x36, 0xb9, 0x38, 0xdd, 0x75, 0x41, 0x7c, 0x2d, 0x90,
      0xaf, 0x2d, 0x62, 0xf5, 0x5a, 0x86, 0xfe, 0xa0, 0x5f, 0x22, 0xdb, 0xf3, 0xba, 0x49, 0x47,
      0x7d, 0x74, 0x59, 0x02, 0xb3, 0x6c, 0xf2, 0x1e, 0x18, 0x5b, 0xea, 0x1a, 0xcb, 0xb0, 0x1d,
      0x4b, 0x68, 0xec, 0xab]⟩)

/-- Table entry guarded by `MBEDTLS_ECP_DP_SECP192K1_ENABLED`. -/
def ecp_test_case_SECP192K1 : ecp_test_case where
  ecp_group_id := .MBEDTLS_ECP_DP_SECP192K1
  sk := ⟨24,
     [0xf2, 0x58, 0xcf, 0xba, 0xb6, 0xb0, 0xb4, 0x03, 0x9e, 0xb2, 0x74, 0xfc, 0x70, 0xfc, 0x99,
      0x0c, 0xcc, 0xed, 0xf4, 0x5f, 0x32, 0x72, 0x22, 0x94]⟩
  sk_len := 24
  pk := ⟨49,
     [0x04, 0xac, 0xe4, 0x74, 0xd8, 0x67, 0x26, 0x60, 0xff, 0x35, 0x10, 0x74, 0xa1, 0x4e, 0x46,
      0xed, 0x2b, 0x94, 0x10, 0x13, 0x01, 0x51, 0x8f, 0xe7, 0xf1, 0xe8, 0x3d, 0x4a, 0x32, 0x87,
      0xe7, 0x4f, 0x39, 0x87, 0xa5, 0x86, 0xef, 0xd1, 0xc8, 0x12, 0xc8, 0x9b, 0xcd, 0xc6, 0x3d,
      0x8d, 0x7a, 0x1b, 0x70]⟩
  pk_len := 49
  sum := some (⟨49,
     [0x04, 0x7c, 0xe5, 0xe9, 0x57, 0x0c, 0x36, 0x88, 0x8f, 0xaf, 0xe5, 0x4a, 0xac, 0xf2, 0x2d,
      0xf9, 0xba, 0xf9, 0xb5, 0xa2, 0x64, 0xa2, 0x0b, 0x9f, 0x69, 0xfb, 0xc7, 0xe1, 0x88, 0xd1,
      0xf5, 0x56, 0x6c, 0x6b, 0xc7, 0x64, 0x94, 0xd4, 0x86, 0xf3, 0x6a, 0xe3, 0x5d, 0x33, 0xda,
      0x48, 0x62, 0x18, 0x33]⟩)

/-- Table entry guarded by `MBEDTLS_ECP_DP_CURVE25519_ENABLED`. -/
def ecp_test_case_CURVE25519 : ecp_test_case where
  ecp_group_id := .MBEDTLS_ECP_DP_CURVE25519
  sk := ⟨32,
     [0x60, 0xc6, 0x2b, 0x85, 0x21, 0x87, 0xf7, 0xd5, 0xdb, 0x8a, 0xa0, 0x3c, 0xe1, 0x73, 0x66,
      0xe6, 0xcf, 0x57, 0xcd, 0xa2, 0x5a, 0xd0, 0xb1, 0xb8, 0xdd, 0xf1, 0x2f, 0x6e, 0x5f, 0xcd,
      0x50, 0x30]⟩
  sk_len := 32
  pk := ⟨32,
     [0x36, 0xce, 0xe3, 0x98, 0x09, 0xe1, 0x72, 0xca, 0xcd, 0x26, 0x79, 0xa9, 0xbf, 0xc4, 0xda,
      0xd9, 0x65, 0x4a, 0x53, 0x23, 0xf4, 0x02, 0x75, 0x7c, 0xe2, 0xc6, 0x4a, 0x7c, 0x1c, 0xd2,
      0xf6, 0x4d]⟩
  pk_len := 32
  sum := none

/-- Table entry guarded by `MBEDTLS_ECP_DP_CURVE448_ENABLED`. -/
def ecp_test_case_CURVE448 : ecp_test_case where
  ecp_group_id := .MBEDTLS_ECP_DP_CURVE448
  sk := ⟨56,
     [0xf5, 0x73, 0x0e, 0x50, 0xb2, 0xd3, 0x3b, 0x01, 0x28, 0x29, 0xa0, 0xa1, 0x43, 0x92, 0x2f,
      0x05, 0x40, 0xc3, 0x5f, 0xcf, 0xc1, 0x53, 0x49, 0xc2, 0x0c, 0xf4, 0x49, 0x99, 0xdb, 0xb9,
      0x64, 0x10, 0x25, 0x18, 0x82, 0x24, 0x2c, 0xdf, 0x25, 0xb6, 0xac, 0xb1, 0xe6, 0x11, 0x26,
      0xa9, 0x96, 0x16, 0x16, 0x6c, 0x7b, 0xdd, 0x7c, 0x55, 0x5f, 0xf0]⟩
  sk_len := 56
  pk := ⟨56,
     [0x4f, 0xf4, 0xd0, 0x42, 0x1a, 0xa6, 0xfc, 0x2d, 0xba, 0x7b, 0x45, 0x9e, 0xed, 0xd0, 0xf1,
      0x8c, 0xec, 0xeb, 0xae, 0x29, 0x27, 0x9f, 0xc7, 0xe8, 0x8a, 0xc7, 0xeb, 0x3c, 0x18, 0xb8,
      0x7f, 0x66, 0x2f, 0x8b, 0x0d, 0x68, 0xe8, 0x2e, 0x60, 0x91, 0x27, 0xa2, 0x8c, 0x91, 0x2c,
      0xf4, 0xa1, 0x58, 0x74, 0xc9, 0x40, 0xfe, 0x50, 0x06, 0x1b, 0xe7]⟩
  pk_len := 56
  sum := none

/-- Build-time curve selection: which of the `MBEDTLS_ECP_DP_*_ENABLED` macros
the build defines. -/
structure BuildConfig where
  MBEDTLS_ECP_DP_SECP521R1_ENABLED : Bool
  MBEDTLS_ECP_DP_BP512R1_ENABLED : Bool
  MBEDTLS_ECP_DP_SECP384R1_ENABLED : Bool
  MBEDTLS_ECP_DP_BP384R1_ENABLED : Bool
  MBEDTLS_ECP_DP_SECP256R1_ENABLED : Bool
  MBEDTLS_ECP_DP_SECP256K1_ENABLED : Bool
  MBEDTLS_ECP_DP_BP256R1_ENABLED : Bool
  MBEDTLS_ECP_DP_SECP224R1_ENABLED : Bool
  MBEDTLS_ECP_DP_SECP224K1_ENABLED : Bool
  MBEDTLS_ECP_DP_SECP192R1_ENABLED : Bool
  MBEDTLS_ECP_DP_SECP192K1_ENABLED : Bool
  MBEDTLS_ECP_DP_CURVE25519_ENABLED : Bool
  MBEDTLS_ECP_DP_CURVE448_ENABLED : Bool
  deriving DecidableEq, Repr

/-- Configuration with every curve enabled. -/
def BuildConfig.all : BuildConfig :=
  ⟨true, true, true, true, true, true, true, true, true, true, true, true, true⟩

/-- One conditionally compiled table entry (`#if defined(...) ... #endif`). -/
def guarded (enabled : Bool) (e : ecp_test_case) : List ecp_test_case :=
  if enabled then [e] else []

/-- The array `ecp_test_cases` for a given build configuration, entries in
source order. -/
def ecp_test_cases (cfg : BuildConfig) : List ecp_test_case :=
  guarded cfg.MBEDTLS_ECP_DP_SECP521R1_ENABLED ecp_test_case_SECP521R1 ++
  guarded cfg.MBEDTLS_ECP_DP_BP512R1_ENABLED ecp_test_case_BP512R1 ++
  guarded cfg.MBEDTLS_ECP_DP_SECP384R1_ENABLED ecp_test_case_SECP384R1 ++
  guarded cfg.MBEDTLS_ECP_DP_BP384R1_ENABLED ecp_test_case_BP384R1 ++
  guarded cfg.MBEDTLS_ECP_DP_SECP256R1_ENABLED ecp_test_case_SECP256R1 ++
  guarded cfg.MBEDTLS_ECP_DP_SECP256K1_ENABLED ecp_test_case_SECP256K1 ++
  guarded cfg.MBEDTLS_ECP_DP_BP256R1_ENABLED ecp_test_case_BP256R1 ++
  guarded cfg.MBEDTLS_ECP_DP_SECP224R1_ENABLED ecp_test_case_SECP224R1 ++
  guarded cfg.MBEDTLS_ECP_DP_SECP224K1_ENABLED ecp_test_case_SECP224K1 ++
  guarded cfg.MBEDTLS_ECP_DP_SECP192R1_ENABLED ecp_test_case_SECP192R1 ++
  guarded cfg.MBEDTLS_ECP_DP_SECP192K1_ENABLED ecp_test_case_SECP192K1 ++
  guarded cfg.MBEDTLS_ECP_DP_CURVE25519_ENABLED ecp_test_case_CURVE25519 ++
  guarded cfg.MBEDTLS_ECP_DP_CURVE448_ENABLED ecp_test_case_CURVE448

/-! ## External operations -/

/-- Values of `mbedtls_ecp_curve_type` returned by `mbedtls_ecp_get_type`. -/
inductive mbedtls_ecp_curve_type where
  | MBEDTLS_ECP_TYPE_NONE
  | MBEDTLS_ECP_TYPE_SHORT_WEIERSTRASS
  | MBEDTLS_ECP_TYPE_MONTGOMERY
  deriving DecidableEq, Repr

/-- Local objects of `ecp_alt_b91_backend_test` whose addresses are passed to
the library; `ecp_group_G` is the member `ecp_group.G`. -/
inductive Obj where
  | ctr_drbg
  | entropy
  | ecp_group
  | ecp_group_G
  | sk
  | pk
  | pk_ref
  | sum
  | sum_ref
  deriving DecidableEq, Repr

/-- One external call made by the harness, with its arguments and, where the
harness reads it, the value returned.  `init`/`free` stand for the
`mbedtls_*_init` / `mbedtls_*_free` call on the given object.  A byte pointer
into the table is represented by the literal it points to (`none` for `NULL`);
`printbuf` records the bytes of the object its pointer argument designates. -/
inductive Event where
  | printf (text : String)
  | printbuf (label : String) (buf : List Nat) (len : Nat)
  | init (o : Obj)
  | free (o : Obj)
  | ctr_drbg_seed (ret : Int)
  | ecp_curve_info_from_grp_id (id : mbedtls_ecp_group_id)
  | ecp_group_load (id : mbedtls_ecp_group_id) (ret : Int)
  | mpi_read_binary (X : Obj) (buf : compound_literal) (buflen : Nat) (ret : Int)
  | ecp_check_privkey (d : Obj) (ret : Int)
  | ecp_mul (R m P : Obj) (ret : Int)
  | ecp_point_read_binary (P : Obj) (buf : Option compound_literal) (ilen : Nat) (ret : Int)
  | ecp_point_cmp (P Q : Obj) (ret : Int)
  | ecp_check_pubkey (pt : Obj) (ret : Int)
  | ecp_get_type (ret : mbedtls_ecp_curve_type)
  | ecp_muladd (R m P n Q : Obj) (ret : Int)
  | ecp_point_write_binary (P : Obj) (buflen : Nat) (ret : Int)
  | strerror (errnum : Int)
  deriving DecidableEq, Repr

/-- Behaviour of the external operations.  Inside the loop every operation is
called at most once per iteration at each call site, so a behaviour is given by
the value each call site yields at loop index `i`.  `curve_name i` is the
`name` member of the curve info looked up for entry `i`; the source reads it
through the returned pointer without a null check, and the lookup is taken to
succeed for every entry of the table.  `ecp_point_write_binary_*` yields the
status together with the bytes stored in the output buffer (their number is the
value stored in `buf_len`). -/
structure Env where
  ctr_drbg_seed : Int
  curve_name : Nat → String
  ecp_group_load : Nat → Int
  mpi_read_binary : Nat → Int
  ecp_check_privkey : Nat → Int
  ecp_mul : Nat → Int
  ecp_point_read_binary_pk : Nat → Int
  ecp_point_cmp_pk : Nat → Int
  ecp_check_pubkey : Nat → Int
  ecp_get_type : Nat → mbedtls_ecp_curve_type
  ecp_muladd : Nat → Int
  ecp_point_read_binary_sum : Nat → Int
  ecp_point_cmp_sum : Nat → Int
  ecp_point_write_binary_pk : Nat → Int × List Nat
  ecp_point_write_binary_sum : Nat → Int × List Nat
  strerror : Int → String

/-! ## The harness -/

/-- The statement `if (verbose) mbedtls_printf(text);`. -/
def verbose_printf (verbose : Int) (text : String) : List Event :=
  if verbose ≠ 0 then [Event.printf text] else []

/-- Diagnostics of the public-key mismatch branch (source lines 360-370). -/
def pk_mismatch_diag (env : Env) (verbose : Int) (i : Nat) (tc : ecp_test_case) : List Event :=
  if verbose ≠ 0 then
    [Event.printf "mbedtls_ecp_point_cmp (public key) failed\n",
     Event.printbuf "sk    :" tc.sk.bytes tc.sk_len,
     Event.printbuf "pk ref:" tc.pk.bytes tc.pk_len,
     Event.ecp_point_write_binary Obj.pk tc.pk_len (env.ecp_point_write_binary_pk i).1] ++
    (if (env.ecp_point_write_binary_pk i).1 = 0 then
      [Event.printbuf "pk    :" (env.ecp_point_write_binary_pk i).2
        (env.ecp_point_write_binary_pk i).2.length]
     else [])
  else []

/-- Diagnostics of the sum mismatch branch (source lines 396-407). -/
def sum_mismatch_diag (env : Env) (verbose : Int) (i : Nat) (tc : ecp_test_case) : List Event :=
  if verbose ≠ 0 then
    [Event.printf "mbedtls_ecp_point_cmp (sum) failed\n",
     Event.printbuf "sk     :" tc.sk.bytes tc.sk_len,
     Event.printbuf "pk ref :" tc.pk.bytes tc.pk_len,
     Event.printbuf "sum ref:" tc.pk.bytes tc.pk_len,
     Event.ecp_point_write_binary Obj.sum tc.pk_len (env.ecp_point_write_binary_sum i).1] ++
    (if (env.ecp_point_write_binary_sum i).1 = 0 then
      [Event.printbuf "sum    :" (env.ecp_point_write_binary_sum i).2
        (env.ecp_point_write_binary_sum i).2.length]
     else [])
  else []

/-- The block `do { ... } while (0);` of iteration `i` (source lines 326-409):
the calls made and the value of `result` on leaving the block.  Each
`if ((result = f(...)) != 0) { ...; break; }` leaves the block with the status
just assigned.  The `continue` of line 380 transfers control to the controlling
expression `0` of the `do` statement, hence also leaves the block, with
`result` still holding the status `0` of `mbedtls_ecp_check_pubkey`. -/
def do_block (env : Env) (verbose : Int) (i : Nat) (tc : ecp_test_case) : List Event × Int :=
  let result := env.ecp_group_load i
  let t := [Event.ecp_group_load tc.ecp_group_id result]
  if result ≠ 0 then
    (t ++ verbose_printf verbose "mbedtls_ecp_group_load failed\n", result)
  else
  let result := env.mpi_read_binary i
  let t := t ++ [Event.mpi_read_binary Obj.sk tc.sk tc.sk_len result]
  if result ≠ 0 then
    (t ++ verbose_printf verbose "mbedtls_mpi_read_binary (secret key) failed\n", result)
  else
  let result := env.ecp_check_privkey i
  let t := t ++ [Event.ecp_check_privkey Obj.sk result]
  if result ≠ 0 then
    (t ++ verbose_printf verbose "mbedtls_ecp_check_privkey failed\n", result)
  else
  let result := env.ecp_mul i
  let t := t ++ [Event.ecp_mul Obj.pk Obj.sk Obj.ecp_group_G result]
  if result ≠ 0 then
    (t ++ verbose_printf verbose "mbedtls_ecp_mul failed\n", result)
  else
  let result := env.ecp_point_read_binary_pk i
  let t := t ++ [Event.ecp_point_read_binary Obj.pk_ref (some tc.pk) tc.pk_len result]
  if result ≠ 0 then
    (t ++ verbose_printf verbose
      "mbedtls_ecp_point_read_binary (reference public key) failed\n", result)
  else
  let result := env.ecp_point_cmp_pk i
  let t := t ++ [Event.ecp_point_cmp Obj.pk Obj.pk_ref result]
  if result ≠ 0 then
    (t ++ pk_mismatch_diag env verbose i tc, result)
  else
  let result := env.ecp_check_pubkey i
  let t := t ++ [Event.ecp_check_pubkey Obj.pk result]
  if result ≠ 0 then
    (t ++ verbose_printf verbose "mbedtls_ecp_check_pubkey failed\n", result)
  else
  let t := t ++ [Event.ecp_get_type (env.ecp_get_type i)]
  if env.ecp_get_type i ≠ mbedtls_ecp_curve_type.MBEDTLS_ECP_TYPE_SHORT_WEIERSTRASS then
    (t, result)
  else
  let result := env.ecp_muladd i
  let t := t ++ [Event.ecp_muladd Obj.sum Obj.sk Obj.ecp_group_G Obj.sk Obj.pk result]
  if result ≠ 0 then
    (t ++ verbose_printf verbose "mbedtls_ecp_muladd failed\n", result)
  else
  let result := env.ecp_point_read_binary_sum i
  let t := t ++ [Event.ecp_point_read_binary Obj.sum_ref tc.sum tc.pk_len result]
  if result ≠ 0 then
    (t ++ verbose_printf verbose
      "mbedtls_ecp_point_read_binary (reference sum) failed\n", result)
  else
  let result := env.ecp_point_cmp_sum i
  let t := t ++ [Event.ecp_point_cmp Obj.sum Obj.sum_ref result]
  if result ≠ 0 then
    (t ++ sum_mismatch_diag env verbose i tc, result)
  else
    (t, result)

/-- Start of the body of the `for` statement at index `i` (source lines
307-324): curve-info lookup, the curve name diagnostic, and the six `init`
calls. -/
def vector_prologue (env : Env) (verbose : Int) (i : Nat) (tc : ecp_test_case) : List Event :=
  [Event.ecp_curve_info_from_grp_id tc.ecp_group_id] ++
    verbose_printf verbose ("\tcurve: " ++ env.curve_name i ++ "\n") ++
    [Event.init Obj.ecp_group, Event.init Obj.sk, Event.init Obj.pk, Event.init Obj.pk_ref,
     Event.init Obj.sum, Event.init Obj.sum_ref]

/-- End of the body of the `for` statement (source lines 411-416): the six
`free` calls. -/
def vector_epilogue : List Event :=
  [Event.free Obj.sum_ref, Event.free Obj.sum, Event.free Obj.pk_ref, Event.free Obj.pk,
   Event.free Obj.sk, Event.free Obj.ecp_group]

/-- Body of the `for` statement at index `i` (source lines 307-417). -/
def loop_body (env : Env) (verbose : Int) (i : Nat) (tc : ecp_test_case) : List Event × Int :=
  (vector_prologue env verbose i tc ++ (do_block env verbose i tc).1 ++ vector_epilogue,
   (do_block env verbose i tc).2)

/-- The statement `for (size_t i = 0; result == 0 && i < N; i++) body`, entered
with loop index `i`, the entries `ecp_test_cases[i..N)` still ahead and the
current `result`: the calls of each executed iteration, and the final
`result`. -/
def for_loop (env : Env) (verbose : Int) :
    Nat → List ecp_test_case → Int → List (List Event) × Int
  | _, [], result => ([], result)
  | i, tc :: rest, result =>
    if result = 0 then
      ((loop_body env verbose i tc).1 ::
          (for_loop env verbose (i + 1) rest (loop_body env verbose i tc).2).1,
        (for_loop env verbose (i + 1) rest (loop_body env verbose i tc).2).2)
    else ([], result)

/-- Observable outcome of one call of `ecp_alt_b91_backend_test`: the external
calls made before the loop, in each executed iteration, and after the loop, and
the value returned. -/
structure Run where
  before : List Event
  vectors : List (List Event)
  after : List Event
  result : Int
  deriving DecidableEq, Repr

/-- All external calls of a run, in execution order. -/
def Run.trace (r : Run) : List Event :=
  r.before ++ r.vectors.flatten ++ r.after

/-- Closing diagnostics (source lines 426-434). -/
def final_diag (env : Env) (verbose : Int) (result : Int) : List Event :=
  if verbose ≠ 0 then
    if result = 0 then [Event.printf "test successfully finished\n"]
    else [Event.strerror result,
          Event.printf ("test failed: " ++ env.strerror result ++ "\n")]
  else []

/-- The function `ecp_alt_b91_backend_test(verbose)` over the table compiled
for `cfg` and the external behaviour `env` (source lines 293-436). -/
def ecp_alt_b91_backend_test (cfg : BuildConfig) (env : Env) (verbose : Int) : Run :=
  let before := verbose_printf verbose "test started\n" ++
    [Event.init Obj.ctr_drbg, Event.init Obj.entropy, Event.ctr_drbg_seed env.ctr_drbg_seed]
  let result := env.ctr_drbg_seed
  if result = 0 then
    let r := for_loop env verbose 0 (ecp_test_cases cfg) result
    { before := before
      vectors := r.1
      after := [Event.free Obj.ctr_drbg, Event.free Obj.entropy] ++ final_diag env verbose r.2
      result := r.2 }
  else
    { before := before
      vectors := []
      after := verbose_printf verbose "random failed\n" ++
        [Event.free Obj.ctr_drbg, Event.free Obj.entropy] ++ final_diag env verbose result
      result := result }

/-! ## Vocabulary for stating properties of a run -/

/-- The status-returning library calls of the per-vector procedure: group load,
scalar decode, private-key check, multiplication, point decode, point
comparison, public-key check and multiply-add. -/
def Event.is_step : Event → Bool
  | Event.ecp_group_load _ _ => true
  | Event.mpi_read_binary _ _ _ _ => true
  | Event.ecp_check_privkey _ _ => true
  | Event.ecp_mul _ _ _ _ => true
  | Event.ecp_point_read_binary _ _ _ _ => true
  | Event.ecp_point_cmp _ _ _ => true
  | Event.ecp_check_pubkey _ _ => true
  | Event.ecp_muladd _ _ _ _ _ _ => true
  | _ => false

/-- Calls made only to produce output: printing, the point encoding made for
printing, and `mbedtls_strerror`. -/
def Event.is_diagnostic : Event → Bool
  | Event.printf _ => true
  | Event.printbuf _ _ _ => true
  | Event.ecp_point_write_binary _ _ _ => true
  | Event.strerror _ => true
  | _ => false

/-- Calls that only occur inside the loop over the vectors. -/
def Event.is_vector_op : Event → Bool
  | Event.ecp_curve_info_from_grp_id _ => true
  | Event.ecp_get_type _ => true
  | Event.ecp_point_write_binary _ _ _ => true
  | Event.printbuf _ _ _ => true
  | e => e.is_step

/-- Status recorded with a status-returning call. -/
def Event.ret : Event → Option Int
  | Event.ctr_drbg_seed r => some r
  | Event.ecp_group_load _ r => some r
  | Event.mpi_read_binary _ _ _ r => some r
  | Event.ecp_check_privkey _ r => some r
  | Event.ecp_mul _ _ _ r => some r
  | Event.ecp_point_read_binary _ _ _ r => some r
  | Event.ecp_point_cmp _ _ r => some r
  | Event.ecp_check_pubkey _ r => some r
  | Event.ecp_muladd _ _ _ _ _ r => some r
  | Event.ecp_point_write_binary _ _ r => some r
  | _ => none

/-- The calls that are not diagnostics, in order. -/
def operations (t : List Event) : List Event :=
  t.filter (fun e => !e.is_diagnostic)

/-- Statuses of steps 1-4 of vector `i` (load, scalar decode, private-key
check, multiplication, reference decode, comparison, public-key check). -/
def key_statuses (env : Env) (i : Nat) : List Int :=
  [env.ecp_group_load i, env.mpi_read_binary i, env.ecp_check_privkey i, env.ecp_mul i,
   env.ecp_point_read_binary_pk i, env.ecp_point_cmp_pk i, env.ecp_check_pubkey i]

/-- Statuses of the sum check of vector `i` (multiply-add, sum decode, sum
comparison). -/
def sum_statuses (env : Env) (i : Nat) : List Int :=
  [env.ecp_muladd i, env.ecp_point_read_binary_sum i, env.ecp_point_cmp_sum i]

/-- Statuses of the steps the harness performs for vector `i` when none of
them fails: steps 1-4, followed by the sum check for a short-Weierstrass
group. -/
def step_statuses (env : Env) (i : Nat) : List Int :=
  key_statuses env i ++
    (if env.ecp_get_type i = mbedtls_ecp_curve_type.MBEDTLS_ECP_TYPE_SHORT_WEIERSTRASS
      then sum_statuses env i else [])

/-- Vector `i` passes: every one of its steps returns 0. -/
def vector_passes (env : Env) (i : Nat) : Prop :=
  ∀ s ∈ step_statuses env i, s = 0

/-- First non-zero status of a list, 0 when there is none. -/
def first_failure : List Int → Int
  | [] => 0
  | s :: ss => if s ≠ 0 then s else first_failure ss

/-- The ten status-returning calls of vector `i` in the order of the source,
each with the status the environment gives it. -/
def vector_steps (env : Env) (i : Nat) (tc : ecp_test_case) : List Event :=
  [Event.ecp_group_load tc.ecp_group_id (env.ecp_group_load i),
   Event.mpi_read_binary Obj.sk tc.sk tc.sk_len (env.mpi_read_binary i),
   Event.ecp_check_privkey Obj.sk (env.ecp_check_privkey i),
   Event.ecp_mul Obj.pk Obj.sk Obj.ecp_group_G (env.ecp_mul i),
   Event.ecp_point_read_binary Obj.pk_ref (some tc.pk) tc.pk_len (env.ecp_point_read_binary_pk i),
   Event.ecp_point_cmp Obj.pk Obj.pk_ref (env.ecp_point_cmp_pk i),
   Event.ecp_check_pubkey Obj.pk (env.ecp_check_pubkey i),
   Event.ecp_muladd Obj.sum Obj.sk Obj.ecp_group_G Obj.sk Obj.pk (env.ecp_muladd i),
   Event.ecp_point_read_binary Obj.sum_ref tc.sum tc.pk_len (env.ecp_point_read_binary_sum i),
   Event.ecp_point_cmp Obj.sum Obj.sum_ref (env.ecp_point_cmp_sum i)]

/-! ## Sample behaviours of the external operations -/

/-- Group type reported for the entry at index `i` of the full table: the
first eleven entries are short-Weierstrass, the last two Montgomery. -/
def sample_type (i : Nat) : mbedtls_ecp_curve_type :=
  if i < 11 then mbedtls_ecp_curve_type.MBEDTLS_ECP_TYPE_SHORT_WEIERSTRASS
  else mbedtls_ecp_curve_type.MBEDTLS_ECP_TYPE_MONTGOMERY

/-- Behaviour in which every operation succeeds. -/
def env_ok : Env where
  ctr_drbg_seed := 0
  curve_name := fun _ => "curve"
  ecp_group_load := fun _ => 0
  mpi_read_binary := fun _ => 0
  ecp_check_privkey := fun _ => 0
  ecp_mul := fun _ => 0
  ecp_point_read_binary_pk := fun _ => 0
  ecp_point_cmp_pk := fun _ => 0
  ecp_check_pubkey := fun _ => 0
  ecp_get_type := sample_type
  ecp_muladd := fun _ => 0
  ecp_point_read_binary_sum := fun _ => 0
  ecp_point_cmp_sum := fun _ => 0
  ecp_point_write_binary_pk := fun _ => (0, [])
  ecp_point_write_binary_sum := fun _ => (0, [])
  strerror := fun _ => "error"

/-- Behaviour in which the group load of the first vector fails with
`MBEDTLS_ERR_ECP_FEATURE_UNAVAILABLE` (-0x4E80) and everything else succeeds. -/
def env_load_fails : Env :=
  { env_ok with ecp_group_load := fun i => if i = 0 then -20096 else 0 }

/-- Behaviour in which seeding fails with
`MBEDTLS_ERR_CTR_DRBG_ENTROPY_SOURCE_FAILED` (-0x0034). -/
def env_seed_fails : Env :=
  { env_ok with ctr_drbg_seed := -52 }

/-- Behaviour in which the private-key check of the first vector fails with
`MBEDTLS_ERR_ECP_INVALID_KEY` (-0x4C80). -/
def env_privkey_fails : Env :=
  { env_ok with ecp_check_privkey := fun i => if i = 0 then -19584 else 0 }

/-! ## Byte strings -/

/-- Value of a big-endian byte string. -/
def be_nat (bs : List Nat) : Nat :=
  bs.foldl (fun acc b => acc * 256 + b) 0

/-- Lower-case hexadecimal digit of a value below 16. -/
def hex_digit (n : Nat) : Char :=
  "0123456789abcdef".toList.getD n '0'

/-- Hexadecimal rendering of a byte string, two digits per byte. -/
def hex (bs : List Nat) : List Char :=
  bs.flatMap (fun b => [hex_digit (b / 16), hex_digit (b % 16)])

/-- The text `s` starts with `p`. -/
def begins_with (s : List Char) (p : String) : Bool :=
  s.take p.length == p.toList

/-- The text `s` finishes with `p`. -/
def ends_with (s : List Char) (p : String) : Bool :=
  s.drop (s.length - p.length) == p.toList

/-- The bytes the harness reads for the scalar of an entry: `sk_len` bytes at
`sk`. -/
def ecp_test_case.sk_bytes (tc : ecp_test_case) : List Nat :=
  tc.sk.bytes.take tc.sk_len

/-- The bytes the harness reads for the reference public key of an entry:
`pk_len` bytes at `pk`. -/
def ecp_test_case.pk_bytes (tc : ecp_test_case) : List Nat :=
  tc.pk.bytes.take tc.pk_len

/-- The bytes the harness reads for the reference sum of an entry: `pk_len`
bytes at `sum`, when `sum` is not `NULL`. -/
def ecp_test_case.sum_bytes (tc : ecp_test_case) : Option (List Nat) :=
  tc.sum.map (fun s => s.bytes.take tc.pk_len)

/-- Origin of a curve, read off its identifier: `SECP*` are the SEC/NIST
curves, `BP*` the Brainpool curves, `CURVE*` the Montgomery curves. -/
inductive curve_origin where
  | sec_short_weierstrass
  | brainpool_short_weierstrass
  | montgomery
  deriving DecidableEq, Repr

/-- Origin of each identifier of the table. -/
def mbedtls_ecp_group_id.origin : mbedtls_ecp_group_id → curve_origin
  | MBEDTLS_ECP_DP_SECP521R1 => curve_origin.sec_short_weierstrass
  | MBEDTLS_ECP_DP_BP512R1 => curve_origin.brainpool_short_weierstrass
  | MBEDTLS_ECP_DP_SECP384R1 => curve_origin.sec_short_weierstrass
  | MBEDTLS_ECP_DP_BP384R1 => curve_origin.brainpool_short_weierstrass
  | MBEDTLS_ECP_DP_SECP256R1 => curve_origin.sec_short_weierstrass
  | MBEDTLS_ECP_DP_SECP256K1 => curve_origin.sec_short_weierstrass
  | MBEDTLS_ECP_DP_BP256R1 => curve_origin.brainpool_short_weierstrass
  | MBEDTLS_ECP_DP_SECP224R1 => curve_origin.sec_short_weierstrass
  | MBEDTLS_ECP_DP_SECP224K1 => curve_origin.sec_short_weierstrass
  | MBEDTLS_ECP_DP_SECP192R1 => curve_origin.sec_short_weierstrass
  | MBEDTLS_ECP_DP_SECP192K1 => curve_origin.sec_short_weierstrass
  | MBEDTLS_ECP_DP_CURVE25519 => curve_origin.montgomery
  | MBEDTLS_ECP_DP_CURVE448 => curve_origin.montgomery

/-- Number of table entries of a given origin. -/
def count_origin (o : curve_origin) (l : List ecp_test_case) : Nat :=
  (l.filter (fun e => e.ecp_group_id.origin = o)).length

/-! ## Reference arithmetic of NIST P-256

The sources contain the known-answer vectors but not the curve arithmetic
(it belongs to the library and to the hardware backend).  The definitions below
are the curve secp256r1 of FIPS 186-4 (D.1.2.3) / SEC 2 with the textbook
affine group law, against which the vector is checked. -/

namespace P256

/-- Modelled from the spec: the field prime of the standard NIST P-256 curve,
`2^256 - 2^224 + 2^192 + 2^96 - 1` (the curve constants are not in the
sources). -/
def p : Nat := 0xffffffff00000001000000000000000000000000ffffffffffffffffffffffff

/-- Modelled from the spec: coefficient `a = -3 mod p` of
`y^2 = x^3 + a x + b`. -/
def a : Nat := p - 3

/-- Modelled from the spec: coefficient `b` of NIST P-256. -/
def b : Nat := 0x5ac635d8aa3a93e7b3ebbd55769886bc651d06b0cc53b0f63bce3c3e27d2604b

/-- Modelled from the spec: order of the generator of NIST P-256. -/
def n : Nat := 0xffffffff00000000ffffffffffffffffbce6faada7179e84f3b9cac2fc632551

/-- Modelled from the spec: a point of the curve, the point at infinity or an
affine point with coordinates reduced modulo `p`. -/
inductive Point where
  | infinity
  | affine (x y : Nat)
  deriving DecidableEq, Repr

/-- Modelled from the spec: the generator `G` of NIST P-256. -/
def G : Point :=
  Point.affine 0x6b17d1f2e12c4247f8bce6e563a440f277037d812deb33a0f4a13945d898c296
    0x4fe342e2fe1a7f9b8ee7eb4a7c0f9e162bce33576b315ececbb6406837bf51f5

/-- Modelled from the spec: membership in the curve `y^2 = x^3 + a x + b`
over the field of `p` elements. -/
def on_curve : Point → Bool
  | Point.infinity => true
  | Point.affine x y =>
    decide (x < p ∧ y < p ∧ y * y % p = (x * x * x + a * x + b) % p)

/-- Extended Euclidean algorithm on `(r0, r1)` with cofactors `(t0, t1)`
reduced modulo `p`; for an argument `x` it maintains `r0 = t0 * x` and
`r1 = t1 * x` modulo `p`, and returns the cofactor of the last non-zero
remainder.  `fuel` bounds the number of division steps. -/
def inv_loop : Nat → Nat → Nat → Nat → Nat → Nat
  | 0, _, _, t0, _ => t0
  | fuel + 1, r0, r1, t0, t1 =>
    if r1 = 0 then t0
    else inv_loop fuel r1 (r0 % r1) t1 ((t0 + (p - (r0 / r1) * t1 % p)) % p)

/-- Modelled from the spec: inverse modulo the prime `p` (0 for a multiple of
`p`).  The 512 steps allowed exceed what the Euclidean algorithm needs for
256-bit operands. -/
def inv (x : Nat) : Nat :=
  inv_loop 512 p (x % p) 0 1

/-- Modelled from the spec: the chord-and-tangent group law in affine
coordinates. -/
def add : Point → Point → Point
  | Point.infinity, Q => Q
  | P, Point.infinity => P
  | Point.affine x1 y1, Point.affine x2 y2 =>
    if x1 = x2 then
      if (y1 + y2) % p = 0 then Point.infinity
      else
        let l := (3 * x1 * x1 + a) * inv (2 * y1) % p
        let x3 := (l * l + (p - x1) + (p - x2)) % p
        Point.affine x3 ((l * (x1 + (p - x3)) + (p - y1)) % p)
    else
      let l := (y2 + (p - y1)) * inv (x2 + (p - x1)) % p
      let x3 := (l * l + (p - x1) + (p - x2)) % p
      Point.affine x3 ((l * (x1 + (p - x3)) + (p - y1)) % p)

/-- Double-and-add over the binary digits of `k`, least significant first;
`fuel` is at least the bit length of `k`. -/
def mul_loop : Nat → Nat → Point → Point → Point
  | 0, _, _, acc => acc
  | fuel + 1, k, P, acc =>
    if k = 0 then acc
    else mul_loop fuel (k / 2) (add P P) (if k % 2 = 1 then add acc P else acc)

/-- Modelled from the spec: the scalar multiple `k·P`. -/
def mul (k : Nat) (P : Point) : Point :=
  mul_loop k k P Point.infinity

/-- Modelled from the spec: decoding of the uncompressed encoding
`0x04 || X || Y` with 32-byte big-endian coordinates. -/
def decode_uncompressed : List Nat → Option Point
  | 0x04 :: rest =>
    if rest.length = 64 then some (Point.affine (be_nat (rest.take 32)) (be_nat (rest.drop 32)))
    else none
  | _ => none

end P256

/-! ## Further vocabulary for the harness -/

/-- The calls whose status the harness stores in `result`: the seeding and the
per-vector steps. -/
def Event.is_status_op : Event → Bool
  | Event.ctr_drbg_seed _ => true
  | e => e.is_step

/-- The status-storing calls of a trace, in order. -/
def status_ops (t : List Event) : List Event :=
  t.filter Event.is_status_op

/-- The six objects initialised at the start of each loop iteration. -/
def vector_objects : List Obj :=
  [Obj.ecp_group, Obj.sk, Obj.pk, Obj.pk_ref, Obj.sum, Obj.sum_ref]

/-- Behaviour in which every step succeeds until the sum comparison of the
first vector, which reports a mismatch with `MBEDTLS_ERR_ECP_BAD_INPUT_DATA`
(-0x4F80); the encoding of the computed sum succeeds and stores the bytes
`04 00`. -/
def env_sum_mismatch : Env :=
  { env_ok with
    ecp_point_cmp_sum := fun i => if i = 0 then -20352 else 0
    ecp_point_write_binary_sum := fun _ => (0, [4, 0]) }

/-- The buffers handed to `mbedtls_printbuf` in a trace, each with its label
and length argument, in order. -/
def printed_buffers : List Event → List (String × List Nat × Nat)
  | [] => []
  | Event.printbuf label buf len :: t => (label, buf, len) :: printed_buffers t
  | _ :: t => printed_buffers t

/-! ## Fixed-point arithmetic of `kiss_fft_function.h`

C integers are represented by their values in `Int` (`Nat` for `unsigned int`);
a conversion to a narrower or signed type is an explicit wrap-around.  The
macros of `kiss_fft_fixed_op.h` are not part of the sources; they are taken
with their definitions in the Speex fixed-point header (`fixed_generic.h`). -/

/-- Conversion to `short` (16-bit two's complement). -/
def to_int16 (v : Int) : Int :=
  (v + 32768) % 65536 - 32768

/-- Conversion to `int` (32-bit two's complement). -/
def to_int32 (v : Int) : Int :=
  (v + 2147483648) % 4294967296 - 2147483648

/-- Conversion to `unsigned int` (32 bits). -/
def to_uint32 (v : Int) : Nat :=
  (v % 4294967296).toNat

/-- Modelled from the spec: `EXTEND32(x)` is `(spx_word32_t)(x)`. -/
def EXTEND32 (x : Int) : Int :=
  to_int32 x

/-- Modelled from the spec: `EXTRACT16(x)` is `(spx_word16_t)(x)`. -/
def EXTRACT16 (x : Int) : Int :=
  to_int16 x

/-- Modelled from the spec: `SHR16(a, shift)` is `(a) >> (shift)`, an
arithmetic shift of the promoted operand. -/
def SHR16 (a : Int) (shift : Int) : Int :=
  a >>> shift.toNat

/-- Modelled from the spec: `SHL16(a, shift)` is `(a) << (shift)`, computed in
`int` after promotion. -/
def SHL16 (a : Int) (shift : Int) : Int :=
  to_int32 (a * 2 ^ shift.toNat)

/-- Modelled from the spec: `SHR32(a, shift)` is `(a) >> (shift)`. -/
def SHR32 (a : Int) (shift : Int) : Int :=
  a >>> shift.toNat

/-- Modelled from the spec: `SHL32(a, shift)` is `(a) << (shift)`. -/
def SHL32 (a : Int) (shift : Int) : Int :=
  to_int32 (a * 2 ^ shift.toNat)

/-- Modelled from the spec: `VSHR32(a, shift)` is
`(((shift)>0) ? SHR32(a, shift) : SHL32(a, -(shift)))`. -/
def VSHR32 (a : Int) (shift : Int) : Int :=
  if shift > 0 then SHR32 a shift else SHL32 a (-shift)

/-- Modelled from the spec: `ADD16(a, b)` is
`((spx_word16_t)((spx_word16_t)(a)+(spx_word16_t)(b)))`. -/
def ADD16 (a b : Int) : Int :=
  to_int16 (to_int16 a + to_int16 b)

/-- Modelled from the spec: `MULT16_16(a, b)` is the 32-bit product
`((spx_word32_t)(spx_word16_t)(a))*((spx_word32_t)(spx_word16_t)(b))`. -/
def MULT16_16 (a b : Int) : Int :=
  to_int32 (to_int16 a * to_int16 b)

/-- Modelled from the spec: `SHR(a, shift)` is `((a) >> (shift))`. -/
def SHR (a : Int) (shift : Int) : Int :=
  a >>> shift.toNat

/-- Modelled from the spec: `MULT16_16_Q14(a, b)` is
`(SHR(MULT16_16((a),(b)),14))`. -/
def MULT16_16_Q14 (a b : Int) : Int :=
  SHR (MULT16_16 a b) 14

/-- The function `spx_ilog2(unsigned int x)` (source lines 8-31); `x1` .. `x4`
and `r1` .. `r5` are the values of `x` and `r` after each `if`. -/
def spx_ilog2 (x : Nat) : Int :=
  let r0 : Int := 0
  let x1 := if x ≥ 65536 then x >>> 16 else x
  let r1 := if x ≥ 65536 then r0 + 16 else r0
  let x2 := if x1 ≥ 256 then x1 >>> 8 else x1
  let r2 := if x1 ≥ 256 then r1 + 8 else r1
  let x3 := if x2 ≥ 16 then x2 >>> 4 else x2
  let r3 := if x2 ≥ 16 then r2 + 4 else r2
  let x4 := if x3 ≥ 4 then x3 >>> 2 else x3
  let r4 := if x3 ≥ 4 then r3 + 2 else r3
  let r5 := if x4 ≥ 2 then r4 + 1 else r4
  to_int16 r5

/-- The function `spx_ilog4(unsigned int x)` (source lines 33-52). -/
def spx_ilog4 (x : Nat) : Int :=
  let r0 : Int := 0
  let x1 := if x ≥ 65536 then x >>> 16 else x
  let r1 := if x ≥ 65536 then r0 + 8 else r0
  let x2 := if x1 ≥ 256 then x1 >>> 8 else x1
  let r2 := if x1 ≥ 256 then r1 + 4 else r1
  let x3 := if x2 ≥ 16 then x2 >>> 4 else x2
  let r3 := if x2 ≥ 16 then r2 + 2 else r2
  let r4 := if x3 ≥ 4 then r3 + 1 else r3
  to_int16 r4

/-- Constant `C0` of `spx_sqrt`. -/
def C0 : Int := 3634

/-- Constant `C1` of `spx_sqrt`. -/
def C1 : Int := 21173

/-- Constant `C2` of `spx_sqrt`. -/
def C2 : Int := -12627

/-- Constant `C3` of `spx_sqrt`. -/
def C3 : Int := 4204

/-- The value of `k` in `spx_sqrt(int x)` (source line 80): the argument is
converted to `unsigned int` for the call of `spx_ilog4`. -/
def spx_sqrt_k (x : Int) : Int :=
  to_int32 (spx_ilog4 (to_uint32 x) - 6)

/-- The value of `x` in `spx_sqrt` after the normalisation
`x = VSHR32(x, (k << 1))` (source line 81). -/
def spx_sqrt_normalised (x : Int) : Int :=
  to_int32 (VSHR32 x (to_int32 (spx_sqrt_k x * 2)))

/-- The function `spx_sqrt(int x)` (source lines 76-85). -/
def spx_sqrt (x : Int) : Int :=
  let k := spx_sqrt_k x
  let x := spx_sqrt_normalised x
  let rt := to_int32 (ADD16 C0 (MULT16_16_Q14 x (ADD16 C1 (MULT16_16_Q14 x
    (ADD16 C2 (MULT16_16_Q14 x C3))))))
  let rt := to_int32 (VSHR32 rt (7 - k))
  to_int16 rt

/-- Constant `D0` of `spx_exp2`. -/
def D0 : Int := 16384

/-- Constant `D1` of `spx_exp2`. -/
def D1 : Int := 11356

/-- Constant `D2` of `spx_exp2`. -/
def D2 : Int := 3726

/-- Constant `D3` of `spx_exp2`. -/
def D3 : Int := 1301

/-- The function `spx_exp2(short x)` (source lines 180-192), for `x` in the
range of `short`. -/
def spx_exp2 (x : Int) : Int :=
  let integer := to_int32 (SHR16 x 11)
  if integer > 14 then 0x7fffffff
  else if integer < -15 then 0
  else
    let frac := to_int16 (SHL16 (x - SHL16 integer 11) 3)
    let frac := to_int16 (ADD16 D0 (MULT16_16_Q14 frac (ADD16 D1 (MULT16_16_Q14 frac
      (ADD16 D2 (MULT16_16_Q14 D3 frac))))))
    to_int32 (VSHR32 (EXTEND32 frac) (-integer - 2))

/-! ## Cosine and exponential of `kiss_fft_function.h` -/

/-- The C operator `&` on two `int` operands: bitwise AND of the 32-bit
patterns. -/
def bit_and (a b : Int) : Int :=
  to_int32 (Int.ofNat (to_uint32 a &&& to_uint32 b))

/-- Modelled from the spec: `NEG32(x)` is `(-(x))`. -/
def NEG32 (x : Int) : Int :=
  to_int32 (-x)

/-- Modelled from the spec: `ADD32(a, b)` is
`((spx_word32_t)(a)+(spx_word32_t)(b))`. -/
def ADD32 (a b : Int) : Int :=
  to_int32 (to_int32 a + to_int32 b)

/-- Modelled from the spec: `SUB32(a, b)` is
`((spx_word32_t)(a)-(spx_word32_t)(b))`. -/
def SUB32 (a b : Int) : Int :=
  to_int32 (to_int32 a - to_int32 b)

/-- Modelled from the spec: `SUB16(a, b)` is
`((spx_word16_t)(a)-(spx_word16_t)(b))`, the difference being computed in
`int` after promotion. -/
def SUB16 (a b : Int) : Int :=
  to_int32 (to_int16 a - to_int16 b)

/-- Modelled from the spec: `MIN16(a, b)` is `((a) < (b) ? (a) : (b))`. -/
def MIN16 (a b : Int) : Int :=
  if a < b then a else b

/-- Modelled from the spec: `MULT16_16_P14(a, b)` is
`(SHR(ADD32(8192,MULT16_16((a),(b))),14))`. -/
def MULT16_16_P14 (a b : Int) : Int :=
  SHR (ADD32 8192 (MULT16_16 a b)) 14

/-- Modelled from the spec: `MULT16_16_P15(a, b)` is
`(SHR(ADD32(16384,MULT16_16((a),(b))),15))`. -/
def MULT16_16_P15 (a b : Int) : Int :=
  SHR (ADD32 16384 (MULT16_16 a b)) 15

/-- Constant `L1` of `_spx_cos_pi_2`. -/
def L1 : Int := 32767

/-- Constant `L2` of `_spx_cos_pi_2`. -/
def L2 : Int := -7651

/-- Constant `L3` of `_spx_cos_pi_2`. -/
def L3 : Int := 8277

/-- Constant `L4` of `_spx_cos_pi_2`. -/
def L4 : Int := -626

/-- The function `_spx_cos_pi_2(short x)` (source lines 138-146), for `x` in
the range of `short`. -/
def _spx_cos_pi_2 (x : Int) : Int :=
  let x2 := to_int16 (MULT16_16_P15 x x)
  to_int16 (ADD16 1 (MIN16 32766 (ADD32 (SUB16 L1 x2) (MULT16_16_P15 x2
    (ADD32 L2 (MULT16_16_P15 x2 (ADD32 L3 (MULT16_16_P15 L4 x2))))))))

/-- The value of `x` in `spx_cos_norm(int x)` after the first two statements
(source lines 150-152): reduction to 17 bits, then reflection of the upper half
period. -/
def spx_cos_norm_folded (x : Int) : Int :=
  let x := bit_and x 0x0001ffff
  if x > SHL32 (EXTEND32 1) 16 then SUB32 (SHL32 (EXTEND32 1) 17) x else x

/-- The function `spx_cos_norm(int x)` (source lines 148-167); every `return`
converts its operand to `short`. -/
def spx_cos_norm (x : Int) : Int :=
  let x := spx_cos_norm_folded x
  if bit_and x 0x00007fff ≠ 0 then
    if x < SHL32 (EXTEND32 1) 15 then
      to_int16 (_spx_cos_pi_2 (EXTRACT16 x))
    else
      to_int16 (NEG32 (_spx_cos_pi_2 (EXTRACT16 (to_int32 (65536 - x)))))
  else
    if bit_and x 0x0000ffff ≠ 0 then to_int16 0
    else if bit_and x 0x0001ffff ≠ 0 then to_int16 (-32767)
    else to_int16 32767

/-- The macro `kf_cexp2(x, phase)` (source lines 233-237) for an `int` phase:
the values stored in `(x)->r` and `(x)->i`. -/
def kf_cexp2 (phase : Int) : Int × Int :=
  (spx_cos_norm phase, spx_cos_norm (to_int32 (phase - 32768)))

/-- The function `spx_exp(short x)` (source lines 195-203); the argument of
`spx_exp2` is converted to its parameter type `short`. -/
def spx_exp (x : Int) : Int :=
  if x > 21290 then 0x7fffffff
  else if x < -21290 then 0
  else spx_exp2 (to_int16 (MULT16_16_P14 23637 x))

/-! ## Auxiliary facts -/

theorem first_failure_eq_zero (l : List Int) : first_failure l = 0 ↔ ∀ s ∈ l, s = 0 := by
  induction l with
  | nil => simp [first_failure]
  | cons s ss ih =>
    by_cases h : s = 0
    · simp [first_failure, h, ih]
    · simp [first_failure, h]

/-- Case analysis of `do_block`: one case per way of leaving the block (a failing
step, the `continue` for a group that is not short-Weierstrass, or running to
the end), each with the calls made and the status left in `result`. -/
theorem do_block_cases {motive : List Event × Int → Prop}
    (env : Env) (verbose : Int) (i : Nat) (tc : ecp_test_case)
    (fail1 : env.ecp_group_load i ≠ 0 →
      motive (Event.ecp_group_load tc.ecp_group_id (env.ecp_group_load i) ::
        verbose_printf verbose "mbedtls_ecp_group_load failed\n",
        env.ecp_group_load i))
    (fail2 : env.ecp_group_load i = 0 → env.mpi_read_binary i ≠ 0 →
      motive (Event.ecp_group_load tc.ecp_group_id (env.ecp_group_load i) ::
        Event.mpi_read_binary Obj.sk tc.sk tc.sk_len (env.mpi_read_binary i) ::
        verbose_printf verbose "mbedtls_mpi_read_binary (secret key) failed\n",
        env.mpi_read_binary i))
    (fail3 : env.ecp_group_load i = 0 → env.mpi_read_binary i = 0 → env.ecp_check_privkey i ≠ 0 →
      motive (Event.ecp_group_load tc.ecp_group_id (env.ecp_group_load i) ::
        Event.mpi_read_binary Obj.sk tc.sk tc.sk_len (env.mpi_read_binary i) ::
        Event.ecp_check_privkey Obj.sk (env.ecp_check_privkey i) ::
        verbose_printf verbose "mbedtls_ecp_check_privkey failed\n",
        env.ecp_check_privkey i))
    (fail4 : env.ecp_group_load i = 0 → env.mpi_read_binary i = 0 → env.ecp_check_privkey i = 0 → env.ecp_mul i ≠ 0 →
      motive (Event.ecp_group_load tc.ecp_group_id (env.ecp_group_load i) ::
        Event.mpi_read_binary Obj.sk tc.sk tc.sk_len (env.mpi_read_binary i) ::
        Event.ecp_check_privkey Obj.sk (env.ecp_check_privkey i) ::
        Event.ecp_mul Obj.pk Obj.sk Obj.ecp_group_G (env.ecp_mul i) ::
        verbose_printf verbose "mbedtls_ecp_mul failed\n",
        env.ecp_mul i))
    (fail5 : env.ecp_group_load i = 0 → env.mpi_read_binary i = 0 → env.ecp_check_privkey i = 0 → env.ecp_mul i = 0 → env.ecp_point_read_binary_pk i ≠ 0 →
      motive (Event.ecp_group_load tc.ecp_group_id (env.ecp_group_load i) ::
        Event.mpi_read_binary Obj.sk tc.sk tc.sk_len (env.mpi_read_binary i) ::
        Event.ecp_check_privkey Obj.sk (env.ecp_check_privkey i) ::
        Event.ecp_mul Obj.pk Obj.sk Obj.ecp_group_G (env.ecp_mul i) ::
        Event.ecp_point_read_binary Obj.pk_ref (some tc.pk) tc.pk_len (env.ecp_point_read_binary_pk i) ::
        verbose_printf verbose "mbedtls_ecp_point_read_binary (reference public key) failed\n",
        env.ecp_point_read_binary_pk i))
    (fail6 : env.ecp_group_load i = 0 → env.mpi_read_binary i = 0 → env.ecp_check_privkey i = 0 → env.ecp_mul i = 0 → env.ecp_point_read_binary_pk i = 0 → env.ecp_point_cmp_pk i ≠ 0 →
      motive (Event.ecp_group_load tc.ecp_group_id (env.ecp_group_load i) ::
        Event.mpi_read_binary Obj.sk tc.sk tc.sk_len (env.mpi_read_binary i) ::
        Event.ecp_check_privkey Obj.sk (env.ecp_check_privkey i) ::
        Event.ecp_mul Obj.pk Obj.sk Obj.ecp_group_G (env.ecp_mul i) ::
        Event.ecp_point_read_binary Obj.pk_ref (some tc.pk) tc.pk_len (env.ecp_point_read_binary_pk i) ::
        Event.ecp_point_cmp Obj.pk Obj.pk_ref (env.ecp_point_cmp_pk i) ::
        pk_mismatch_diag env verbose i tc,
        env.ecp_point_cmp_pk i))
    (fail7 : env.ecp_group_load i = 0 → env.mpi_read_binary i = 0 → env.ecp_check_privkey i = 0 → env.ecp_mul i = 0 → env.ecp_point_read_binary_pk i = 0 → env.ecp_point_cmp_pk i = 0 → env.ecp_check_pubkey i ≠ 0 →
      motive (Event.ecp_group_load tc.ecp_group_id (env.ecp_group_load i) ::
        Event.mpi_read_binary Obj.sk tc.sk tc.sk_len (env.mpi_read_binary i) ::
        Event.ecp_check_privkey Obj.sk (env.ecp_check_privkey i) ::
        Event.ecp_mul Obj.pk Obj.sk Obj.ecp_group_G (env.ecp_mul i) ::
        Event.ecp_point_read_binary Obj.pk_ref (some tc.pk) tc.pk_len (env.ecp_point_read_binary_pk i) ::
        Event.ecp_point_cmp Obj.pk Obj.pk_ref (env.ecp_point_cmp_pk i) ::
        Event.ecp_check_pubkey Obj.pk (env.ecp_check_pubkey i) ::
        verbose_printf verbose "mbedtls_ecp_check_pubkey failed\n",
        env.ecp_check_pubkey i))
    (fail8 : env.ecp_group_load i = 0 → env.mpi_read_binary i = 0 → env.ecp_check_privkey i = 0 → env.ecp_mul i = 0 → env.ecp_point_read_binary_pk i = 0 → env.ecp_point_cmp_pk i = 0 → env.ecp_check_pubkey i = 0 → env.ecp_get_type i = mbedtls_ecp_curve_type.MBEDTLS_ECP_TYPE_SHORT_WEIERSTRASS → env.ecp_muladd i ≠ 0 →
      motive (Event.ecp_group_load tc.ecp_group_id (env.ecp_group_load i) ::
        Event.mpi_read_binary Obj.sk tc.sk tc.sk_len (env.mpi_read_binary i) ::
        Event.ecp_check_privkey Obj.sk (env.ecp_check_privkey i) ::
        Event.ecp_mul Obj.pk Obj.sk Obj.ecp_group_G (env.ecp_mul i) ::
        Event.ecp_point_read_binary Obj.pk_ref (some tc.pk) tc.pk_len (env.ecp_point_read_binary_pk i) ::
        Event.ecp_point_cmp Obj.pk Obj.pk_ref (env.ecp_point_cmp_pk i) ::
        Event.ecp_check_pubkey Obj.pk (env.ecp_check_pubkey i) ::
        Event.ecp_get_type (env.ecp_get_type i) ::
        Event.ecp_muladd Obj.sum Obj.sk Obj.ecp_group_G Obj.sk Obj.pk (env.ecp_muladd i) ::
        verbose_printf verbose "mbedtls_ecp_muladd failed\n",
        env.ecp_muladd i))
    (fail9 : env.ecp_group_load i = 0 → env.mpi_read_binary i = 0 → env.ecp_check_privkey i = 0 → env.ecp_mul i = 0 → env.ecp_point_read_binary_pk i = 0 → env.ecp_point_cmp_pk i = 0 → env.ecp_check_pubkey i = 0 → env.ecp_get_type i = mbedtls_ecp_curve_type.MBEDTLS_ECP_TYPE_SHORT_WEIERSTRASS → env.ecp_muladd i = 0 → env.ecp_point_read_binary_sum i ≠ 0 →
      motive (Event.ecp_group_load tc.ecp_group_id (env.ecp_group_load i) ::
        Event.mpi_read_binary Obj.sk tc.sk tc.sk_len (env.mpi_read_binary i) ::
        Event.ecp_check_privkey Obj.sk (env.ecp_check_privkey i) ::
        Event.ecp_mul Obj.pk Obj.sk Obj.ecp_group_G (env.ecp_mul i) ::
        Event.ecp_point_read_binary Obj.pk_ref (some tc.pk) tc.pk_len (env.ecp_point_read_binary_pk i) ::
        Event.ecp_point_cmp Obj.pk Obj.pk_ref (env.ecp_point_cmp_pk i) ::
        Event.ecp_check_pubkey Obj.pk (env.ecp_check_pubkey i) ::
        Event.ecp_get_type (env.ecp_get_type i) ::
        Event.ecp_muladd Obj.sum Obj.sk Obj.ecp_group_G Obj.sk Obj.pk (env.ecp_muladd i) ::
        Event.ecp_point_read_binary Obj.sum_ref tc.sum tc.pk_len (env.ecp_point_read_binary_sum i) ::
        verbose_printf verbose "mbedtls_ecp_point_read_binary (reference sum) failed\n",
        env.ecp_point_read_binary_sum i))
    (fail10 : env.ecp_group_load i = 0 → env.mpi_read_binary i = 0 → env.ecp_check_privkey i = 0 → env.ecp_mul i = 0 → env.ecp_point_read_binary_pk i = 0 → env.ecp_point_cmp_pk i = 0 → env.ecp_check_pubkey i = 0 → env.ecp_get_type i = mbedtls_ecp_curve_type.MBEDTLS_ECP_TYPE_SHORT_WEIERSTRASS → env.ecp_muladd i = 0 → env.ecp_point_read_binary_sum i = 0 → env.ecp_point_cmp_sum i ≠ 0 →
      motive (Event.ecp_group_load tc.ecp_group_id (env.ecp_group_load i) ::
        Event.mpi_read_binary Obj.sk tc.sk tc.sk_len (env.mpi_read_binary i) ::
        Event.ecp_check_privkey Obj.sk (env.ecp_check_privkey i) ::
        Event.ecp_mul Obj.pk Obj.sk Obj.ecp_group_G (env.ecp_mul i) ::
        Event.ecp_point_read_binary Obj.pk_ref (some tc.pk) tc.pk_len (env.ecp_point_read_binary_pk i) ::
        Event.ecp_point_cmp Obj.pk Obj.pk_ref (env.ecp_point_cmp_pk i) ::
        Event.ecp_check_pubkey Obj.pk (env.ecp_check_pubkey i) ::
        Event.ecp_get_type (env.ecp_get_type i) ::
        Event.ecp_muladd Obj.sum Obj.sk Obj.ecp_group_G Obj.sk Obj.pk (env.ecp_muladd i) ::
        Event.ecp_point_read_binary Obj.sum_ref tc.sum tc.pk_len (env.ecp_point_read_binary_sum i) ::
        Event.ecp_point_cmp Obj.sum Obj.sum_ref (env.ecp_point_cmp_sum i) ::
        sum_mismatch_diag env verbose i tc,
        env.ecp_point_cmp_sum i))
    (skip : env.ecp_group_load i = 0 → env.mpi_read_binary i = 0 → env.ecp_check_privkey i = 0 → env.ecp_mul i = 0 → env.ecp_point_read_binary_pk i = 0 → env.ecp_point_cmp_pk i = 0 → env.ecp_check_pubkey i = 0 → env.ecp_get_type i ≠ mbedtls_ecp_curve_type.MBEDTLS_ECP_TYPE_SHORT_WEIERSTRASS →
      motive ([Event.ecp_group_load tc.ecp_group_id (env.ecp_group_load i),
        Event.mpi_read_binary Obj.sk tc.sk tc.sk_len (env.mpi_read_binary i),
        Event.ecp_check_privkey Obj.sk (env.ecp_check_privkey i),
        Event.ecp_mul Obj.pk Obj.sk Obj.ecp_group_G (env.ecp_mul i),
        Event.ecp_point_read_binary Obj.pk_ref (some tc.pk) tc.pk_len (env.ecp_point_read_binary_pk i),
        Event.ecp_point_cmp Obj.pk Obj.pk_ref (env.ecp_point_cmp_pk i),
        Event.ecp_check_pubkey Obj.pk (env.ecp_check_pubkey i),
        Event.ecp_get_type (env.ecp_get_type i)],
        env.ecp_check_pubkey i))
    (done : env.ecp_group_load i = 0 → env.mpi_read_binary i = 0 → env.ecp_check_privkey i = 0 → env.ecp_mul i = 0 → env.ecp_point_read_binary_pk i = 0 → env.ecp_point_cmp_pk i = 0 → env.ecp_check_pubkey i = 0 → env.ecp_get_type i = mbedtls_ecp_curve_type.MBEDTLS_ECP_TYPE_SHORT_WEIERSTRASS → env.ecp_muladd i = 0 → env.ecp_point_read_binary_sum i = 0 → env.ecp_point_cmp_sum i = 0 →
      motive ([Event.ecp_group_load tc.ecp_group_id (env.ecp_group_load i),
        Event.mpi_read_binary Obj.sk tc.sk tc.sk_len (env.mpi_read_binary i),
        Event.ecp_check_privkey Obj.sk (env.ecp_check_privkey i),
        Event.ecp_mul Obj.pk Obj.sk Obj.ecp_group_G (env.ecp_mul i),
        Event.ecp_point_read_binary Obj.pk_ref (some tc.pk) tc.pk_len (env.ecp_point_read_binary_pk i),
        Event.ecp_point_cmp Obj.pk Obj.pk_ref (env.ecp_point_cmp_pk i),
        Event.ecp_check_pubkey Obj.pk (env.ecp_check_pubkey i),
        Event.ecp_get_type (env.ecp_get_type i),
        Event.ecp_muladd Obj.sum Obj.sk Obj.ecp_group_G Obj.sk Obj.pk (env.ecp_muladd i),
        Event.ecp_point_read_binary Obj.sum_ref tc.sum tc.pk_len (env.ecp_point_read_binary_sum i),
        Event.ecp_point_cmp Obj.sum Obj.sum_ref (env.ecp_point_cmp_sum i)],
        env.ecp_point_cmp_sum i))
    : motive (do_block env verbose i tc) := by
  unfold do_block
  simp only []
  by_cases c1 : env.ecp_group_load i ≠ 0
  · rw [if_pos c1]
    exact fail1 c1
  rw [if_neg c1]
  by_cases c2 : env.mpi_read_binary i ≠ 0
  · rw [if_pos c2]
    exact fail2 (not_not.mp c1) c2
  rw [if_neg c2]
  by_cases c3 : env.ecp_check_privkey i ≠ 0
  · rw [if_pos c3]
    exact fail3 (not_not.mp c1) (not_not.mp c2) c3
  rw [if_neg c3]
  by_cases c4 : env.ecp_mul i ≠ 0
  · rw [if_pos c4]
    exact fail4 (not_not.mp c1) (not_not.mp c2) (not_not.mp c3) c4
  rw [if_neg c4]
  by_cases c5 : env.ecp_point_read_binary_pk i ≠ 0
  · rw [if_pos c5]
    exact fail5 (not_not.mp c1) (not_not.mp c2) (not_not.mp c3) (not_not.mp c4) c5
  rw [if_neg c5]
  by_cases c6 : env.ecp_point_cmp_pk i ≠ 0
  · rw [if_pos c6]
    exact fail6 (not_not.mp c1) (not_not.mp c2) (not_not.mp c3) (not_not.mp c4) (not_not.mp c5) c6
  rw [if_neg c6]
  by_cases c7 : env.ecp_check_pubkey i ≠ 0
  · rw [if_pos c7]
    exact fail7 (not_not.mp c1) (not_not.mp c2) (not_not.mp c3) (not_not.mp c4) (not_not.mp c5) (not_not.mp c6) c7
  rw [if_neg c7]
  by_cases c8 : env.ecp_get_type i ≠ mbedtls_ecp_curve_type.MBEDTLS_ECP_TYPE_SHORT_WEIERSTRASS
  · rw [if_pos c8]
    exact skip (not_not.mp c1) (not_not.mp c2) (not_not.mp c3) (not_not.mp c4) (not_not.mp c5) (not_not.mp c6) (not_not.mp c7) c8
  rw [if_neg c8]
  by_cases c9 : env.ecp_muladd i ≠ 0
  · rw [if_pos c9]
    exact fail8 (not_not.mp c1) (not_not.mp c2) (not_not.mp c3) (not_not.mp c4) (not_not.mp c5) (not_not.mp c6) (not_not.mp c7) (not_not.mp c8) c9
  rw [if_neg c9]
  by_cases c10 : env.ecp_point_read_binary_sum i ≠ 0
  · rw [if_pos c10]
    exact fail9 (not_not.mp c1) (not_not.mp c2) (not_not.mp c3) (not_not.mp c4) (not_not.mp c5) (not_not.mp c6) (not_not.mp c7) (not_not.mp c8) (not_not.mp c9) c10
  rw [if_neg c10]
  by_cases c11 : env.ecp_point_cmp_sum i ≠ 0
  · rw [if_pos c11]
    exact fail10 (not_not.mp c1) (not_not.mp c2) (not_not.mp c3) (not_not.mp c4) (not_not.mp c5) (not_not.mp c6) (not_not.mp c7) (not_not.mp c8) (not_not.mp c9) (not_not.mp c10) c11
  rw [if_neg c11]
  exact done (not_not.mp c1) (not_not.mp c2) (not_not.mp c3) (not_not.mp c4) (not_not.mp c5) (not_not.mp c6) (not_not.mp c7) (not_not.mp c8) (not_not.mp c9) (not_not.mp c10) (not_not.mp c11)

theorem do_block_result (env : Env) (verbose : Int) (i : Nat) (tc : ecp_test_case) :
    (do_block env verbose i tc).2 = first_failure (step_statuses env i) := by
  apply do_block_cases (motive := fun x => x.2 = first_failure (step_statuses env i))
    env verbose i tc <;> intros <;>
    simp_all [first_failure, step_statuses, key_statuses, sum_statuses]

theorem loop_body_result (env : Env) (verbose : Int) (i : Nat) (tc : ecp_test_case) :
    (loop_body env verbose i tc).2 = first_failure (step_statuses env i) := by
  simp [loop_body, do_block_result]

theorem loop_body_result_zero (env : Env) (verbose : Int) (i : Nat) (tc : ecp_test_case) :
    (loop_body env verbose i tc).2 = 0 ↔ vector_passes env i := by
  rw [loop_body_result, first_failure_eq_zero]
  rfl

theorem for_loop_nonzero (env : Env) (verbose : Int) (i : Nat) (cases : List ecp_test_case)
    (r : Int) (h : r ≠ 0) : for_loop env verbose i cases r = ([], r) := by
  cases cases <;> simp [for_loop, h]

theorem for_loop_result_zero (env : Env) (verbose : Int) (cases : List ecp_test_case) :
    ∀ i : Nat, (for_loop env verbose i cases 0).2 = 0 ↔
      ∀ j, j < cases.length → vector_passes env (i + j) := by
  induction cases with
  | nil => intro i; simp [for_loop]
  | cons tc rest ih =>
    intro i
    simp only [for_loop, if_true, List.length_cons]
    by_cases hp : (loop_body env verbose i tc).2 = 0
    · rw [hp, ih (i + 1)]
      constructor
      · intro h j hj
        cases j with
        | zero => exact (loop_body_result_zero env verbose i tc).1 hp
        | succ j =>
          have := h j (by omega)
          rwa [show i + 1 + j = i + (j + 1) by omega] at this
      · intro h j hj
        have := h (j + 1) (by omega)
        rwa [show i + (j + 1) = i + 1 + j by omega] at this
    · rw [for_loop_nonzero env verbose (i + 1) rest _ hp]
      constructor
      · intro h; exact absurd h hp
      · intro h
        exact absurd ((loop_body_result_zero env verbose i tc).2 (h 0 (by omega))) hp

theorem for_loop_length (env : Env) (verbose : Int) (cases : List ecp_test_case) :
    ∀ i j : Nat, j < (for_loop env verbose i cases 0).1.length ↔
      j < cases.length ∧ ∀ k, k < j → vector_passes env (i + k) := by
  induction cases with
  | nil => intro i j; simp [for_loop]
  | cons tc rest ih =>
    intro i j
    simp only [for_loop, if_true, List.length_cons]
    cases j with
    | zero => simp
    | succ j =>
      by_cases hp : (loop_body env verbose i tc).2 = 0
      · rw [hp, Nat.succ_lt_succ_iff, ih (i + 1) j]
        have h0 := (loop_body_result_zero env verbose i tc).1 hp
        constructor
        · rintro ⟨h1, h2⟩
          refine ⟨by omega, ?_⟩
          intro k hk
          cases k with
          | zero => exact h0
          | succ k =>
            have := h2 k (by omega)
            rwa [show i + 1 + k = i + (k + 1) by omega] at this
        · rintro ⟨h1, h2⟩
          refine ⟨by omega, ?_⟩
          intro k hk
          have := h2 (k + 1) (by omega)
          rwa [show i + (k + 1) = i + 1 + k by omega] at this
      · rw [for_loop_nonzero env verbose (i + 1) rest _ hp]
        simp only [List.length_nil, Nat.succ_lt_succ_iff, Nat.not_lt_zero, false_iff, not_and]
        intro _ h
        exact hp ((loop_body_result_zero env verbose i tc).2 (h 0 (by omega)))

theorem for_loop_getElem (env : Env) (verbose : Int) (cases : List ecp_test_case) :
    ∀ (i j : Nat) (r : Int) (t : List Event), (for_loop env verbose i cases r).1[j]? = some t →
      ∃ tc, cases[j]? = some tc ∧ t = (loop_body env verbose (i + j) tc).1 := by
  induction cases with
  | nil => intro i j r t h; simp [for_loop] at h
  | cons tc rest ih =>
    intro i j r t h
    by_cases hr : r = 0
    · simp only [for_loop, hr, if_true] at h
      cases j with
      | zero =>
        simp only [List.getElem?_cons_zero, Option.some.injEq] at h
        exact ⟨tc, by simp, h.symm⟩
      | succ j =>
        simp only [List.getElem?_cons_succ] at h
        obtain ⟨tc2, h1, h2⟩ := ih (i + 1) j _ t h
        refine ⟨tc2, by simpa using h1, ?_⟩
        rw [h2, show i + 1 + j = i + (j + 1) by omega]
    · rw [for_loop_nonzero env verbose i _ r hr] at h
      simp at h

theorem for_loop_stops (env : Env) (verbose : Int) (cases : List ecp_test_case) :
    ∀ i j : Nat, j < (for_loop env verbose i cases 0).1.length → ¬ vector_passes env (i + j) →
      (for_loop env verbose i cases 0).1.length = j + 1 ∧
      (for_loop env verbose i cases 0).2 = first_failure (step_statuses env (i + j)) := by
  induction cases with
  | nil => intro i j h; simp [for_loop] at h
  | cons tc rest ih =>
    intro i j h hnp
    simp only [for_loop, if_true, List.length_cons] at h ⊢
    by_cases hp : (loop_body env verbose i tc).2 = 0
    · cases j with
      | zero => exact absurd ((loop_body_result_zero env verbose i tc).1 hp) hnp
      | succ j =>
        rw [hp] at h ⊢
        have h2 := ih (i + 1) j (by omega) (by rwa [show i + 1 + j = i + (j + 1) by omega])
        rw [show i + 1 + j = i + (j + 1) by omega] at h2
        exact ⟨by omega, h2.2⟩
    · rw [for_loop_nonzero env verbose (i + 1) rest _ hp] at h ⊢
      simp only [List.length_nil] at h ⊢
      have hj : j = 0 := by omega
      subst hj
      exact ⟨rfl, loop_body_result env verbose i tc⟩

theorem run_of_seed_ok (cfg : BuildConfig) (env : Env) (verbose : Int)
    (h : env.ctr_drbg_seed = 0) :
    (ecp_alt_b91_backend_test cfg env verbose).vectors =
        (for_loop env verbose 0 (ecp_test_cases cfg) 0).1 ∧
      (ecp_alt_b91_backend_test cfg env verbose).result =
        (for_loop env verbose 0 (ecp_test_cases cfg) 0).2 := by
  simp [ecp_alt_b91_backend_test, h]

theorem run_of_seed_failure (cfg : BuildConfig) (env : Env) (verbose : Int)
    (h : env.ctr_drbg_seed ≠ 0) :
    (ecp_alt_b91_backend_test cfg env verbose).vectors = [] ∧
      (ecp_alt_b91_backend_test cfg env verbose).result = env.ctr_drbg_seed := by
  simp [ecp_alt_b91_backend_test, h]

theorem seed_ok_of_vector (cfg : BuildConfig) (env : Env) (verbose : Int) (i : Nat)
    (h : i < (ecp_alt_b91_backend_test cfg env verbose).vectors.length) :
    env.ctr_drbg_seed = 0 := by
  by_contra hs
  rw [(run_of_seed_failure cfg env verbose hs).1] at h
  simp at h

theorem run_vector_eq (cfg : BuildConfig) (env : Env) (verbose : Int) (i : Nat)
    (t : List Event) (h : (ecp_alt_b91_backend_test cfg env verbose).vectors[i]? = some t) :
    ∃ tc, (ecp_test_cases cfg)[i]? = some tc ∧ t = (loop_body env verbose i tc).1 := by
  have hlt : i < (ecp_alt_b91_backend_test cfg env verbose).vectors.length := by
    by_contra hn
    rw [List.getElem?_eq_none (by omega)] at h
    simp at h
  have hs := seed_ok_of_vector cfg env verbose i hlt
  rw [(run_of_seed_ok cfg env verbose hs).1] at h
  have := for_loop_getElem env verbose (ecp_test_cases cfg) 0 i 0 t h
  simpa using this

theorem run_vector_lt (cfg : BuildConfig) (env : Env) (verbose : Int) (i : Nat)
    (t : List Event) (h : (ecp_alt_b91_backend_test cfg env verbose).vectors[i]? = some t) :
    i < (ecp_alt_b91_backend_test cfg env verbose).vectors.length := by
  by_contra hn
  rw [List.getElem?_eq_none (by omega)] at h
  simp at h

theorem operations_append (a b : List Event) :
    operations (a ++ b) = operations a ++ operations b := by
  simp [operations]

theorem operations_flatten (l : List (List Event)) :
    operations l.flatten = (l.map operations).flatten := by
  induction l with
  | nil => simp [operations]
  | cons a l ih => simp [operations_append, ih]

theorem operations_verbose_printf (verbose : Int) (s : String) :
    operations (verbose_printf verbose s) = [] := by
  unfold verbose_printf operations
  split_ifs <;> simp [Event.is_diagnostic]

theorem operations_pk_mismatch_diag (env : Env) (verbose : Int) (i : Nat) (tc : ecp_test_case) :
    operations (pk_mismatch_diag env verbose i tc) = [] := by
  unfold pk_mismatch_diag operations
  split_ifs <;> simp [Event.is_diagnostic]

theorem operations_sum_mismatch_diag (env : Env) (verbose : Int) (i : Nat) (tc : ecp_test_case) :
    operations (sum_mismatch_diag env verbose i tc) = [] := by
  unfold sum_mismatch_diag operations
  split_ifs <;> simp [Event.is_diagnostic]

theorem operations_final_diag (env : Env) (verbose : Int) (r : Int) :
    operations (final_diag env verbose r) = [] := by
  unfold final_diag operations
  split_ifs <;> simp [Event.is_diagnostic]

theorem operations_cons_step (e : Event) (t : List Event) (h : e.is_diagnostic = false) :
    operations (e :: t) = e :: operations t := by
  simp [operations, h]

theorem verbose_printf_zero (s : String) : verbose_printf 0 s = [] := by
  simp [verbose_printf]

theorem pk_mismatch_diag_zero (env : Env) (i : Nat) (tc : ecp_test_case) :
    pk_mismatch_diag env 0 i tc = [] := by
  simp [pk_mismatch_diag]

theorem sum_mismatch_diag_zero (env : Env) (i : Nat) (tc : ecp_test_case) :
    sum_mismatch_diag env 0 i tc = [] := by
  simp [sum_mismatch_diag]

theorem final_diag_zero (env : Env) (r : Int) : final_diag env 0 r = [] := by
  simp [final_diag]

theorem operations_do_block (env : Env) (verbose : Int) (i : Nat) (tc : ecp_test_case) :
    operations (do_block env verbose i tc).1 = (do_block env 0 i tc).1 := by
  apply do_block_cases (motive := fun x => operations x.1 = (do_block env 0 i tc).1)
    env verbose i tc <;> intros <;>
    simp_all [do_block, operations_cons_step, Event.is_diagnostic, operations_verbose_printf,
      operations_pk_mismatch_diag, operations_sum_mismatch_diag, verbose_printf_zero,
      pk_mismatch_diag_zero, sum_mismatch_diag_zero] <;>
    simp [operations]

theorem operations_loop_body (env : Env) (verbose : Int) (i : Nat) (tc : ecp_test_case) :
    operations (loop_body env verbose i tc).1 = (loop_body env 0 i tc).1 := by
  simp [loop_body, vector_prologue, vector_epilogue, operations_append, operations_do_block,
    operations_verbose_printf, operations_cons_step, Event.is_diagnostic, verbose_printf_zero]
  simp [operations, Event.is_diagnostic]

theorem operations_for_loop (env : Env) (verbose : Int) (cases : List ecp_test_case) :
    ∀ (i : Nat) (r : Int),
      (for_loop env verbose i cases r).1.map operations = (for_loop env 0 i cases r).1 ∧
      (for_loop env verbose i cases r).2 = (for_loop env 0 i cases r).2 := by
  induction cases with
  | nil => intro i r; simp [for_loop]
  | cons tc rest ih =>
    intro i r
    by_cases hr : r = 0
    · simp only [for_loop, hr, if_true, List.map_cons, operations_loop_body]
      rw [loop_body_result env verbose i tc, loop_body_result env 0 i tc]
      exact ⟨by rw [(ih _ _).1], (ih _ _).2⟩
    · simp [for_loop, hr]

theorem run_operations (cfg : BuildConfig) (env : Env) (verbose : Int) :
    (ecp_alt_b91_backend_test cfg env verbose).result =
        (ecp_alt_b91_backend_test cfg env 0).result ∧
      (ecp_alt_b91_backend_test cfg env verbose).vectors.map operations =
        (ecp_alt_b91_backend_test cfg env 0).vectors ∧
      operations (ecp_alt_b91_backend_test cfg env verbose).trace =
        (ecp_alt_b91_backend_test cfg env 0).trace := by
  have hf := operations_for_loop env verbose (ecp_test_cases cfg) 0 0
  by_cases hseed : env.ctr_drbg_seed = 0
  · simp only [ecp_alt_b91_backend_test, hseed, if_true, Run.trace, operations_append,
      operations_flatten, operations_verbose_printf, operations_final_diag, hf.1, hf.2,
      verbose_printf_zero, final_diag_zero]
    simp [operations, Event.is_diagnostic]
  · simp only [ecp_alt_b91_backend_test, hseed, if_false, Run.trace, operations_append,
      operations_flatten, operations_verbose_printf, operations_final_diag,
      verbose_printf_zero, final_diag_zero]
    simp [operations, Event.is_diagnostic]

theorem filter_is_step_prologue (env : Env) (verbose : Int) (i : Nat) (tc : ecp_test_case) :
    (vector_prologue env verbose i tc).filter Event.is_step = [] := by
  unfold vector_prologue verbose_printf
  split_ifs <;> simp [Event.is_step]

theorem filter_is_step_epilogue : vector_epilogue.filter Event.is_step = [] := by
  simp [vector_epilogue, Event.is_step]

theorem filter_is_step_verbose_printf (verbose : Int) (s : String) :
    (verbose_printf verbose s).filter Event.is_step = [] := by
  unfold verbose_printf
  split_ifs <;> simp [Event.is_step]

theorem filter_is_step_pk_mismatch_diag (env : Env) (verbose : Int) (i : Nat)
    (tc : ecp_test_case) : (pk_mismatch_diag env verbose i tc).filter Event.is_step = [] := by
  unfold pk_mismatch_diag
  split_ifs <;> simp [Event.is_step]

theorem filter_is_step_sum_mismatch_diag (env : Env) (verbose : Int) (i : Nat)
    (tc : ecp_test_case) : (sum_mismatch_diag env verbose i tc).filter Event.is_step = [] := by
  unfold sum_mismatch_diag
  split_ifs <;> simp [Event.is_step]

theorem run_next_vector (cfg : BuildConfig) (env : Env) (verbose : Int) (i : Nat)
    (hi : i < (ecp_alt_b91_backend_test cfg env verbose).vectors.length)
    (hp : vector_passes env i) :
    (i + 1 < (ecp_test_cases cfg).length →
      i + 1 < (ecp_alt_b91_backend_test cfg env verbose).vectors.length) ∧
    (i + 1 = (ecp_test_cases cfg).length →
      (ecp_alt_b91_backend_test cfg env verbose).result = 0) := by
  have hs := seed_ok_of_vector cfg env verbose i hi
  obtain ⟨hv, hr⟩ := run_of_seed_ok cfg env verbose hs
  rw [hv] at hi ⊢
  rw [hr]
  have h1 := (for_loop_length env verbose (ecp_test_cases cfg) 0 i).1 hi
  have hall : ∀ k, k < i + 1 → vector_passes env (0 + k) := by
    intro k hk
    by_cases hki : k < i
    · exact h1.2 k hki
    · have : k = i := by omega
      subst this
      simpa using hp
  constructor
  · intro hlt
    exact (for_loop_length env verbose (ecp_test_cases cfg) 0 (i + 1)).2 ⟨hlt, hall⟩
  · intro heq
    rw [for_loop_result_zero]
    intro j hj
    exact hall j (by omega)

/-! ## Claims about the harness -/

/-- C1 (as stated) does not hold: with every curve enabled and seeding
successful, when the group load of vector 0 fails the run executes a single
iteration, so vector 1 (and every later one) is not evaluated, and the load
status is returned. -/
theorem C1_load_failure_aborts_run :
    env_load_fails.ctr_drbg_seed = 0 ∧
    env_load_fails.ecp_group_load 0 ≠ 0 ∧
    1 < (ecp_test_cases BuildConfig.all).length ∧
    ¬ (1 < (ecp_alt_b91_backend_test BuildConfig.all env_load_fails 0).vectors.length) ∧
    (ecp_alt_b91_backend_test BuildConfig.all env_load_fails 0).result = -20096 := by
  decide

/-- C1 (amended): if seeding succeeds and an evaluated vector `i` fails at any
step, the loop guard `result == 0` ends the run: exactly the vectors `0..i` are
evaluated, none after `i`, and the function returns the status of the failing
step; in particular a failing group load is returned as the result. -/
theorem C1_failure_ends_run (cfg : BuildConfig) (env : Env) (verbose : Int) (i : Nat)
    (hseed : env.ctr_drbg_seed = 0)
    (hi : i < (ecp_alt_b91_backend_test cfg env verbose).vectors.length)
    (hfail : ¬ vector_passes env i) :
    (ecp_alt_b91_backend_test cfg env verbose).vectors.length = i + 1 ∧
    (ecp_alt_b91_backend_test cfg env verbose).result = first_failure (step_statuses env i) ∧
    (ecp_alt_b91_backend_test cfg env verbose).result ≠ 0 ∧
    (env.ecp_group_load i ≠ 0 →
      (ecp_alt_b91_backend_test cfg env verbose).result = env.ecp_group_load i) := by
  obtain ⟨hv, hr⟩ := run_of_seed_ok cfg env verbose hseed
  rw [hv] at hi ⊢
  rw [hr]
  have h := for_loop_stops env verbose (ecp_test_cases cfg) 0 i hi (by simpa using hfail)
  simp only [Nat.zero_add] at h
  refine ⟨h.1, h.2, ?_, ?_⟩
  · rw [h.2]
    intro h0
    exact hfail ((first_failure_eq_zero _).1 h0)
  · intro hl
    rw [h.2]
    simp [step_statuses, key_statuses, first_failure, hl]

/-- Witness of C1 (amended) on the behaviour whose first group load fails. -/
theorem C1_failure_ends_run_witness :
    env_load_fails.ctr_drbg_seed = 0 ∧
    0 < (ecp_alt_b91_backend_test BuildConfig.all env_load_fails 1).vectors.length ∧
    ¬ vector_passes env_load_fails 0 ∧
    (ecp_alt_b91_backend_test BuildConfig.all env_load_fails 1).vectors.length = 0 + 1 ∧
    (ecp_alt_b91_backend_test BuildConfig.all env_load_fails 1).result =
      first_failure (step_statuses env_load_fails 0) ∧
    (ecp_alt_b91_backend_test BuildConfig.all env_load_fails 1).result ≠ 0 ∧
    (env_load_fails.ecp_group_load 0 ≠ 0 →
      (ecp_alt_b91_backend_test BuildConfig.all env_load_fails 1).result =
        env_load_fails.ecp_group_load 0) :=
  ⟨by decide, by decide, by unfold vector_passes; decide,
    C1_failure_ends_run BuildConfig.all env_load_fails 1 0 (by decide) (by decide)
      (by unfold vector_passes; decide)⟩

/-- C2: the function returns 0 exactly when seeding returned 0 and every vector
of the table passes, i.e. every step performed for it (steps 1-4, plus
multiply-add, sum decode and sum comparison for a short-Weierstrass group)
returned 0. -/
theorem C2_result_zero_iff_all_pass (cfg : BuildConfig) (env : Env) (verbose : Int) :
    (ecp_alt_b91_backend_test cfg env verbose).result = 0 ↔
      env.ctr_drbg_seed = 0 ∧
      ∀ i, i < (ecp_test_cases cfg).length → ∀ s ∈ step_statuses env i, s = 0 := by
  by_cases hseed : env.ctr_drbg_seed = 0
  · rw [(run_of_seed_ok cfg env verbose hseed).2, for_loop_result_zero]
    simp [hseed, vector_passes]
  · rw [(run_of_seed_failure cfg env verbose hseed).2]
    simp [hseed]

/-- C3: in every evaluated vector, `mbedtls_ecp_muladd` is invoked if and only
if the seven statuses of steps 1-4 are 0 and the loaded group is
short-Weierstrass; every invocation has the arguments `(sum, sk, G, sk, pk)`
where `pk` is the output of the preceding successful `mbedtls_ecp_mul` (not
`pk_ref`), and it only happens after `mbedtls_ecp_get_type` reported
short-Weierstrass. -/
theorem C3_muladd_iff_short_weierstrass (cfg : BuildConfig) (env : Env) (verbose : Int)
    (i : Nat) (t : List Event)
    (ht : (ecp_alt_b91_backend_test cfg env verbose).vectors[i]? = some t) :
    ((∃ R m P n Q ret, Event.ecp_muladd R m P n Q ret ∈ t) ↔
      ((∀ s ∈ key_statuses env i, s = 0) ∧
        env.ecp_get_type i = mbedtls_ecp_curve_type.MBEDTLS_ECP_TYPE_SHORT_WEIERSTRASS)) ∧
    (∀ R m P n Q ret, Event.ecp_muladd R m P n Q ret ∈ t →
      R = Obj.sum ∧ m = Obj.sk ∧ P = Obj.ecp_group_G ∧ n = Obj.sk ∧ Q = Obj.pk ∧
      ret = env.ecp_muladd i ∧
      Event.ecp_mul Obj.pk Obj.sk Obj.ecp_group_G 0 ∈ t ∧
      Event.ecp_get_type mbedtls_ecp_curve_type.MBEDTLS_ECP_TYPE_SHORT_WEIERSTRASS ∈ t) := by
  obtain ⟨tc, _, rfl⟩ := run_vector_eq cfg env verbose i t ht
  simp only [loop_body]
  apply do_block_cases (motive := fun x =>
    ((∃ R m P n Q ret, Event.ecp_muladd R m P n Q ret ∈
        vector_prologue env verbose i tc ++ x.1 ++ vector_epilogue) ↔
      ((∀ s ∈ key_statuses env i, s = 0) ∧
        env.ecp_get_type i = mbedtls_ecp_curve_type.MBEDTLS_ECP_TYPE_SHORT_WEIERSTRASS)) ∧
    (∀ R m P n Q ret, Event.ecp_muladd R m P n Q ret ∈
        vector_prologue env verbose i tc ++ x.1 ++ vector_epilogue →
      R = Obj.sum ∧ m = Obj.sk ∧ P = Obj.ecp_group_G ∧ n = Obj.sk ∧ Q = Obj.pk ∧
      ret = env.ecp_muladd i ∧
      Event.ecp_mul Obj.pk Obj.sk Obj.ecp_group_G 0 ∈
        vector_prologue env verbose i tc ++ x.1 ++ vector_epilogue ∧
      Event.ecp_get_type mbedtls_ecp_curve_type.MBEDTLS_ECP_TYPE_SHORT_WEIERSTRASS ∈
        vector_prologue env verbose i tc ++ x.1 ++ vector_epilogue))
    env verbose i tc <;> intros <;>
    simp_all [key_statuses, vector_prologue, vector_epilogue, verbose_printf, pk_mismatch_diag,
      sum_mismatch_diag]

/-- Witness of C3 on the first vector of the all-passing behaviour. -/
theorem C3_muladd_iff_short_weierstrass_witness :
    (ecp_alt_b91_backend_test BuildConfig.all env_ok 0).vectors[0]? =
        some (loop_body env_ok 0 0 ecp_test_case_SECP521R1).1 ∧
    (((∃ R m P n Q ret, Event.ecp_muladd R m P n Q ret ∈
          (loop_body env_ok 0 0 ecp_test_case_SECP521R1).1) ↔
      ((∀ s ∈ key_statuses env_ok 0, s = 0) ∧
        env_ok.ecp_get_type 0 = mbedtls_ecp_curve_type.MBEDTLS_ECP_TYPE_SHORT_WEIERSTRASS)) ∧
    (∀ R m P n Q ret, Event.ecp_muladd R m P n Q ret ∈
          (loop_body env_ok 0 0 ecp_test_case_SECP521R1).1 →
      R = Obj.sum ∧ m = Obj.sk ∧ P = Obj.ecp_group_G ∧ n = Obj.sk ∧ Q = Obj.pk ∧
      ret = env_ok.ecp_muladd 0 ∧
      Event.ecp_mul Obj.pk Obj.sk Obj.ecp_group_G 0 ∈
        (loop_body env_ok 0 0 ecp_test_case_SECP521R1).1 ∧
      Event.ecp_get_type mbedtls_ecp_curve_type.MBEDTLS_ECP_TYPE_SHORT_WEIERSTRASS ∈
        (loop_body env_ok 0 0 ecp_test_case_SECP521R1).1)) :=
  ⟨rfl, C3_muladd_iff_short_weierstrass BuildConfig.all env_ok 0 0 _ rfl⟩

/-- C4: for an evaluated vector whose group is not short-Weierstrass and whose
steps 1-4 all return 0, the `continue` leaves `result` equal to 0; exactly the
seven calls of steps 1-4 are made, so neither the multiply-add nor the sum
decode nor the sum comparison is performed; the vector passes, the loop goes on
to the next vector when there is one, and the run returns 0 when it was the
last. -/
theorem C4_montgomery_skips_sum_check (cfg : BuildConfig) (env : Env) (verbose : Int)
    (i : Nat) (t : List Event) (tc : ecp_test_case)
    (ht : (ecp_alt_b91_backend_test cfg env verbose).vectors[i]? = some t)
    (htc : (ecp_test_cases cfg)[i]? = some tc)
    (htype : env.ecp_get_type i ≠ mbedtls_ecp_curve_type.MBEDTLS_ECP_TYPE_SHORT_WEIERSTRASS)
    (hkeys : ∀ s ∈ key_statuses env i, s = 0) :
    (do_block env verbose i tc).2 = 0 ∧
    t.filter Event.is_step = (vector_steps env i tc).take 7 ∧
    (∀ R m P n Q ret, Event.ecp_muladd R m P n Q ret ∉ t) ∧
    (∀ buf ilen ret, Event.ecp_point_read_binary Obj.sum_ref buf ilen ret ∉ t) ∧
    (∀ ret, Event.ecp_point_cmp Obj.sum Obj.sum_ref ret ∉ t) ∧
    vector_passes env i ∧
    (i + 1 < (ecp_test_cases cfg).length →
      i + 1 < (ecp_alt_b91_backend_test cfg env verbose).vectors.length) ∧
    (i + 1 = (ecp_test_cases cfg).length →
      (ecp_alt_b91_backend_test cfg env verbose).result = 0) := by
  have hp : vector_passes env i := by
    intro s hs
    simp only [step_statuses, if_neg htype, List.append_nil] at hs
    exact hkeys s hs
  obtain ⟨tc2, htc2, rfl⟩ := run_vector_eq cfg env verbose i t ht
  have htc3 : tc = tc2 := by rw [htc] at htc2; exact Option.some.inj htc2
  subst htc3
  have hnext := run_next_vector cfg env verbose i (run_vector_lt cfg env verbose i _ ht) hp
  refine ⟨?_, ?_, ?_, ?_, ?_, hp, hnext.1, hnext.2⟩
  · rw [do_block_result]
    exact (first_failure_eq_zero _).2 hp
  · simp only [loop_body]
    apply do_block_cases (motive := fun x =>
        (vector_prologue env verbose i tc ++ x.1 ++ vector_epilogue).filter Event.is_step =
          (vector_steps env i tc).take 7) env verbose i tc <;> intros <;>
      simp_all [key_statuses, vector_steps, filter_is_step_prologue, filter_is_step_epilogue,
        Event.is_step]
  · simp only [loop_body]
    apply do_block_cases (motive := fun x => ∀ R m P n Q ret,
        Event.ecp_muladd R m P n Q ret ∉
          vector_prologue env verbose i tc ++ x.1 ++ vector_epilogue) env verbose i tc <;>
      intros <;>
      simp_all [key_statuses, vector_prologue, vector_epilogue, verbose_printf]
  · simp only [loop_body]
    apply do_block_cases (motive := fun x => ∀ buf ilen ret,
        Event.ecp_point_read_binary Obj.sum_ref buf ilen ret ∉
          vector_prologue env verbose i tc ++ x.1 ++ vector_epilogue) env verbose i tc <;>
      intros <;>
      simp_all [key_statuses, vector_prologue, vector_epilogue, verbose_printf]
  · simp only [loop_body]
    apply do_block_cases (motive := fun x => ∀ ret,
        Event.ecp_point_cmp Obj.sum Obj.sum_ref ret ∉
          vector_prologue env verbose i tc ++ x.1 ++ vector_epilogue) env verbose i tc <;>
      intros <;>
      simp_all [key_statuses, vector_prologue, vector_epilogue, verbose_printf]

/-- Witness of C4 on the curve25519 vector (index 11) of the all-passing
behaviour. -/
theorem C4_montgomery_skips_sum_check_witness :
    (ecp_alt_b91_backend_test BuildConfig.all env_ok 0).vectors[11]? =
        some (loop_body env_ok 0 11 ecp_test_case_CURVE25519).1 ∧
    (ecp_test_cases BuildConfig.all)[11]? = some ecp_test_case_CURVE25519 ∧
    env_ok.ecp_get_type 11 ≠ mbedtls_ecp_curve_type.MBEDTLS_ECP_TYPE_SHORT_WEIERSTRASS ∧
    (∀ s ∈ key_statuses env_ok 11, s = 0) ∧
    ((do_block env_ok 0 11 ecp_test_case_CURVE25519).2 = 0 ∧
    (loop_body env_ok 0 11 ecp_test_case_CURVE25519).1.filter Event.is_step =
      (vector_steps env_ok 11 ecp_test_case_CURVE25519).take 7 ∧
    (∀ R m P n Q ret, Event.ecp_muladd R m P n Q ret ∉
      (loop_body env_ok 0 11 ecp_test_case_CURVE25519).1) ∧
    (∀ buf ilen ret, Event.ecp_point_read_binary Obj.sum_ref buf ilen ret ∉
      (loop_body env_ok 0 11 ecp_test_case_CURVE25519).1) ∧
    (∀ ret, Event.ecp_point_cmp Obj.sum Obj.sum_ref ret ∉
      (loop_body env_ok 0 11 ecp_test_case_CURVE25519).1) ∧
    vector_passes env_ok 11 ∧
    (11 + 1 < (ecp_test_cases BuildConfig.all).length →
      11 + 1 < (ecp_alt_b91_backend_test BuildConfig.all env_ok 0).vectors.length) ∧
    (11 + 1 = (ecp_test_cases BuildConfig.all).length →
      (ecp_alt_b91_backend_test BuildConfig.all env_ok 0).result = 0)) :=
  ⟨rfl, rfl, by decide, by decide,
    C4_montgomery_skips_sum_check BuildConfig.all env_ok 0 11 _ ecp_test_case_CURVE25519
      rfl rfl (by decide) (by decide)⟩

/-- C5: if `mbedtls_ctr_drbg_seed` returns a non-zero code, no vector is
evaluated (no iteration of the loop runs and the run contains no group load,
decode, check, multiplication, comparison or other per-vector call) and the
function returns exactly that code. -/
theorem C5_seed_failure_is_fatal (cfg : BuildConfig) (env : Env) (verbose : Int)
    (hseed : env.ctr_drbg_seed ≠ 0) :
    (ecp_alt_b91_backend_test cfg env verbose).vectors = [] ∧
    (∀ e ∈ (ecp_alt_b91_backend_test cfg env verbose).trace, e.is_vector_op = false) ∧
    (ecp_alt_b91_backend_test cfg env verbose).result = env.ctr_drbg_seed := by
  refine ⟨(run_of_seed_failure cfg env verbose hseed).1, ?_,
    (run_of_seed_failure cfg env verbose hseed).2⟩
  simp only [ecp_alt_b91_backend_test, if_neg hseed, Run.trace, verbose_printf, final_diag]
  split_ifs <;> simp [Event.is_vector_op, Event.is_step]

/-- Witness of C5 on the behaviour whose seeding fails. -/
theorem C5_seed_failure_is_fatal_witness :
    env_seed_fails.ctr_drbg_seed ≠ 0 ∧
    ((ecp_alt_b91_backend_test BuildConfig.all env_seed_fails 1).vectors = [] ∧
    (∀ e ∈ (ecp_alt_b91_backend_test BuildConfig.all env_seed_fails 1).trace,
      e.is_vector_op = false) ∧
    (ecp_alt_b91_backend_test BuildConfig.all env_seed_fails 1).result =
      env_seed_fails.ctr_drbg_seed) :=
  ⟨by decide, C5_seed_failure_is_fatal BuildConfig.all env_seed_fails 1 (by decide)⟩

/-- C6: in every evaluated vector the status-returning calls made are an
initial segment of the fixed sequence group load, scalar decode, private-key
check, multiplication by G, reference public-key decode, public-key
comparison, public-key check, multiply-add, reference sum decode, sum
comparison, and every call of that segment except the last returned 0 (a step
is invoked only if all earlier steps returned 0).  When
`mbedtls_ecp_check_privkey` fails, the segment ends at that call at the latest,
so `mbedtls_ecp_mul` and all later steps are not invoked, and `result` is
non-zero after the block and at the end of the run. -/
theorem C6_fail_fast_within_vector (cfg : BuildConfig) (env : Env) (verbose : Int)
    (i : Nat) (t : List Event) (tc : ecp_test_case)
    (ht : (ecp_alt_b91_backend_test cfg env verbose).vectors[i]? = some t)
    (htc : (ecp_test_cases cfg)[i]? = some tc) :
    (∃ k, t.filter Event.is_step = (vector_steps env i tc).take k ∧
      (∀ e ∈ ((vector_steps env i tc).take k).dropLast, e.ret = some 0) ∧
      (env.ecp_check_privkey i ≠ 0 → k ≤ 3 ∧ (do_block env verbose i tc).2 ≠ 0)) ∧
    (env.ecp_check_privkey i ≠ 0 → (ecp_alt_b91_backend_test cfg env verbose).result ≠ 0) := by
  obtain ⟨tc2, htc2, rfl⟩ := run_vector_eq cfg env verbose i t ht
  have htc3 : tc = tc2 := by rw [htc] at htc2; exact Option.some.inj htc2
  subst htc3
  constructor
  swap
  · intro hpriv
    have hfail : ¬ vector_passes env i := by
      intro hp
      exact hpriv (hp _ (by simp [step_statuses, key_statuses]))
    have hlt := run_vector_lt cfg env verbose i _ ht
    have hs := seed_ok_of_vector cfg env verbose i hlt
    obtain ⟨hv, hr⟩ := run_of_seed_ok cfg env verbose hs
    rw [hv] at hlt
    have h := for_loop_stops env verbose (ecp_test_cases cfg) 0 i hlt (by simpa using hfail)
    rw [hr, h.2]
    intro h0
    exact hfail (by simpa using (first_failure_eq_zero _).1 h0)
  simp only [loop_body, do_block_result]
  apply do_block_cases (motive := fun x =>
    ∃ k, (vector_prologue env verbose i tc ++ x.1 ++ vector_epilogue).filter Event.is_step =
        (vector_steps env i tc).take k ∧
      (∀ e ∈ ((vector_steps env i tc).take k).dropLast, e.ret = some 0) ∧
      (env.ecp_check_privkey i ≠ 0 →
        k ≤ 3 ∧ first_failure (step_statuses env i) ≠ 0)) env verbose i tc
  case fail1 =>
    intros
    refine ⟨1, ?_, ?_, ?_⟩ <;>
      simp_all [vector_steps, filter_is_step_prologue, filter_is_step_epilogue,
        filter_is_step_verbose_printf, filter_is_step_pk_mismatch_diag,
        filter_is_step_sum_mismatch_diag, Event.is_step, Event.ret, List.dropLast,
        first_failure, step_statuses, key_statuses]
  case fail2 =>
    intros
    refine ⟨2, ?_, ?_, ?_⟩ <;>
      simp_all [vector_steps, filter_is_step_prologue, filter_is_step_epilogue,
        filter_is_step_verbose_printf, filter_is_step_pk_mismatch_diag,
        filter_is_step_sum_mismatch_diag, Event.is_step, Event.ret, List.dropLast,
        first_failure, step_statuses, key_statuses]
  case fail3 =>
    intros
    refine ⟨3, ?_, ?_, ?_⟩ <;>
      simp_all [vector_steps, filter_is_step_prologue, filter_is_step_epilogue,
        filter_is_step_verbose_printf, filter_is_step_pk_mismatch_diag,
        filter_is_step_sum_mismatch_diag, Event.is_step, Event.ret, List.dropLast,
        first_failure, step_statuses, key_statuses]
  case fail4 =>
    intros
    refine ⟨4, ?_, ?_, ?_⟩ <;>
      simp_all [vector_steps, filter_is_step_prologue, filter_is_step_epilogue,
        filter_is_step_verbose_printf, filter_is_step_pk_mismatch_diag,
        filter_is_step_sum_mismatch_diag, Event.is_step, Event.ret, List.dropLast,
        first_failure, step_statuses, key_statuses]
  case fail5 =>
    intros
    refine ⟨5, ?_, ?_, ?_⟩ <;>
      simp_all [vector_steps, filter_is_step_prologue, filter_is_step_epilogue,
        filter_is_step_verbose_printf, filter_is_step_pk_mismatch_diag,
        filter_is_step_sum_mismatch_diag, Event.is_step, Event.ret, List.dropLast,
        first_failure, step_statuses, key_statuses]
  case fail6 =>
    intros
    refine ⟨6, ?_, ?_, ?_⟩ <;>
      simp_all [vector_steps, filter_is_step_prologue, filter_is_step_epilogue,
        filter_is_step_verbose_printf, filter_is_step_pk_mismatch_diag,
        filter_is_step_sum_mismatch_diag, Event.is_step, Event.ret, List.dropLast,
        first_failure, step_statuses, key_statuses]
  case fail7 =>
    intros
    refine ⟨7, ?_, ?_, ?_⟩ <;>
      simp_all [vector_steps, filter_is_step_prologue, filter_is_step_epilogue,
        filter_is_step_verbose_printf, filter_is_step_pk_mismatch_diag,
        filter_is_step_sum_mismatch_diag, Event.is_step, Event.ret, List.dropLast,
        first_failure, step_statuses, key_statuses]
  case fail8 =>
    intros
    refine ⟨8, ?_, ?_, ?_⟩ <;>
      simp_all [vector_steps, filter_is_step_prologue, filter_is_step_epilogue,
        filter_is_step_verbose_printf, filter_is_step_pk_mismatch_diag,
        filter_is_step_sum_mismatch_diag, Event.is_step, Event.ret, List.dropLast,
        first_failure, step_statuses, key_statuses]
  case fail9 =>
    intros
    refine ⟨9, ?_, ?_, ?_⟩ <;>
      simp_all [vector_steps, filter_is_step_prologue, filter_is_step_epilogue,
        filter_is_step_verbose_printf, filter_is_step_pk_mismatch_diag,
        filter_is_step_sum_mismatch_diag, Event.is_step, Event.ret, List.dropLast,
        first_failure, step_statuses, key_statuses]
  case fail10 =>
    intros
    refine ⟨10, ?_, ?_, ?_⟩ <;>
      simp_all [vector_steps, filter_is_step_prologue, filter_is_step_epilogue,
        filter_is_step_verbose_printf, filter_is_step_pk_mismatch_diag,
        filter_is_step_sum_mismatch_diag, Event.is_step, Event.ret, List.dropLast,
        first_failure, step_statuses, key_statuses]
  case skip =>
    intros
    refine ⟨7, ?_, ?_, ?_⟩ <;>
      simp_all [vector_steps, filter_is_step_prologue, filter_is_step_epilogue,
        filter_is_step_verbose_printf, filter_is_step_pk_mismatch_diag,
        filter_is_step_sum_mismatch_diag, Event.is_step, Event.ret, List.dropLast,
        first_failure, step_statuses, key_statuses]
  case done =>
    intros
    refine ⟨10, ?_, ?_, ?_⟩ <;>
      simp_all [vector_steps, filter_is_step_prologue, filter_is_step_epilogue,
        filter_is_step_verbose_printf, filter_is_step_pk_mismatch_diag,
        filter_is_step_sum_mismatch_diag, Event.is_step, Event.ret, List.dropLast,
        first_failure, step_statuses, key_statuses]

/-- Witness of C6 on the behaviour whose first private-key check fails. -/
theorem C6_fail_fast_within_vector_witness :
    (ecp_alt_b91_backend_test BuildConfig.all env_privkey_fails 0).vectors[0]? =
        some (loop_body env_privkey_fails 0 0 ecp_test_case_SECP521R1).1 ∧
    (ecp_test_cases BuildConfig.all)[0]? = some ecp_test_case_SECP521R1 ∧
    ((∃ k, (loop_body env_privkey_fails 0 0 ecp_test_case_SECP521R1).1.filter Event.is_step =
        (vector_steps env_privkey_fails 0 ecp_test_case_SECP521R1).take k ∧
      (∀ e ∈ ((vector_steps env_privkey_fails 0 ecp_test_case_SECP521R1).take k).dropLast,
        e.ret = some 0) ∧
      (env_privkey_fails.ecp_check_privkey 0 ≠ 0 →
        k ≤ 3 ∧ (do_block env_privkey_fails 0 0 ecp_test_case_SECP521R1).2 ≠ 0)) ∧
    (env_privkey_fails.ecp_check_privkey 0 ≠ 0 →
      (ecp_alt_b91_backend_test BuildConfig.all env_privkey_fails 0).result ≠ 0)) :=
  ⟨rfl, rfl,
    C6_fail_fast_within_vector BuildConfig.all env_privkey_fails 0 0 _ ecp_test_case_SECP521R1
      rfl rfl⟩

/-- C7: the value of `verbose` is purely observational: for any two values
the function returns the same result and makes, vector by vector and over the
whole run, the same sequence of non-diagnostic calls with the same arguments
and statuses; the runs differ only in printing calls, the point encoding made
for printing, and `mbedtls_strerror`, none of which occurs when `verbose` is
0. -/
theorem C7_verbose_is_observational (cfg : BuildConfig) (env : Env) (v1 v2 : Int) :
    (ecp_alt_b91_backend_test cfg env v1).result = (ecp_alt_b91_backend_test cfg env v2).result ∧
    (ecp_alt_b91_backend_test cfg env v1).vectors.map operations =
      (ecp_alt_b91_backend_test cfg env v2).vectors.map operations ∧
    operations (ecp_alt_b91_backend_test cfg env v1).trace =
      operations (ecp_alt_b91_backend_test cfg env v2).trace ∧
    operations (ecp_alt_b91_backend_test cfg env 0).trace =
      (ecp_alt_b91_backend_test cfg env 0).trace := by
  have h1 := run_operations cfg env v1
  have h2 := run_operations cfg env v2
  have h0 := run_operations cfg env 0
  exact ⟨h1.1.trans h2.1.symm, h1.2.1.trans h2.2.1.symm, h1.2.2.trans h2.2.2.symm, h0.2.2⟩

/-! ## Claims about the vector table -/

theorem P256.generator_on_curve : P256.on_curve P256.G = true := by
  decide

theorem P256.inv_samples :
    P256.inv 0 = 0 ∧ P256.inv 1 = 1 ∧ 2 * P256.inv 2 % P256.p = 1 ∧
    (P256.p - 1) * P256.inv (P256.p - 1) % P256.p = 1 ∧
    0xd348b68035496797c928c4fea613e1b3ee5195fd207fe7dc7dc06b4ea65d6f42 *
      P256.inv 0xd348b68035496797c928c4fea613e1b3ee5195fd207fe7dc7dc06b4ea65d6f42 % P256.p = 1 := by
  decide!

theorem P256.mul_small :
    P256.mul 0 P256.G = P256.Point.infinity ∧
    P256.mul 1 P256.G = P256.G ∧
    P256.mul 2 P256.G = P256.add P256.G P256.G ∧
    P256.mul 3 P256.G = P256.add P256.G (P256.add P256.G P256.G) ∧
    P256.mul 5 P256.G =
      P256.add P256.G (P256.add P256.G (P256.add P256.G (P256.add P256.G P256.G))) := by
  decide!

theorem secp256r1_scalar :
    be_nat ecp_test_case_SECP256R1.sk_bytes =
      0x3d1d83faf6bb86e9f89e456aa8296f520479ffc494d8e0e7cde8e083abcf630b := by
  decide

theorem secp256r1_public_point :
    P256.mul 0x3d1d83faf6bb86e9f89e456aa8296f520479ffc494d8e0e7cde8e083abcf630b P256.G =
      P256.Point.affine 0xd348b68035496797c928c4fea613e1b3ee5195fd207fe7dc7dc06b4ea65d6f42
        0x61c4eb3b955eea57e121cc11d6797c5ff752ea170781b5537ebb4fbaddbfd408 := by
  decide!

theorem secp256r1_second_point :
    P256.mul 0x3d1d83faf6bb86e9f89e456aa8296f520479ffc494d8e0e7cde8e083abcf630b
        (P256.Point.affine 0xd348b68035496797c928c4fea613e1b3ee5195fd207fe7dc7dc06b4ea65d6f42
          0x61c4eb3b955eea57e121cc11d6797c5ff752ea170781b5537ebb4fbaddbfd408) =
      P256.Point.affine 0xd20930b9368eb80dbcb52fbdb3030fed0b4d0dba4b80a1b974041ed8421331c9
        0x652d4c9bb14105b50cbaa904be909a06acd6bb354b111f85f5c1e4c634dab229 := by
  decide!

theorem secp256r1_sum_point :
    P256.add
        (P256.Point.affine 0xd348b68035496797c928c4fea613e1b3ee5195fd207fe7dc7dc06b4ea65d6f42
          0x61c4eb3b955eea57e121cc11d6797c5ff752ea170781b5537ebb4fbaddbfd408)
        (P256.Point.affine 0xd20930b9368eb80dbcb52fbdb3030fed0b4d0dba4b80a1b974041ed8421331c9
          0x652d4c9bb14105b50cbaa904be909a06acd6bb354b111f85f5c1e4c634dab229) =
      P256.Point.affine 0xd4872727bfaf6aeab784a81ad8299e2ba7874fa9b57a665fbe5cef834989d134
        0x462a54e69256decd44e9992a80ad78e629cc77dd1c9303e2e99958868feaac3d := by
  decide!

theorem secp256r1_pk_decoded :
    P256.decode_uncompressed ecp_test_case_SECP256R1.pk_bytes =
      some (P256.Point.affine
        0xd348b68035496797c928c4fea613e1b3ee5195fd207fe7dc7dc06b4ea65d6f42
        0x61c4eb3b955eea57e121cc11d6797c5ff752ea170781b5537ebb4fbaddbfd408) := by
  decide

theorem secp256r1_sum_decoded :
    ecp_test_case_SECP256R1.sum_bytes.bind P256.decode_uncompressed =
      some (P256.Point.affine
        0xd4872727bfaf6aeab784a81ad8299e2ba7874fa9b57a665fbe5cef834989d134
        0x462a54e69256decd44e9992a80ad78e629cc77dd1c9303e2e99958868feaac3d) := by
  decide

/-- C8: the secp256r1 known-answer vector is correct on NIST P-256: with `k`
the big-endian value of the `sk` of the table entry, its `pk` decodes (as
`0x04 || X || Y`) to `k·G`, and its `sum` decodes to `k·G + k·(k·G)`; `G` and
`k·G` are points of the curve and `k` lies in `[1, n)`. -/
theorem C8_secp256r1_vector_is_correct :
    P256.decode_uncompressed ecp_test_case_SECP256R1.pk_bytes =
      some (P256.mul (be_nat ecp_test_case_SECP256R1.sk_bytes) P256.G) ∧
    ecp_test_case_SECP256R1.sum_bytes.bind P256.decode_uncompressed =
      some (P256.add (P256.mul (be_nat ecp_test_case_SECP256R1.sk_bytes) P256.G)
        (P256.mul (be_nat ecp_test_case_SECP256R1.sk_bytes)
          (P256.mul (be_nat ecp_test_case_SECP256R1.sk_bytes) P256.G))) ∧
    P256.on_curve P256.G = true ∧
    P256.on_curve (P256.mul (be_nat ecp_test_case_SECP256R1.sk_bytes) P256.G) = true ∧
    (1 ≤ be_nat ecp_test_case_SECP256R1.sk_bytes ∧
      be_nat ecp_test_case_SECP256R1.sk_bytes < P256.n) := by
  rw [secp256r1_scalar, secp256r1_public_point, secp256r1_second_point, secp256r1_sum_point]
  exact ⟨secp256r1_pk_decoded, secp256r1_sum_decoded, by decide, by decide, by decide⟩

set_option maxRecDepth 100000

/-- C9 (as stated) does not hold: the hexadecimal rendering of the 65-byte `pk`
of the SECP256R1 entry does not end in `dd408`; its last bytes are
`dd bf d4 08`, so it ends in `ddbfd408`. -/
theorem C9_secp256r1_pk_suffix_differs :
    (ecp_test_cases BuildConfig.all)[4]? = some ecp_test_case_SECP256R1 ∧
    ecp_test_case_SECP256R1.ecp_group_id = mbedtls_ecp_group_id.MBEDTLS_ECP_DP_SECP256R1 ∧
    ends_with (hex ecp_test_case_SECP256R1.pk_bytes) "dd408" = false ∧
    ends_with (hex ecp_test_case_SECP256R1.pk_bytes) "ddbfd408" = true := by
  decide

/-- C9 (amended): the SECP256R1 entry has a 32-byte `sk` with hex prefix
`3d1d83fa` and hex suffix `630b`, a 65-byte `pk` with hex prefix `04d348b680`
and hex suffix `ddbfd408`, and a 65-byte `sum` with hex prefix `04d4872727` and
hex suffix `ac3d`; the CURVE25519 entry has a 32-byte `sk` with hex prefix
`60c62b85` and hex suffix `5030`, a 32-byte `pk` with hex prefix `36cee398` and
hex suffix `f64d`, and no `sum`.  Each is the only entry of the table with its
identifier. -/
theorem C9_table_carries_scenarios :
    ((ecp_test_cases BuildConfig.all).filter
        (fun e => e.ecp_group_id = mbedtls_ecp_group_id.MBEDTLS_ECP_DP_SECP256R1) =
      [ecp_test_case_SECP256R1] ∧
    ecp_test_case_SECP256R1.sk_len = 32 ∧
    ecp_test_case_SECP256R1.sk_bytes.length = 32 ∧
    begins_with (hex ecp_test_case_SECP256R1.sk_bytes) "3d1d83fa" = true ∧
    ends_with (hex ecp_test_case_SECP256R1.sk_bytes) "630b" = true ∧
    ecp_test_case_SECP256R1.pk_len = 65 ∧
    ecp_test_case_SECP256R1.pk_bytes.length = 65 ∧
    begins_with (hex ecp_test_case_SECP256R1.pk_bytes) "04d348b680" = true ∧
    ends_with (hex ecp_test_case_SECP256R1.pk_bytes) "ddbfd408" = true ∧
    (∃ s, ecp_test_case_SECP256R1.sum_bytes = some s ∧ s.length = 65 ∧
      begins_with (hex s) "04d4872727" = true ∧ ends_with (hex s) "ac3d" = true)) ∧
    ((ecp_test_cases BuildConfig.all).filter
        (fun e => e.ecp_group_id = mbedtls_ecp_group_id.MBEDTLS_ECP_DP_CURVE25519) =
      [ecp_test_case_CURVE25519] ∧
    ecp_test_case_CURVE25519.sk_len = 32 ∧
    ecp_test_case_CURVE25519.sk_bytes.length = 32 ∧
    begins_with (hex ecp_test_case_CURVE25519.sk_bytes) "60c62b85" = true ∧
    ends_with (hex ecp_test_case_CURVE25519.sk_bytes) "5030" = true ∧
    ecp_test_case_CURVE25519.pk_len = 32 ∧
    ecp_test_case_CURVE25519.pk_bytes.length = 32 ∧
    begins_with (hex ecp_test_case_CURVE25519.pk_bytes) "36cee398" = true ∧
    ends_with (hex ecp_test_case_CURVE25519.pk_bytes) "f64d" = true ∧
    ecp_test_case_CURVE25519.sum = none) := by
  refine ⟨⟨by decide, by decide, by decide, by decide, by decide, by decide, by decide,
    by decide, by decide, ⟨_, rfl, by decide, by decide, by decide⟩⟩,
    by decide, by decide, by decide, by decide, by decide, by decide, by decide, by decide,
    by decide, by decide⟩

/-- C10 (as stated) does not hold: with every curve enabled the table does not
have eleven entries made of five SEC/NIST, four Brainpool and two Montgomery
curves. -/
theorem C10_table_is_not_eleven_entries :
    ¬ ((ecp_test_cases BuildConfig.all).length = 11 ∧
      count_origin curve_origin.sec_short_weierstrass (ecp_test_cases BuildConfig.all) = 5 ∧
      count_origin curve_origin.brainpool_short_weierstrass (ecp_test_cases BuildConfig.all) = 4 ∧
      count_origin curve_origin.montgomery (ecp_test_cases BuildConfig.all) = 2) := by
  decide

/-- C10 (amended): with every curve enabled the table holds exactly thirteen
entries, namely eight SEC/NIST short-Weierstrass curves (secp521r1, secp384r1,
secp256r1, secp256k1, secp224r1, secp224k1, secp192r1, secp192k1), three
Brainpool short-Weierstrass curves (512, 384 and 256 bit) and two Montgomery
curves, in the order of the source. -/
theorem C10_table_composition :
    (ecp_test_cases BuildConfig.all).length = 13 ∧
    count_origin curve_origin.sec_short_weierstrass (ecp_test_cases BuildConfig.all) = 8 ∧
    count_origin curve_origin.brainpool_short_weierstrass (ecp_test_cases BuildConfig.all) = 3 ∧
    count_origin curve_origin.montgomery (ecp_test_cases BuildConfig.all) = 2 ∧
    (ecp_test_cases BuildConfig.all).map (fun e => e.ecp_group_id) =
      [mbedtls_ecp_group_id.MBEDTLS_ECP_DP_SECP521R1, mbedtls_ecp_group_id.MBEDTLS_ECP_DP_BP512R1,
       mbedtls_ecp_group_id.MBEDTLS_ECP_DP_SECP384R1, mbedtls_ecp_group_id.MBEDTLS_ECP_DP_BP384R1,
       mbedtls_ecp_group_id.MBEDTLS_ECP_DP_SECP256R1,
       mbedtls_ecp_group_id.MBEDTLS_ECP_DP_SECP256K1, mbedtls_ecp_group_id.MBEDTLS_ECP_DP_BP256R1,
       mbedtls_ecp_group_id.MBEDTLS_ECP_DP_SECP224R1,
       mbedtls_ecp_group_id.MBEDTLS_ECP_DP_SECP224K1,
       mbedtls_ecp_group_id.MBEDTLS_ECP_DP_SECP192R1,
       mbedtls_ecp_group_id.MBEDTLS_ECP_DP_SECP192K1,
       mbedtls_ecp_group_id.MBEDTLS_ECP_DP_CURVE25519,
       mbedtls_ecp_group_id.MBEDTLS_ECP_DP_CURVE448] := by
  decide

/-! ## Further claims about the table and the harness -/

theorem guarded_sublist (enabled : Bool) (e : ecp_test_case) :
    List.Sublist (guarded enabled e) [e] := by
  cases enabled <;> simp [guarded]

theorem ecp_test_cases_sublist (cfg : BuildConfig) :
    List.Sublist (ecp_test_cases cfg) (ecp_test_cases BuildConfig.all) := by
  have h : ecp_test_cases BuildConfig.all =
      [ecp_test_case_SECP521R1] ++ [ecp_test_case_BP512R1] ++ [ecp_test_case_SECP384R1] ++
      [ecp_test_case_BP384R1] ++ [ecp_test_case_SECP256R1] ++ [ecp_test_case_SECP256K1] ++
      [ecp_test_case_BP256R1] ++ [ecp_test_case_SECP224R1] ++ [ecp_test_case_SECP224K1] ++
      [ecp_test_case_SECP192R1] ++ [ecp_test_case_SECP192K1] ++ [ecp_test_case_CURVE25519] ++
      [ecp_test_case_CURVE448] := rfl
  rw [h]
  unfold ecp_test_cases
  repeat first
    | exact guarded_sublist _ _
    | apply List.Sublist.append _ (guarded_sublist _ _)

theorem mem_all_of_mem (cfg : BuildConfig) (e : ecp_test_case)
    (h : e ∈ ecp_test_cases cfg) : e ∈ ecp_test_cases BuildConfig.all :=
  (ecp_test_cases_sublist cfg).subset h

theorem mem_all_cases (e : ecp_test_case) (h : e ∈ ecp_test_cases BuildConfig.all) :
    e = ecp_test_case_SECP521R1 ∨ e = ecp_test_case_BP512R1 ∨ e = ecp_test_case_SECP384R1 ∨
    e = ecp_test_case_BP384R1 ∨ e = ecp_test_case_SECP256R1 ∨ e = ecp_test_case_SECP256K1 ∨
    e = ecp_test_case_BP256R1 ∨ e = ecp_test_case_SECP224R1 ∨ e = ecp_test_case_SECP224K1 ∨
    e = ecp_test_case_SECP192R1 ∨ e = ecp_test_case_SECP192K1 ∨
    e = ecp_test_case_CURVE25519 ∨ e = ecp_test_case_CURVE448 := by
  simpa [ecp_test_cases, guarded, BuildConfig.all] using h

theorem table_forall (p : ecp_test_case → Bool)
    (h : (ecp_test_cases BuildConfig.all).all p = true) (cfg : BuildConfig)
    (e : ecp_test_case) (he : e ∈ ecp_test_cases cfg) : p e = true :=
  List.all_eq_true.1 h e (mem_all_of_mem cfg e he)

theorem sum_none_iff_montgomery (cfg : BuildConfig) (e : ecp_test_case)
    (he : e ∈ ecp_test_cases cfg) :
    e.sum = none ↔
      (e.ecp_group_id = mbedtls_ecp_group_id.MBEDTLS_ECP_DP_CURVE25519 ∨
        e.ecp_group_id = mbedtls_ecp_group_id.MBEDTLS_ECP_DP_CURVE448) := by
  have h := table_forall (fun e => decide (e.sum = none ↔
      (e.ecp_group_id = mbedtls_ecp_group_id.MBEDTLS_ECP_DP_CURVE25519 ∨
        e.ecp_group_id = mbedtls_ecp_group_id.MBEDTLS_ECP_DP_CURVE448))) (by decide) cfg e he
  exact of_decide_eq_true h

theorem before_no_vector_op (cfg : BuildConfig) (env : Env) (verbose : Int) :
    ∀ e ∈ (ecp_alt_b91_backend_test cfg env verbose).before, e.is_vector_op = false := by
  simp only [ecp_alt_b91_backend_test, verbose_printf]
  split_ifs <;> simp [Event.is_vector_op, Event.is_step]

theorem after_no_vector_op (cfg : BuildConfig) (env : Env) (verbose : Int) :
    ∀ e ∈ (ecp_alt_b91_backend_test cfg env verbose).after, e.is_vector_op = false := by
  simp only [ecp_alt_b91_backend_test, verbose_printf, final_diag]
  split_ifs <;> simp [Event.is_vector_op, Event.is_step]

theorem mem_trace_cases (cfg : BuildConfig) (env : Env) (verbose : Int) (e : Event)
    (he : e ∈ (ecp_alt_b91_backend_test cfg env verbose).trace) :
    e.is_vector_op = false ∨
    ∃ i tc, (ecp_test_cases cfg)[i]? = some tc ∧
      (ecp_alt_b91_backend_test cfg env verbose).vectors[i]? =
        some (loop_body env verbose i tc).1 ∧
      e ∈ (loop_body env verbose i tc).1 := by
  simp only [Run.trace, List.mem_append, List.mem_flatten] at he
  rcases he with (hb | ⟨t, ht, het⟩) | ha
  · exact Or.inl (before_no_vector_op cfg env verbose e hb)
  · right
    obtain ⟨i, hi, hget⟩ := List.getElem_of_mem ht
    have h2 : (ecp_alt_b91_backend_test cfg env verbose).vectors[i]? = some t := by
      rw [List.getElem?_eq_getElem hi, hget]
    obtain ⟨tc, htc, rfl⟩ := run_vector_eq cfg env verbose i t h2
    exact ⟨i, tc, htc, h2, het⟩
  · exact Or.inl (after_no_vector_op cfg env verbose e ha)

theorem read_null_in_vector (env : Env) (verbose : Int) (i : Nat) (tc : ecp_test_case)
    (P : Obj) (ilen : Nat) (ret : Int)
    (h : Event.ecp_point_read_binary P none ilen ret ∈ (loop_body env verbose i tc).1) :
    tc.sum = none ∧
      env.ecp_get_type i = mbedtls_ecp_curve_type.MBEDTLS_ECP_TYPE_SHORT_WEIERSTRASS := by
  revert h
  simp only [loop_body]
  apply do_block_cases (motive := fun x =>
      Event.ecp_point_read_binary P none ilen ret ∈
          vector_prologue env verbose i tc ++ x.1 ++ vector_epilogue →
        tc.sum = none ∧
          env.ecp_get_type i = mbedtls_ecp_curve_type.MBEDTLS_ECP_TYPE_SHORT_WEIERSTRASS)
    env verbose i tc <;> intros <;>
    simp_all [vector_prologue, vector_epilogue, verbose_printf, pk_mismatch_diag,
      sum_mismatch_diag]

/-- C11: in every build configuration an entry of the table has a `NULL` sum
exactly when its identifier is `MBEDTLS_ECP_DP_CURVE25519` or
`MBEDTLS_ECP_DP_CURVE448`; consequently, when the group loaded for each entry
with one of these two identifiers is reported as not short-Weierstrass, no call
of `mbedtls_ecp_point_read_binary` in the run receives a `NULL` buffer. -/
theorem C11_sum_null_iff_montgomery (cfg : BuildConfig) (env : Env) (verbose : Int)
    (hmont : ∀ i tc, (ecp_test_cases cfg)[i]? = some tc →
      (tc.ecp_group_id = mbedtls_ecp_group_id.MBEDTLS_ECP_DP_CURVE25519 ∨
        tc.ecp_group_id = mbedtls_ecp_group_id.MBEDTLS_ECP_DP_CURVE448) →
      env.ecp_get_type i ≠ mbedtls_ecp_curve_type.MBEDTLS_ECP_TYPE_SHORT_WEIERSTRASS) :
    (∀ e ∈ ecp_test_cases cfg, (e.sum = none ↔
      (e.ecp_group_id = mbedtls_ecp_group_id.MBEDTLS_ECP_DP_CURVE25519 ∨
        e.ecp_group_id = mbedtls_ecp_group_id.MBEDTLS_ECP_DP_CURVE448))) ∧
    (∀ P ilen ret, Event.ecp_point_read_binary P none ilen ret ∉
      (ecp_alt_b91_backend_test cfg env verbose).trace) := by
  refine ⟨fun e he => sum_none_iff_montgomery cfg e he, ?_⟩
  intro P ilen ret hmem
  rcases mem_trace_cases cfg env verbose _ hmem with h | ⟨i, tc, htc, _, hin⟩
  · simp [Event.is_vector_op, Event.is_step] at h
  · obtain ⟨hnone, hsw⟩ := read_null_in_vector env verbose i tc P ilen ret hin
    have hid := (sum_none_iff_montgomery cfg tc (List.getElem?_mem htc)).1 hnone
    exact hmont i tc htc hid hsw

/-- Witness of C11 on the full table with the all-passing behaviour, which
reports the last two entries as Montgomery. -/
theorem C11_sum_null_iff_montgomery_witness :
    (∀ i tc, (ecp_test_cases BuildConfig.all)[i]? = some tc →
      (tc.ecp_group_id = mbedtls_ecp_group_id.MBEDTLS_ECP_DP_CURVE25519 ∨
        tc.ecp_group_id = mbedtls_ecp_group_id.MBEDTLS_ECP_DP_CURVE448) →
      env_ok.ecp_get_type i ≠ mbedtls_ecp_curve_type.MBEDTLS_ECP_TYPE_SHORT_WEIERSTRASS) ∧
    ((∀ e ∈ ecp_test_cases BuildConfig.all, (e.sum = none ↔
      (e.ecp_group_id = mbedtls_ecp_group_id.MBEDTLS_ECP_DP_CURVE25519 ∨
        e.ecp_group_id = mbedtls_ecp_group_id.MBEDTLS_ECP_DP_CURVE448))) ∧
    (∀ P ilen ret, Event.ecp_point_read_binary P none ilen ret ∉
      (ecp_alt_b91_backend_test BuildConfig.all env_ok 1).trace)) := by
  have hmont : ∀ i tc, (ecp_test_cases BuildConfig.all)[i]? = some tc →
      (tc.ecp_group_id = mbedtls_ecp_group_id.MBEDTLS_ECP_DP_CURVE25519 ∨
        tc.ecp_group_id = mbedtls_ecp_group_id.MBEDTLS_ECP_DP_CURVE448) →
      env_ok.ecp_get_type i ≠ mbedtls_ecp_curve_type.MBEDTLS_ECP_TYPE_SHORT_WEIERSTRASS := by
    intro i tc h hid
    have hi : i < 13 := by
      by_contra hn
      rw [List.getElem?_eq_none (by simpa using hn)] at h
      simp at h
    interval_cases i <;> simp [ecp_test_cases, guarded, BuildConfig.all] at h <;> subst h <;>
      revert hid <;> decide
  exact ⟨hmont, C11_sum_null_iff_montgomery BuildConfig.all env_ok 1 hmont⟩

/-- C12: in every build configuration, every entry with a sum has
`pk_len = 2 * sk_len + 1` and both `pk` and `sum` start with the byte `0x04`;
every entry without a sum has `pk_len = sk_len`; and in every entry the `sk`
and `pk` literals have exactly `sk_len` and `pk_len` initialisers, which is
also their declared array bound. -/
theorem C12_wire_format_of_fixtures (cfg : BuildConfig) (e : ecp_test_case)
    (he : e ∈ ecp_test_cases cfg) :
    (∀ s, e.sum = some s →
      e.pk_len = 2 * e.sk_len + 1 ∧ e.pk.bytes.head? = some 0x04 ∧
        s.bytes.head? = some 0x04) ∧
    (e.sum = none → e.pk_len = e.sk_len) ∧
    e.sk.init.length = e.sk_len ∧ e.sk.size = e.sk_len ∧
    e.pk.init.length = e.pk_len ∧ e.pk.size = e.pk_len := by
  rcases mem_all_cases e (mem_all_of_mem cfg e he) with
    rfl | rfl | rfl | rfl | rfl | rfl | rfl | rfl | rfl | rfl | rfl | rfl | rfl
  all_goals
    refine ⟨fun s hs => ?_, fun hn => ?_, by decide, by decide, by decide, by decide⟩
    · first
        | (cases hs; done)
        | (have h := Option.some.inj hs; subst h; decide)
    · first
        | (cases hn; done)
        | decide

/-- Witness of C12 on the SECP256R1 entry. -/
theorem C12_wire_format_of_fixtures_witness :
    ecp_test_case_SECP256R1 ∈ ecp_test_cases BuildConfig.all ∧
    ((∀ s, ecp_test_case_SECP256R1.sum = some s →
      ecp_test_case_SECP256R1.pk_len = 2 * ecp_test_case_SECP256R1.sk_len + 1 ∧
        ecp_test_case_SECP256R1.pk.bytes.head? = some 0x04 ∧ s.bytes.head? = some 0x04) ∧
    (ecp_test_case_SECP256R1.sum = none →
      ecp_test_case_SECP256R1.pk_len = ecp_test_case_SECP256R1.sk_len) ∧
    ecp_test_case_SECP256R1.sk.init.length = ecp_test_case_SECP256R1.sk_len ∧
    ecp_test_case_SECP256R1.sk.size = ecp_test_case_SECP256R1.sk_len ∧
    ecp_test_case_SECP256R1.pk.init.length = ecp_test_case_SECP256R1.pk_len ∧
    ecp_test_case_SECP256R1.pk.size = ecp_test_case_SECP256R1.pk_len) :=
  ⟨by decide, C12_wire_format_of_fixtures BuildConfig.all ecp_test_case_SECP256R1 (by decide)⟩

theorem sum_literal_length (cfg : BuildConfig) (e : ecp_test_case)
    (he : e ∈ ecp_test_cases cfg) (s : compound_literal) (hs : e.sum = some s) :
    s.init.length = e.pk_len ∧ s.size = e.pk_len ∧ s.bytes.length = e.pk_len := by
  rcases mem_all_cases e (mem_all_of_mem cfg e he) with
    rfl | rfl | rfl | rfl | rfl | rfl | rfl | rfl | rfl | rfl | rfl | rfl | rfl
  all_goals
    first
      | (cases hs; done)
      | (have h := Option.some.inj hs; subst h; decide)

theorem read_sum_ref_in_vector (env : Env) (verbose : Int) (i : Nat) (tc : ecp_test_case)
    (buf : Option compound_literal) (ilen : Nat) (ret : Int)
    (h : Event.ecp_point_read_binary Obj.sum_ref buf ilen ret ∈ (loop_body env verbose i tc).1) :
    buf = tc.sum ∧ ilen = tc.pk_len := by
  revert h
  simp only [loop_body]
  apply do_block_cases (motive := fun x =>
      Event.ecp_point_read_binary Obj.sum_ref buf ilen ret ∈
          vector_prologue env verbose i tc ++ x.1 ++ vector_epilogue →
        buf = tc.sum ∧ ilen = tc.pk_len)
    env verbose i tc <;> intros <;>
    simp_all [vector_prologue, vector_epilogue, verbose_printf, pk_mismatch_diag,
      sum_mismatch_diag]

/-- C13: in every evaluated vector the reference sum is decoded from the `sum`
field of the entry with `pk_len` as its length; every sum literal of the table
has exactly `pk_len` initialisers and the array bound `pk_len`, so the length
passed equals the size of the sum array and the bytes read are exactly the
bytes of the literal. -/
theorem C13_sum_decoded_with_pk_len (cfg : BuildConfig) (env : Env) (verbose : Int)
    (i : Nat) (t : List Event) (tc : ecp_test_case)
    (ht : (ecp_alt_b91_backend_test cfg env verbose).vectors[i]? = some t)
    (htc : (ecp_test_cases cfg)[i]? = some tc) :
    (∀ buf ilen ret, Event.ecp_point_read_binary Obj.sum_ref buf ilen ret ∈ t →
      buf = tc.sum ∧ ilen = tc.pk_len) ∧
    (∀ s, tc.sum = some s →
      s.init.length = tc.pk_len ∧ s.size = tc.pk_len ∧ s.bytes.length = tc.pk_len) ∧
    (∀ s ilen ret, Event.ecp_point_read_binary Obj.sum_ref (some s) ilen ret ∈ t →
      ilen = s.size ∧ ilen = s.init.length ∧ s.bytes.take ilen = s.init) := by
  obtain ⟨tc2, htc2, rfl⟩ := run_vector_eq cfg env verbose i t ht
  have htc3 : tc = tc2 := by rw [htc] at htc2; exact Option.some.inj htc2
  subst htc3
  have hmem := List.getElem?_mem htc
  refine ⟨fun buf ilen ret h => read_sum_ref_in_vector env verbose i tc buf ilen ret h,
    fun s hs => sum_literal_length cfg tc hmem s hs, ?_⟩
  intro s ilen ret h
  obtain ⟨hbuf, hlen⟩ := read_sum_ref_in_vector env verbose i tc _ ilen ret h
  obtain ⟨h1, h2, _⟩ := sum_literal_length cfg tc hmem s hbuf.symm
  refine ⟨by omega, by omega, ?_⟩
  rw [hlen, ← h1]
  simp [compound_literal.bytes]

/-- Witness of C13 on the first vector of the all-passing behaviour. -/
theorem C13_sum_decoded_with_pk_len_witness :
    (ecp_alt_b91_backend_test BuildConfig.all env_ok 0).vectors[0]? =
        some (loop_body env_ok 0 0 ecp_test_case_SECP521R1).1 ∧
    (ecp_test_cases BuildConfig.all)[0]? = some ecp_test_case_SECP521R1 ∧
    ((∀ buf ilen ret, Event.ecp_point_read_binary Obj.sum_ref buf ilen ret ∈
        (loop_body env_ok 0 0 ecp_test_case_SECP521R1).1 →
      buf = ecp_test_case_SECP521R1.sum ∧ ilen = ecp_test_case_SECP521R1.pk_len) ∧
    (∀ s, ecp_test_case_SECP521R1.sum = some s →
      s.init.length = ecp_test_case_SECP521R1.pk_len ∧
        s.size = ecp_test_case_SECP521R1.pk_len ∧
        s.bytes.length = ecp_test_case_SECP521R1.pk_len) ∧
    (∀ s ilen ret, Event.ecp_point_read_binary Obj.sum_ref (some s) ilen ret ∈
        (loop_body env_ok 0 0 ecp_test_case_SECP521R1).1 →
      ilen = s.size ∧ ilen = s.init.length ∧ s.bytes.take ilen = s.init)) :=
  ⟨rfl, rfl,
    C13_sum_decoded_with_pk_len BuildConfig.all env_ok 0 0 _ ecp_test_case_SECP521R1 rfl rfl⟩

/-- C16: in every build configuration the identifiers of the entries of the
table are pairwise distinct. -/
theorem C16_one_entry_per_curve (cfg : BuildConfig) :
    ((ecp_test_cases cfg).map (fun e => e.ecp_group_id)).Nodup ∧
    List.Pairwise (fun a b => a.ecp_group_id ≠ b.ecp_group_id) (ecp_test_cases cfg) := by
  have hall : ((ecp_test_cases BuildConfig.all).map (fun e => e.ecp_group_id)).Nodup := by
    decide
  have h1 : ((ecp_test_cases cfg).map (fun e => e.ecp_group_id)).Nodup :=
    List.Nodup.sublist ((ecp_test_cases_sublist cfg).map _) hall
  exact ⟨h1, (List.pairwise_map).1 h1⟩

theorem filter_is_status_op_prologue (env : Env) (verbose : Int) (i : Nat)
    (tc : ecp_test_case) :
    (vector_prologue env verbose i tc).filter Event.is_status_op = [] := by
  unfold vector_prologue verbose_printf
  split_ifs <;> simp [Event.is_status_op, Event.is_step]

theorem filter_is_status_op_epilogue : vector_epilogue.filter Event.is_status_op = [] := by
  simp [vector_epilogue, Event.is_status_op, Event.is_step]

theorem filter_is_status_op_verbose_printf (verbose : Int) (s : String) :
    (verbose_printf verbose s).filter Event.is_status_op = [] := by
  unfold verbose_printf
  split_ifs <;> simp [Event.is_status_op, Event.is_step]

theorem filter_is_status_op_pk_mismatch_diag (env : Env) (verbose : Int) (i : Nat)
    (tc : ecp_test_case) :
    (pk_mismatch_diag env verbose i tc).filter Event.is_status_op = [] := by
  unfold pk_mismatch_diag
  split_ifs <;> simp [Event.is_status_op, Event.is_step]

theorem filter_is_status_op_sum_mismatch_diag (env : Env) (verbose : Int) (i : Nat)
    (tc : ecp_test_case) :
    (sum_mismatch_diag env verbose i tc).filter Event.is_status_op = [] := by
  unfold sum_mismatch_diag
  split_ifs <;> simp [Event.is_status_op, Event.is_step]

theorem status_ops_append (a b : List Event) :
    status_ops (a ++ b) = status_ops a ++ status_ops b := by
  simp [status_ops]

theorem status_ops_loop_body (env : Env) (verbose : Int) (i : Nat) (tc : ecp_test_case) :
    ∃ pre e, status_ops (loop_body env verbose i tc).1 = pre ++ [e] ∧
      (∀ x ∈ pre, x.ret = some 0) ∧ e.ret = some (loop_body env verbose i tc).2 := by
  simp only [loop_body]
  apply do_block_cases (motive := fun x =>
    ∃ (pre : List Event) (e : Event),
      status_ops (vector_prologue env verbose i tc ++ x.1 ++ vector_epilogue) = pre ++ [e] ∧
      (∀ y ∈ pre, Event.ret y = some 0) ∧ Event.ret e = some x.2) env verbose i tc
  case fail1 =>
    intros
    refine ⟨[],
      Event.ecp_group_load tc.ecp_group_id (env.ecp_group_load i), ?_, ?_, ?_⟩ <;>
      simp_all [status_ops, filter_is_status_op_prologue, filter_is_status_op_epilogue,
        filter_is_status_op_verbose_printf, filter_is_status_op_pk_mismatch_diag,
        filter_is_status_op_sum_mismatch_diag, Event.is_status_op, Event.is_step, Event.ret]
  case fail2 =>
    intros
    refine ⟨[Event.ecp_group_load tc.ecp_group_id (env.ecp_group_load i)],
      Event.mpi_read_binary Obj.sk tc.sk tc.sk_len (env.mpi_read_binary i), ?_, ?_, ?_⟩ <;>
      simp_all [status_ops, filter_is_status_op_prologue, filter_is_status_op_epilogue,
        filter_is_status_op_verbose_printf, filter_is_status_op_pk_mismatch_diag,
        filter_is_status_op_sum_mismatch_diag, Event.is_status_op, Event.is_step, Event.ret]
  case fail3 =>
    intros
    refine ⟨[Event.ecp_group_load tc.ecp_group_id (env.ecp_group_load i),
        Event.mpi_read_binary Obj.sk tc.sk tc.sk_len (env.mpi_read_binary i)],
      Event.ecp_check_privkey Obj.sk (env.ecp_check_privkey i), ?_, ?_, ?_⟩ <;>
      simp_all [status_ops, filter_is_status_op_prologue, filter_is_status_op_epilogue,
        filter_is_status_op_verbose_printf, filter_is_status_op_pk_mismatch_diag,
        filter_is_status_op_sum_mismatch_diag, Event.is_status_op, Event.is_step, Event.ret]
  case fail4 =>
    intros
    refine ⟨[Event.ecp_group_load tc.ecp_group_id (env.ecp_group_load i),
        Event.mpi_read_binary Obj.sk tc.sk tc.sk_len (env.mpi_read_binary i),
        Event.ecp_check_privkey Obj.sk (env.ecp_check_privkey i)],
      Event.ecp_mul Obj.pk Obj.sk Obj.ecp_group_G (env.ecp_mul i), ?_, ?_, ?_⟩ <;>
      simp_all [status_ops, filter_is_status_op_prologue, filter_is_status_op_epilogue,
        filter_is_status_op_verbose_printf, filter_is_status_op_pk_mismatch_diag,
        filter_is_status_op_sum_mismatch_diag, Event.is_status_op, Event.is_step, Event.ret]
  case fail5 =>
    intros
    refine ⟨[Event.ecp_group_load tc.ecp_group_id (env.ecp_group_load i),
        Event.mpi_read_binary Obj.sk tc.sk tc.sk_len (env.mpi_read_binary i),
        Event.ecp_check_privkey Obj.sk (env.ecp_check_privkey i),
        Event.ecp_mul Obj.pk Obj.sk Obj.ecp_group_G (env.ecp_mul i)],
      Event.ecp_point_read_binary Obj.pk_ref (some tc.pk) tc.pk_len (env.ecp_point_read_binary_pk i), ?_, ?_, ?_⟩ <;>
      simp_all [status_ops, filter_is_status_op_prologue, filter_is_status_op_epilogue,
        filter_is_status_op_verbose_printf, filter_is_status_op_pk_mismatch_diag,
        filter_is_status_op_sum_mismatch_diag, Event.is_status_op, Event.is_step, Event.ret]
  case fail6 =>
    intros
    refine ⟨[Event.ecp_group_load tc.ecp_group_id (env.ecp_group_load i),
        Event.mpi_read_binary Obj.sk tc.sk tc.sk_len (env.mpi_read_binary i),
        Event.ecp_check_privkey Obj.sk (env.ecp_check_privkey i),
        Event.ecp_mul Obj.pk Obj.sk Obj.ecp_group_G (env.ecp_mul i),
        Event.ecp_point_read_binary Obj.pk_ref (some tc.pk) tc.pk_len (env.ecp_point_read_binary_pk i)],
      Event.ecp_point_cmp Obj.pk Obj.pk_ref (env.ecp_point_cmp_pk i), ?_, ?_, ?_⟩ <;>
      simp_all [status_ops, filter_is_status_op_prologue, filter_is_status_op_epilogue,
        filter_is_status_op_verbose_printf, filter_is_status_op_pk_mismatch_diag,
        filter_is_status_op_sum_mismatch_diag, Event.is_status_op, Event.is_step, Event.ret]
  case fail7 =>
    intros
    refine ⟨[Event.ecp_group_load tc.ecp_group_id (env.ecp_group_load i),
        Event.mpi_read_binary Obj.sk tc.sk tc.sk_len (env.mpi_read_binary i),
        Event.ecp_check_privkey Obj.sk (env.ecp_check_privkey i),
        Event.ecp_mul Obj.pk Obj.sk Obj.ecp_group_G (env.ecp_mul i),
        Event.ecp_point_read_binary Obj.pk_ref (some tc.pk) tc.pk_len (env.ecp_point_read_binary_pk i),
        Event.ecp_point_cmp Obj.pk Obj.pk_ref (env.ecp_point_cmp_pk i)],
      Event.ecp_check_pubkey Obj.pk (env.ecp_check_pubkey i), ?_, ?_, ?_⟩ <;>
      simp_all [status_ops, filter_is_status_op_prologue, filter_is_status_op_epilogue,
        filter_is_status_op_verbose_printf, filter_is_status_op_pk_mismatch_diag,
        filter_is_status_op_sum_mismatch_diag, Event.is_status_op, Event.is_step, Event.ret]
  case fail8 =>
    intros
    refine ⟨[Event.ecp_group_load tc.ecp_group_id (env.ecp_group_load i),
        Event.mpi_read_binary Obj.sk tc.sk tc.sk_len (env.mpi_read_binary i),
        Event.ecp_check_privkey Obj.sk (env.ecp_check_privkey i),
        Event.ecp_mul Obj.pk Obj.sk Obj.ecp_group_G (env.ecp_mul i),
        Event.ecp_point_read_binary Obj.pk_ref (some tc.pk) tc.pk_len (env.ecp_point_read_binary_pk i),
        Event.ecp_point_cmp Obj.pk Obj.pk_ref (env.ecp_point_cmp_pk i),
        Event.ecp_check_pubkey Obj.pk (env.ecp_check_pubkey i)],
      Event.ecp_muladd Obj.sum Obj.sk Obj.ecp_group_G Obj.sk Obj.pk (env.ecp_muladd i), ?_, ?_, ?_⟩ <;>
      simp_all [status_ops, filter_is_status_op_prologue, filter_is_status_op_epilogue,
        filter_is_status_op_verbose_printf, filter_is_status_op_pk_mismatch_diag,
        filter_is_status_op_sum_mismatch_diag, Event.is_status_op, Event.is_step, Event.ret]
  case fail9 =>
    intros
    refine ⟨[Event.ecp_group_load tc.ecp_group_id (env.ecp_group_load i),
        Event.mpi_read_binary Obj.sk tc.sk tc.sk_len (env.mpi_read_binary i),
        Event.ecp_check_privkey Obj.sk (env.ecp_check_privkey i),
        Event.ecp_mul Obj.pk Obj.sk Obj.ecp_group_G (env.ecp_mul i),
        Event.ecp_point_read_binary Obj.pk_ref (some tc.pk) tc.pk_len (env.ecp_point_read_binary_pk i),
        Event.ecp_point_cmp Obj.pk Obj.pk_ref (env.ecp_point_cmp_pk i),
        Event.ecp_check_pubkey Obj.pk (env.ecp_check_pubkey i),
        Event.ecp_muladd Obj.sum Obj.sk Obj.ecp_group_G Obj.sk Obj.pk (env.ecp_muladd i)],
      Event.ecp_point_read_binary Obj.sum_ref tc.sum tc.pk_len (env.ecp_point_read_binary_sum i), ?_, ?_, ?_⟩ <;>
      simp_all [status_ops, filter_is_status_op_prologue, filter_is_status_op_epilogue,
        filter_is_status_op_verbose_printf, filter_is_status_op_pk_mismatch_diag,
        filter_is_status_op_sum_mismatch_diag, Event.is_status_op, Event.is_step, Event.ret]
  case fail10 =>
    intros
    refine ⟨[Event.ecp_group_load tc.ecp_group_id (env.ecp_group_load i),
        Event.mpi_read_binary Obj.sk tc.sk tc.sk_len (env.mpi_read_binary i),
        Event.ecp_check_privkey Obj.sk (env.ecp_check_privkey i),
        Event.ecp_mul Obj.pk Obj.sk Obj.ecp_group_G (env.ecp_mul i),
        Event.ecp_point_read_binary Obj.pk_ref (some tc.pk) tc.pk_len (env.ecp_point_read_binary_pk i),
        Event.ecp_point_cmp Obj.pk Obj.pk_ref (env.ecp_point_cmp_pk i),
        Event.ecp_check_pubkey Obj.pk (env.ecp_check_pubkey i),
        Event.ecp_muladd Obj.sum Obj.sk Obj.ecp_group_G Obj.sk Obj.pk (env.ecp_muladd i),
        Event.ecp_point_read_binary Obj.sum_ref tc.sum tc.pk_len (env.ecp_point_read_binary_sum i)],
      Event.ecp_point_cmp Obj.sum Obj.sum_ref (env.ecp_point_cmp_sum i), ?_, ?_, ?_⟩ <;>
      simp_all [status_ops, filter_is_status_op_prologue, filter_is_status_op_epilogue,
        filter_is_status_op_verbose_printf, filter_is_status_op_pk_mismatch_diag,
        filter_is_status_op_sum_mismatch_diag, Event.is_status_op, Event.is_step, Event.ret]
  case skip =>
    intros
    refine ⟨[Event.ecp_group_load tc.ecp_group_id (env.ecp_group_load i),
        Event.mpi_read_binary Obj.sk tc.sk tc.sk_len (env.mpi_read_binary i),
        Event.ecp_check_privkey Obj.sk (env.ecp_check_privkey i),
        Event.ecp_mul Obj.pk Obj.sk Obj.ecp_group_G (env.ecp_mul i),
        Event.ecp_point_read_binary Obj.pk_ref (some tc.pk) tc.pk_len (env.ecp_point_read_binary_pk i),
        Event.ecp_point_cmp Obj.pk Obj.pk_ref (env.ecp_point_cmp_pk i)],
      Event.ecp_check_pubkey Obj.pk (env.ecp_check_pubkey i), ?_, ?_, ?_⟩ <;>
      simp_all [status_ops, filter_is_status_op_prologue, filter_is_status_op_epilogue,
        filter_is_status_op_verbose_printf, filter_is_status_op_pk_mismatch_diag,
        filter_is_status_op_sum_mismatch_diag, Event.is_status_op, Event.is_step, Event.ret]
  case done =>
    intros
    refine ⟨[Event.ecp_group_load tc.ecp_group_id (env.ecp_group_load i),
        Event.mpi_read_binary Obj.sk tc.sk tc.sk_len (env.mpi_read_binary i),
        Event.ecp_check_privkey Obj.sk (env.ecp_check_privkey i),
        Event.ecp_mul Obj.pk Obj.sk Obj.ecp_group_G (env.ecp_mul i),
        Event.ecp_point_read_binary Obj.pk_ref (some tc.pk) tc.pk_len (env.ecp_point_read_binary_pk i),
        Event.ecp_point_cmp Obj.pk Obj.pk_ref (env.ecp_point_cmp_pk i),
        Event.ecp_check_pubkey Obj.pk (env.ecp_check_pubkey i),
        Event.ecp_muladd Obj.sum Obj.sk Obj.ecp_group_G Obj.sk Obj.pk (env.ecp_muladd i),
        Event.ecp_point_read_binary Obj.sum_ref tc.sum tc.pk_len (env.ecp_point_read_binary_sum i)],
      Event.ecp_point_cmp Obj.sum Obj.sum_ref (env.ecp_point_cmp_sum i), ?_, ?_, ?_⟩ <;>
      simp_all [status_ops, filter_is_status_op_prologue, filter_is_status_op_epilogue,
        filter_is_status_op_verbose_printf, filter_is_status_op_pk_mismatch_diag,
        filter_is_status_op_sum_mismatch_diag, Event.is_status_op, Event.is_step, Event.ret]

theorem status_ops_for_loop (env : Env) (verbose : Int) (cases : List ecp_test_case) :
    ∀ i : Nat, (for_loop env verbose i cases 0).2 ≠ 0 →
      ∃ pre e, status_ops (for_loop env verbose i cases 0).1.flatten = pre ++ [e] ∧
        (∀ x ∈ pre, x.ret = some 0) ∧ e.ret = some (for_loop env verbose i cases 0).2 := by
  induction cases with
  | nil => intro i h; simp [for_loop] at h
  | cons tc rest ih =>
    intro i h
    simp only [for_loop, if_true] at h ⊢
    obtain ⟨p0, e0, hops, hzero, hret⟩ := status_ops_loop_body env verbose i tc
    by_cases hp : (loop_body env verbose i tc).2 = 0
    · rw [hp] at h ⊢
      obtain ⟨p1, e1, hops1, hzero1, hret1⟩ := ih (i + 1) h
      refine ⟨p0 ++ [e0] ++ p1, e1, ?_, ?_, hret1⟩
      · rw [List.flatten_cons, status_ops_append, hops, hops1]
        simp
      · intro x hx
        simp only [List.mem_append, List.mem_singleton] at hx
        rcases hx with (hx | hx) | hx
        · exact hzero x hx
        · rw [hx, hret, hp]
        · exact hzero1 x hx
    · rw [for_loop_nonzero env verbose (i + 1) rest _ hp]
      refine ⟨p0, e0, ?_, hzero, hret⟩
      simp [hops]

/-- C17: if the function returns a non-zero value `r`, the status-storing calls
of the run (the seeding, then the steps of vector 0, vector 1, ...) end with a
call that returned `r`, and every status-storing call before it returned 0:
`r` is the status of the first failing operation, and no load, decode, check,
multiplication or comparison is invoked after that operation. -/
theorem C17_first_failure_decides_result (cfg : BuildConfig) (env : Env) (verbose : Int)
    (hr : (ecp_alt_b91_backend_test cfg env verbose).result ≠ 0) :
    ∃ pre e, status_ops (ecp_alt_b91_backend_test cfg env verbose).trace = pre ++ [e] ∧
      (∀ x ∈ pre, x.ret = some 0) ∧
      e.ret = some (ecp_alt_b91_backend_test cfg env verbose).result := by
  have hafter : status_ops (ecp_alt_b91_backend_test cfg env verbose).after = [] := by
    simp only [status_ops, List.filter_eq_nil_iff]
    intro e he
    have h := after_no_vector_op cfg env verbose e he
    revert he h
    simp only [ecp_alt_b91_backend_test, verbose_printf, final_diag]
    split_ifs <;> simp <;> (try rintro (h | h | h | h | h)) <;> (try subst h) <;>
      simp [Event.is_status_op, Event.is_step]
  have hbefore : status_ops (ecp_alt_b91_backend_test cfg env verbose).before =
      [Event.ctr_drbg_seed env.ctr_drbg_seed] := by
    simp only [ecp_alt_b91_backend_test, verbose_printf, status_ops]
    split_ifs <;> simp [Event.is_status_op, Event.is_step]
  simp only [Run.trace, status_ops_append, hafter, hbefore, List.append_nil]
  by_cases hseed : env.ctr_drbg_seed = 0
  · obtain ⟨hv, hres⟩ := run_of_seed_ok cfg env verbose hseed
    rw [hres] at hr ⊢
    rw [hv]
    obtain ⟨p1, e1, hops, hzero, hret⟩ :=
      status_ops_for_loop env verbose (ecp_test_cases cfg) 0 hr
    refine ⟨Event.ctr_drbg_seed env.ctr_drbg_seed :: p1, e1, ?_, ?_, hret⟩
    · rw [hops]
      simp
    · intro x hx
      rcases List.mem_cons.1 hx with hx | hx
      · rw [hx, hseed]
        rfl
      · exact hzero x hx
  · obtain ⟨hv, hres⟩ := run_of_seed_failure cfg env verbose hseed
    rw [hres, hv]
    exact ⟨[], Event.ctr_drbg_seed env.ctr_drbg_seed, by simp [status_ops], by simp, rfl⟩

/-- Witness of C17 on the behaviour whose first private-key check fails. -/
theorem C17_first_failure_decides_result_witness :
    (ecp_alt_b91_backend_test BuildConfig.all env_privkey_fails 1).result ≠ 0 ∧
    (∃ pre e,
      status_ops (ecp_alt_b91_backend_test BuildConfig.all env_privkey_fails 1).trace =
        pre ++ [e] ∧
      (∀ x ∈ pre, x.ret = some 0) ∧
      e.ret = some (ecp_alt_b91_backend_test BuildConfig.all env_privkey_fails 1).result) :=
  ⟨by decide, C17_first_failure_decides_result BuildConfig.all env_privkey_fails 1 (by decide)⟩

/-- C14 fails on the code: with every curve enabled, `verbose = 1` and the sum
comparison of the first vector (SECP521R1) reporting a mismatch, the buffers
printed for that vector are the scalar, the reference public key, again the
reference public key under the label `sum ref:`, and the encoding of the
computed sum; the `sum` field of the vector differs from what is printed under
`sum ref:` and is not printed at all. -/
theorem C14_sum_ref_prints_public_key :
    (ecp_alt_b91_backend_test BuildConfig.all env_sum_mismatch 1).vectors.map printed_buffers =
      [[("sk     :", ecp_test_case_SECP521R1.sk.bytes, 66),
        ("pk ref :", ecp_test_case_SECP521R1.pk.bytes, 133),
        ("sum ref:", ecp_test_case_SECP521R1.pk.bytes, 133),
        ("sum    :", [4, 0], 2)]] ∧
    ecp_test_case_SECP521R1.sum_bytes ≠ some ecp_test_case_SECP521R1.pk.bytes ∧
    (∀ s, ecp_test_case_SECP521R1.sum = some s →
      s.bytes ∉ [ecp_test_case_SECP521R1.sk.bytes, ecp_test_case_SECP521R1.pk.bytes,
        [4, 0]]) := by
  refine ⟨by decide, by decide, ?_⟩
  intro s hs
  have h := Option.some.inj hs
  subst h
  decide

theorem do_block_no_init_free (env : Env) (verbose : Int) (i : Nat) (tc : ecp_test_case)
    (o : Obj) :
    Event.init o ∉ (do_block env verbose i tc).1 ∧
      Event.free o ∉ (do_block env verbose i tc).1 := by
  apply do_block_cases (motive := fun x => Event.init o ∉ x.1 ∧ Event.free o ∉ x.1)
    env verbose i tc <;> intros <;>
    simp [verbose_printf, pk_mismatch_diag, sum_mismatch_diag]

theorem prologue_no_free (env : Env) (verbose : Int) (i : Nat) (tc : ecp_test_case)
    (o : Obj) : Event.free o ∉ vector_prologue env verbose i tc := by
  unfold vector_prologue verbose_printf
  split_ifs <;> simp

theorem count_init_loop_body (env : Env) (verbose : Int) (i : Nat) (tc : ecp_test_case)
    (o : Obj) :
    (loop_body env verbose i tc).1.count (Event.init o) =
        (if o ∈ vector_objects then 1 else 0) ∧
      (loop_body env verbose i tc).1.count (Event.free o) =
        (if o ∈ vector_objects then 1 else 0) := by
  have h := do_block_no_init_free env verbose i tc o
  simp only [loop_body, List.count_append, List.count_eq_zero.2 h.1,
    List.count_eq_zero.2 h.2]
  cases o <;>
    simp [vector_prologue, vector_epilogue, verbose_printf, vector_objects, List.count_cons] <;>
    split_ifs <;> simp

theorem count_flatten_zero (a : Event) (l : List (List Event)) (h : ∀ t ∈ l, a ∉ t) :
    l.flatten.count a = 0 := by
  rw [List.count_eq_zero]
  intro hmem
  obtain ⟨t, ht, hat⟩ := List.mem_flatten.1 hmem
  exact h t ht hat

theorem vector_no_context_event (cfg : BuildConfig) (env : Env) (verbose : Int) (o : Obj)
    (ho : o ∉ vector_objects) :
    ∀ t ∈ (ecp_alt_b91_backend_test cfg env verbose).vectors,
      Event.init o ∉ t ∧ Event.free o ∉ t := by
  intro t ht
  obtain ⟨i, hi, hget⟩ := List.getElem_of_mem ht
  have h2 : (ecp_alt_b91_backend_test cfg env verbose).vectors[i]? = some t := by
    rw [List.getElem?_eq_getElem hi, hget]
  obtain ⟨tc, _, rfl⟩ := run_vector_eq cfg env verbose i t h2
  have h := count_init_loop_body env verbose i tc o
  simp only [if_neg ho, List.count_eq_zero] at h
  exact h

/-- C15: in every evaluated vector, whatever path the loop body takes, each of
the six objects `ecp_group`, `sk`, `pk`, `pk_ref`, `sum`, `sum_ref` is
initialised exactly once and freed exactly once, and the six `free` calls are
the last calls of the iteration (nothing is freed before them), so they precede
the next vector and the end of the function; over the whole run the DRBG and
the entropy context are each initialised once and freed once, whether seeding
succeeds or fails. -/
theorem C15_scratch_objects_released (cfg : BuildConfig) (env : Env) (verbose : Int)
    (i : Nat) (t : List Event)
    (ht : (ecp_alt_b91_backend_test cfg env verbose).vectors[i]? = some t) :
    (∀ o ∈ vector_objects, t.count (Event.init o) = 1 ∧ t.count (Event.free o) = 1) ∧
    (∃ body, t = body ++ vector_epilogue ∧ ∀ o, Event.free o ∉ body) ∧
    vector_epilogue =
      [Event.free Obj.sum_ref, Event.free Obj.sum, Event.free Obj.pk_ref, Event.free Obj.pk,
       Event.free Obj.sk, Event.free Obj.ecp_group] ∧
    (∀ o ∈ [Obj.ctr_drbg, Obj.entropy],
      (ecp_alt_b91_backend_test cfg env verbose).trace.count (Event.init o) = 1 ∧
      (ecp_alt_b91_backend_test cfg env verbose).trace.count (Event.free o) = 1) := by
  obtain ⟨tc, _, rfl⟩ := run_vector_eq cfg env verbose i t ht
  refine ⟨?_, ?_, rfl, ?_⟩
  · intro o ho
    have h := count_init_loop_body env verbose i tc o
    simpa [ho] using h
  · refine ⟨vector_prologue env verbose i tc ++ (do_block env verbose i tc).1, rfl, ?_⟩
    intro o hmem
    rcases List.mem_append.1 hmem with h | h
    · exact prologue_no_free env verbose i tc o h
    · exact (do_block_no_init_free env verbose i tc o).2 h
  · intro o ho
    have hno : o ∉ vector_objects := by
      simp only [List.mem_cons, List.mem_singleton, List.not_mem_nil, or_false] at ho
      rcases ho with rfl | rfl <;> decide
    have hv := vector_no_context_event cfg env verbose o hno
    have h1 := count_flatten_zero (Event.init o) _ (fun t ht => (hv t ht).1)
    have h2 := count_flatten_zero (Event.free o) _ (fun t ht => (hv t ht).2)
    simp only [Run.trace, List.count_append, h1, h2]
    simp only [List.mem_cons, List.mem_singleton, List.not_mem_nil, or_false] at ho
    simp only [ecp_alt_b91_backend_test, verbose_printf, final_diag]
    rcases ho with rfl | rfl <;> split_ifs <;> simp [List.count_cons]

/-- Witness of C15 on the first vector of the behaviour whose first private-key
check fails (the vector leaves the block through a `break`). -/
theorem C15_scratch_objects_released_witness :
    (ecp_alt_b91_backend_test BuildConfig.all env_privkey_fails 1).vectors[0]? =
        some (loop_body env_privkey_fails 1 0 ecp_test_case_SECP521R1).1 ∧
    ((∀ o ∈ vector_objects,
      (loop_body env_privkey_fails 1 0 ecp_test_case_SECP521R1).1.count (Event.init o) = 1 ∧
      (loop_body env_privkey_fails 1 0 ecp_test_case_SECP521R1).1.count (Event.free o) = 1) ∧
    (∃ body, (loop_body env_privkey_fails 1 0 ecp_test_case_SECP521R1).1 =
        body ++ vector_epilogue ∧ ∀ o, Event.free o ∉ body) ∧
    vector_epilogue =
      [Event.free Obj.sum_ref, Event.free Obj.sum, Event.free Obj.pk_ref, Event.free Obj.pk,
       Event.free Obj.sk, Event.free Obj.ecp_group] ∧
    (∀ o ∈ [Obj.ctr_drbg, Obj.entropy],
      (ecp_alt_b91_backend_test BuildConfig.all env_privkey_fails 1).trace.count
        (Event.init o) = 1 ∧
      (ecp_alt_b91_backend_test BuildConfig.all env_privkey_fails 1).trace.count
        (Event.free o) = 1)) :=
  ⟨rfl, C15_scratch_objects_released BuildConfig.all env_privkey_fails 1 0 _ rfl⟩

/-! ## Claims about the fixed-point functions -/

theorem spx_exp2_samples :
    spx_exp2 0 = 65536 ∧ spx_exp2 2048 = 131072 ∧ spx_exp2 (-2048) = 32768 ∧
    spx_exp2 1024 = 92624 ∧ spx_exp2 32767 = 0x7fffffff ∧ spx_exp2 (-32768) = 0 := by
  decide

theorem to_int32_of_range (v : Int) (h1 : -2147483648 ≤ v) (h2 : v ≤ 2147483647) :
    to_int32 v = v := by
  unfold to_int32
  omega

theorem to_int16_of_range (v : Int) (h1 : -32768 ≤ v) (h2 : v ≤ 32767) :
    to_int16 v = v := by
  unfold to_int16
  omega

theorem shr11_of_short (x : Int) (h1 : -32768 ≤ x) (h2 : x ≤ 32767) :
    SHR16 x 11 = x / 2048 ∧ to_int32 (SHR16 x 11) = SHR16 x 11 := by
  have h : SHR16 x 11 = x / 2048 := by
    unfold SHR16
    rw [Int.shiftRight_eq_div_pow, show (11 : Int).toNat = 11 from rfl]
    norm_num
  rw [h]
  exact ⟨rfl, to_int32_of_range _ (by omega) (by omega)⟩

/-- C18: with the Speex definitions of the fixed-point macros, `spx_exp2` is
exact at integer exponents, `spx_exp2(2048 * n) = 2^(16 + n)` for every integer
`n` with `-15 <= n <= 14`; and for every 16-bit `x` it returns `0x7fffffff`
when `(x >> 11) > 14` and `0` when `(x >> 11) < -15`. -/
theorem C18_spx_exp2_integer_exponents (n x : Int)
    (hn : -15 ≤ n ∧ n ≤ 14) (hx : -32768 ≤ x ∧ x ≤ 32767) :
    spx_exp2 (2048 * n) = 2 ^ (16 + n).toNat ∧
    (SHR16 x 11 > 14 → spx_exp2 x = 0x7fffffff) ∧
    (SHR16 x 11 < -15 → spx_exp2 x = 0) := by
  obtain ⟨hn1, hn2⟩ := hn
  obtain ⟨_, hs⟩ := shr11_of_short x hx.1 hx.2
  refine ⟨?_, ?_, ?_⟩
  · interval_cases n <;> decide
  · intro h
    simp only [spx_exp2, hs]
    rw [if_pos h]
  · intro h
    simp only [spx_exp2, hs]
    rw [if_neg (by omega), if_pos h]

/-- Witness of C18 at `n = 14` and at the largest 16-bit input. -/
theorem C18_spx_exp2_integer_exponents_witness :
    ((-15 : Int) ≤ 14 ∧ (14 : Int) ≤ 14) ∧ ((-32768 : Int) ≤ 32767 ∧ (32767 : Int) ≤ 32767) ∧
    (spx_exp2 (2048 * 14) = 2 ^ (16 + (14 : Int)).toNat ∧
    (SHR16 32767 11 > 14 → spx_exp2 32767 = 0x7fffffff) ∧
    (SHR16 32767 11 < -15 → spx_exp2 32767 = 0)) :=
  ⟨by decide, by decide, C18_spx_exp2_integer_exponents 14 32767 (by decide) (by decide)⟩

theorem spx_ilog2_range (x : Nat) : 0 ≤ spx_ilog2 x ∧ spx_ilog2 x ≤ 31 := by
  unfold spx_ilog2 to_int16
  simp only [Nat.shiftRight_eq_div_pow]
  split_ifs <;> norm_num

theorem spx_ilog2_spec (x : Nat) (hx : x < 4294967296) (h1 : 1 ≤ x) (r : Nat)
    (hr : spx_ilog2 x = r) : 2 ^ r ≤ x ∧ x < 2 ^ (r + 1) := by
  unfold spx_ilog2 to_int16 at hr
  simp only [Nat.shiftRight_eq_div_pow, Nat.reducePow] at hr
  split_ifs at hr <;> norm_num at hr <;> norm_cast at hr <;> subst hr <;> norm_num <;> omega

theorem spx_ilog4_range (x : Nat) : 0 ≤ spx_ilog4 x ∧ spx_ilog4 x ≤ 15 := by
  unfold spx_ilog4 to_int16
  simp only [Nat.shiftRight_eq_div_pow]
  split_ifs <;> norm_num

theorem spx_ilog4_spec (x : Nat) (hx : x < 4294967296) (h1 : 1 ≤ x) (r : Nat)
    (hr : spx_ilog4 x = r) : 4 ^ r ≤ x ∧ x < 4 ^ (r + 1) := by
  unfold spx_ilog4 to_int16 at hr
  simp only [Nat.shiftRight_eq_div_pow, Nat.reducePow] at hr
  split_ifs at hr <;> norm_num at hr <;> norm_cast at hr <;> subst hr <;> norm_num <;> omega

/-- C20: `spx_ilog2` is the integer base-2 logarithm: for every 32-bit unsigned
`x >= 1` the result `r` satisfies `0 <= r <= 31` and `2^r <= x < 2^(r+1)`; and
`spx_ilog2(0) = 0`. -/
theorem C20_spx_ilog2_is_log2 (x : Nat) (hx : x < 2 ^ 32) (h1 : 1 ≤ x) :
    0 ≤ spx_ilog2 x ∧ spx_ilog2 x ≤ 31 ∧
    2 ^ (spx_ilog2 x).toNat ≤ x ∧ x < 2 ^ ((spx_ilog2 x).toNat + 1) ∧
    spx_ilog2 0 = 0 := by
  obtain ⟨h0, h31⟩ := spx_ilog2_range x
  have hr : spx_ilog2 x = ((spx_ilog2 x).toNat : Int) := by omega
  obtain ⟨hlo, hhi⟩ := spx_ilog2_spec x (by norm_num at hx; exact hx) h1 _ hr
  exact ⟨h0, h31, hlo, hhi, by decide⟩

/-- Witness of C20 at `x = 65535`. -/
theorem C20_spx_ilog2_is_log2_witness :
    (65535 : Nat) < 2 ^ 32 ∧ 1 ≤ (65535 : Nat) ∧
    (0 ≤ spx_ilog2 65535 ∧ spx_ilog2 65535 ≤ 31 ∧
    2 ^ (spx_ilog2 65535).toNat ≤ 65535 ∧ 65535 < 2 ^ ((spx_ilog2 65535).toNat + 1) ∧
    spx_ilog2 0 = 0) :=
  ⟨by decide, by decide, C20_spx_ilog2_is_log2 65535 (by decide) (by decide)⟩

theorem spx_sqrt_normalised_bounds (x : Int) (h1 : 1 ≤ x) (h2 : x < 2147483648) :
    spx_sqrt_k x = spx_ilog4 x.toNat - 6 ∧
    spx_sqrt_normalised x = VSHR32 x (spx_sqrt_k x * 2) ∧
    spx_sqrt_normalised x =
      (if spx_sqrt_k x > 0 then x / 2 ^ (2 * spx_sqrt_k x).toNat
        else x * 2 ^ (-(2 * spx_sqrt_k x)).toNat) ∧
    4096 ≤ spx_sqrt_normalised x ∧ spx_sqrt_normalised x ≤ 16383 := by
  obtain ⟨n, rfl⟩ : ∃ n : Nat, x = n := ⟨x.toNat, by omega⟩
  have hu : to_uint32 (n : Int) = n := by
    unfold to_uint32
    omega
  obtain ⟨hr0, hr15⟩ := spx_ilog4_range n
  obtain ⟨r, hr⟩ : ∃ r : Nat, spx_ilog4 n = r := ⟨(spx_ilog4 n).toNat, by omega⟩
  have hspec := spx_ilog4_spec n (by omega) (by omega) r hr
  have hr' : r ≤ 15 := by omega
  unfold spx_sqrt_normalised spx_sqrt_k
  rw [hu, Int.toNat_ofNat, hr]
  interval_cases r <;>
    simp [VSHR32, SHR32, SHL32, to_int32, Int.shiftRight_eq_div_pow] <;>
    norm_num at hspec <;> omega

/-- C19: for every 32-bit `int x` with `1 <= x < 2^31`, with
`k = spx_ilog4(x) - 6`, the value `VSHR32(x, 2k)` computed by `spx_sqrt`
(`x >> 2k` when `k > 0`, `x << -2k` otherwise) lies in `[4096, 16383]`, the Q14
interval `[0.25, 1)` of the polynomial, and therefore fits in 16 bits. -/
theorem C19_spx_sqrt_normalises_argument (x : Int) (h1 : 1 ≤ x) (h2 : x < 2 ^ 31) :
    spx_sqrt_k x = spx_ilog4 x.toNat - 6 ∧
    spx_sqrt_normalised x = VSHR32 x (spx_sqrt_k x * 2) ∧
    spx_sqrt_normalised x =
      (if spx_sqrt_k x > 0 then x / 2 ^ (2 * spx_sqrt_k x).toNat
        else x * 2 ^ (-(2 * spx_sqrt_k x)).toNat) ∧
    4096 ≤ spx_sqrt_normalised x ∧ spx_sqrt_normalised x ≤ 16383 ∧
    to_int16 (spx_sqrt_normalised x) = spx_sqrt_normalised x := by
  obtain ⟨hk, hv, hf, hlo, hhi⟩ := spx_sqrt_normalised_bounds x h1 (by norm_num at h2; exact h2)
  exact ⟨hk, hv, hf, hlo, hhi, to_int16_of_range _ (by omega) (by omega)⟩

/-- Witness of C19 at `x = 1000`, which is normalised to `16000`. -/
theorem C19_spx_sqrt_normalises_argument_witness :
    (1 : Int) ≤ 1000 ∧ (1000 : Int) < 2 ^ 31 ∧
    (spx_sqrt_k 1000 = spx_ilog4 (1000 : Int).toNat - 6 ∧
    spx_sqrt_normalised 1000 = VSHR32 1000 (spx_sqrt_k 1000 * 2) ∧
    spx_sqrt_normalised 1000 =
      (if spx_sqrt_k 1000 > 0 then 1000 / 2 ^ (2 * spx_sqrt_k 1000).toNat
        else 1000 * 2 ^ (-(2 * spx_sqrt_k 1000)).toNat) ∧
    4096 ≤ spx_sqrt_normalised 1000 ∧ spx_sqrt_normalised 1000 ≤ 16383 ∧
    to_int16 (spx_sqrt_normalised 1000) = spx_sqrt_normalised 1000) :=
  ⟨by decide, by decide, C19_spx_sqrt_normalises_argument 1000 (by decide) (by decide)⟩

theorem spx_sqrt_samples :
    spx_sqrt_normalised 1000 = 16000 ∧ spx_sqrt_k 1000 = -2 ∧
    spx_sqrt_normalised 1 = 4096 ∧ spx_sqrt_normalised 2147483647 = 8191 ∧
    spx_sqrt 4096 = 64 ∧ spx_sqrt 1000000 = 999 := by
  decide

/-! ## Claims about the logarithm, cosine and exponential -/

theorem cos_exp_samples :
    spx_cos_norm 0 = 32767 ∧ spx_cos_norm 32768 = 0 ∧ spx_cos_norm 65536 = -32767 ∧
    spx_cos_norm 98304 = 0 ∧ spx_cos_norm (-32768) = 0 ∧ spx_cos_norm 131072 = 32767 ∧
    _spx_cos_pi_2 1 = 32767 ∧ _spx_cos_pi_2 16384 = 23171 ∧ _spx_cos_pi_2 32767 = 2 ∧
    spx_cos_norm 16384 = 23171 ∧ spx_cos_norm 49152 = -23171 ∧
    spx_exp 0 = 65536 ∧ spx_exp 21291 = 0x7fffffff ∧ spx_exp (-21291) = 0 := by
  decide

theorem ilog4_eq_half_ilog2 (r2 r4 x : Nat) (h2 : 2 ^ r2 ≤ x ∧ x < 2 ^ (r2 + 1))
    (h4 : 4 ^ r4 ≤ x ∧ x < 4 ^ (r4 + 1)) : r4 = r2 / 2 := by
  have e1 : (4 : Nat) ^ r4 = 2 ^ (2 * r4) := by
    rw [pow_mul]
    norm_num
  have e2 : (4 : Nat) ^ (r4 + 1) = 2 ^ (2 * (r4 + 1)) := by
    rw [pow_mul]
    norm_num
  rw [e1, e2] at h4
  have a1 : 2 * r4 < r2 + 1 :=
    (Nat.pow_lt_pow_iff_right (by norm_num : 1 < 2)).1 (lt_of_le_of_lt h4.1 h2.2)
  have a2 : r2 < 2 * (r4 + 1) :=
    (Nat.pow_lt_pow_iff_right (by norm_num : 1 < 2)).1 (lt_of_le_of_lt h2.1 h4.2)
  omega

/-- C21: `spx_ilog4` is the integer base-4 logarithm: for every 32-bit unsigned
`x >= 1` the result `r` satisfies `0 <= r <= 15` and `4^r <= x < 4^(r+1)`;
and `spx_ilog4(x) = spx_ilog2(x) / 2` for every 32-bit unsigned `x`, zero
included. -/
theorem C21_spx_ilog4_is_log4 (x : Nat) (hx : x < 2 ^ 32) :
    (1 ≤ x → 0 ≤ spx_ilog4 x ∧ spx_ilog4 x ≤ 15 ∧
      4 ^ (spx_ilog4 x).toNat ≤ x ∧ x < 4 ^ ((spx_ilog4 x).toNat + 1)) ∧
    spx_ilog4 x = spx_ilog2 x / 2 := by
  have hx' : x < 4294967296 := by
    norm_num at hx
    exact hx
  obtain ⟨h0, h15⟩ := spx_ilog4_range x
  obtain ⟨g0, g31⟩ := spx_ilog2_range x
  have hr4 : spx_ilog4 x = ((spx_ilog4 x).toNat : Int) := by omega
  have hr2 : spx_ilog2 x = ((spx_ilog2 x).toNat : Int) := by omega
  by_cases h1 : 1 ≤ x
  · have s4 := spx_ilog4_spec x hx' h1 _ hr4
    have s2 := spx_ilog2_spec x hx' h1 _ hr2
    have e := ilog4_eq_half_ilog2 _ _ x s2 s4
    refine ⟨fun _ => ⟨h0, h15, s4.1, s4.2⟩, ?_⟩
    omega
  · have hz : x = 0 := by omega
    subst hz
    exact ⟨fun h => absurd h h1, by decide⟩

/-- Witness of C21 at `x = 1000`. -/
theorem C21_spx_ilog4_is_log4_witness :
    (1000 : Nat) < 2 ^ 32 ∧
    ((1 ≤ (1000 : Nat) → 0 ≤ spx_ilog4 1000 ∧ spx_ilog4 1000 ≤ 15 ∧
      4 ^ (spx_ilog4 1000).toNat ≤ 1000 ∧ 1000 < 4 ^ ((spx_ilog4 1000).toNat + 1)) ∧
    spx_ilog4 1000 = spx_ilog2 1000 / 2) :=
  ⟨by decide, C21_spx_ilog4_is_log4 1000 (by decide)⟩

theorem shr_eq_div (v : Int) : SHR v 15 = v / 32768 ∧ SHR v 14 = v / 16384 := by
  unfold SHR
  rw [show (15 : Int).toNat = 15 from rfl, show (14 : Int).toNat = 14 from rfl,
    Int.shiftRight_eq_div_pow, Int.shiftRight_eq_div_pow]
  norm_num

theorem mul_int16_bounds (a b : Int) (ha1 : -32768 ≤ a) (ha2 : a ≤ 32767)
    (hb1 : -32768 ≤ b) (hb2 : b ≤ 32767) :
    -1073741824 ≤ a * b ∧ a * b ≤ 1073741824 := by
  constructor <;> nlinarith

theorem MULT16_16_P15_eq (a b : Int) (ha1 : -32768 ≤ a) (ha2 : a ≤ 32767)
    (hb1 : -32768 ≤ b) (hb2 : b ≤ 32767) :
    MULT16_16_P15 a b = (16384 + a * b) / 32768 := by
  obtain ⟨h1, h2⟩ := mul_int16_bounds a b ha1 ha2 hb1 hb2
  unfold MULT16_16_P15 ADD32 MULT16_16
  rw [to_int16_of_range a ha1 ha2, to_int16_of_range b hb1 hb2, (shr_eq_div _).1]
  generalize a * b = m at h1 h2 ⊢
  unfold to_int32
  omega

theorem mul_range (a b A lo hi : Int) (ha0 : 0 ≤ a) (haA : a ≤ A)
    (hlo : lo ≤ b) (hhi : b ≤ hi) (hlo0 : lo ≤ 0) (hhi0 : 0 ≤ hi) :
    A * lo ≤ a * b ∧ a * b ≤ A * hi := by
  constructor <;> nlinarith [mul_nonneg ha0 hhi0, mul_nonneg (sub_nonneg.2 haA) hhi0,
    mul_nonneg ha0 (sub_nonneg.2 hhi), mul_nonneg ha0 (sub_nonneg.2 hlo),
    mul_nonneg (sub_nonneg.2 haA) (neg_nonneg.2 hlo0)]

theorem ADD32_eq (a b : Int) (ha1 : -1073741824 ≤ a) (ha2 : a ≤ 1073741823)
    (hb1 : -1073741824 ≤ b) (hb2 : b ≤ 1073741823) : ADD32 a b = a + b := by
  unfold ADD32
  rw [to_int32_of_range a (by omega) (by omega), to_int32_of_range b (by omega) (by omega),
    to_int32_of_range (a + b) (by omega) (by omega)]

theorem spx_cos_pi_2_bounds (x : Int) (h1 : 1 ≤ x) (h2 : x ≤ 32767) :
    -7649 ≤ _spx_cos_pi_2 x ∧ _spx_cos_pi_2 x ≤ 32767 := by
  have hq : 1 ≤ x * x ∧ x * x ≤ 1073676289 := by
    constructor <;> nlinarith
  have e0 : MULT16_16_P15 x x = (16384 + x * x) / 32768 :=
    MULT16_16_P15_eq x x (by omega) h2 (by omega) h2
  unfold _spx_cos_pi_2
  simp only []
  rw [e0]
  generalize x * x = q at hq
  have hx2 : to_int16 ((16384 + q) / 32768) = (16384 + q) / 32768 :=
    to_int16_of_range _ (by omega) (by omega)
  rw [hx2]
  generalize hx2v : (16384 + q) / 32768 = x2
  have bx2 : 0 ≤ x2 ∧ x2 ≤ 32766 := by omega
  have e1 : MULT16_16_P15 L4 x2 = (16384 + L4 * x2) / 32768 :=
    MULT16_16_P15_eq L4 x2 (by decide) (by decide) (by omega) (by omega)
  rw [e1]
  generalize ht1 : ADD32 L3 ((16384 + L4 * x2) / 32768) = t1
  have bt1 : 7651 ≤ t1 ∧ t1 ≤ 8277 := by
    rw [← ht1, ADD32_eq _ _ (by decide) (by decide) (by unfold L4; omega) (by unfold L4; omega)]
    unfold L3 L4
    omega
  have e2 : MULT16_16_P15 x2 t1 = (16384 + x2 * t1) / 32768 :=
    MULT16_16_P15_eq x2 t1 (by omega) (by omega) (by omega) (by omega)
  rw [e2]
  have bm1 := mul_range x2 t1 32766 0 8277 bx2.1 bx2.2 (by omega) bt1.2 (by omega) (by omega)
  generalize x2 * t1 = m1 at bm1
  generalize ht2 : ADD32 L2 ((16384 + m1) / 32768) = t2
  have bt2 : -7651 ≤ t2 ∧ t2 ≤ 626 := by
    rw [← ht2, ADD32_eq _ _ (by decide) (by decide) (by omega) (by omega)]
    unfold L2
    omega
  have e3 : MULT16_16_P15 x2 t2 = (16384 + x2 * t2) / 32768 :=
    MULT16_16_P15_eq x2 t2 (by omega) (by omega) (by omega) (by omega)
  rw [e3]
  have bm2 := mul_range x2 t2 32766 (-7651) 626 bx2.1 bx2.2 bt2.1 bt2.2 (by omega) (by omega)
  generalize x2 * t2 = m2 at bm2
  have es : SUB16 L1 x2 = 32767 - x2 := by
    unfold SUB16 L1
    rw [to_int16_of_range 32767 (by decide) (by decide),
      to_int16_of_range x2 (by omega) (by omega), to_int32_of_range _ (by omega) (by omega)]
  rw [es, ADD32_eq _ _ (by omega) (by omega) (by omega) (by omega)]
  generalize hS : 32767 - x2 + (16384 + m2) / 32768 = S
  have bS : -7650 ≤ S ∧ S ≤ 33393 := by omega
  unfold ADD16 MIN16 to_int16
  split_ifs <;> omega

theorem bit_and_mask (x : Int) :
    bit_and x 0x0001ffff = x % 131072 ∧ bit_and x 0x0000ffff = x % 65536 ∧
      bit_and x 0x00007fff = x % 32768 := by
  have h17 : to_uint32 0x0001ffff = 2 ^ 17 - 1 := by decide
  have h16 : to_uint32 0x0000ffff = 2 ^ 16 - 1 := by decide
  have h15 : to_uint32 0x00007fff = 2 ^ 15 - 1 := by decide
  unfold bit_and
  rw [h17, h16, h15, Nat.and_pow_two_sub_one_eq_mod, Nat.and_pow_two_sub_one_eq_mod,
    Nat.and_pow_two_sub_one_eq_mod]
  unfold to_uint32 to_int32
  refine ⟨?_, ?_, ?_⟩ <;> norm_num <;> omega

theorem shl_one : SHL32 (EXTEND32 1) 15 = 32768 ∧ SHL32 (EXTEND32 1) 16 = 65536 ∧
    SHL32 (EXTEND32 1) 17 = 131072 := by
  decide

theorem spx_cos_norm_folded_eq (x : Int) :
    spx_cos_norm_folded x =
      (if x % 131072 > 65536 then 131072 - x % 131072 else x % 131072) := by
  unfold spx_cos_norm_folded
  simp only [(bit_and_mask x).1, shl_one.2.1, shl_one.2.2]
  split_ifs
  · unfold SUB32 to_int32
    omega
  · rfl

theorem spx_cos_norm_congr (x y : Int) (h : spx_cos_norm_folded x = spx_cos_norm_folded y) :
    spx_cos_norm x = spx_cos_norm y := by
  unfold spx_cos_norm
  simp only [h]

/-- C22: `spx_cos_norm` is exact at the quadrant points: for every `int x`,
the result is 32767 when `x mod 2^17 = 0`, -32767 when `x mod 2^17 = 65536`,
and 0 when `x mod 2^17` is 32768 or 98304; hence `kf_cexp2` yields
`(32767, 0)`, `(0, 32767)`, `(-32767, 0)`, `(0, -32767)` for the phases 0,
32768, 65536, 98304. -/
theorem C22_spx_cos_norm_quadrant_points (x : Int) :
    (x % 2 ^ 17 = 0 → spx_cos_norm x = 32767) ∧
    (x % 2 ^ 17 = 65536 → spx_cos_norm x = -32767) ∧
    (x % 2 ^ 17 = 32768 ∨ x % 2 ^ 17 = 98304 → spx_cos_norm x = 0) ∧
    kf_cexp2 0 = (32767, 0) ∧ kf_cexp2 32768 = (0, 32767) ∧
    kf_cexp2 65536 = (-32767, 0) ∧ kf_cexp2 98304 = (0, -32767) := by
  have hf := spx_cos_norm_folded_eq x
  have e0 : spx_cos_norm_folded 0 = 0 := by decide
  have e1 : spx_cos_norm_folded 65536 = 65536 := by decide
  have e2 : spx_cos_norm_folded 32768 = 32768 := by decide
  have v0 : spx_cos_norm 0 = 32767 := by decide
  have v1 : spx_cos_norm 65536 = -32767 := by decide
  have v2 : spx_cos_norm 32768 = 0 := by decide
  norm_num only at *
  refine ⟨?_, ?_, ?_, by decide, by decide, by decide, by decide⟩
  · intro h
    rw [← v0]
    apply spx_cos_norm_congr
    rw [hf, e0, h]
    rfl
  · intro h
    rw [← v1]
    apply spx_cos_norm_congr
    rw [hf, e1, h]
    rfl
  · intro h
    rw [← v2]
    apply spx_cos_norm_congr
    rw [hf, e2]
    rcases h with h | h <;> rw [h] <;> rfl

/-- C23: `spx_cos_norm` is periodic and even: for every `int x`,
`spx_cos_norm(x + 2^17) = spx_cos_norm(x)` and
`spx_cos_norm(-x) = spx_cos_norm(x)`, the sum and the negation being reduced
to 32 bits. -/
theorem C23_spx_cos_norm_periodic_even (x : Int) :
    spx_cos_norm (to_int32 (x + 2 ^ 17)) = spx_cos_norm x ∧
    spx_cos_norm (to_int32 (-x)) = spx_cos_norm x := by
  constructor
  · apply spx_cos_norm_congr
    rw [spx_cos_norm_folded_eq, spx_cos_norm_folded_eq]
    unfold to_int32
    norm_num only
    split_ifs <;> omega
  · apply spx_cos_norm_congr
    rw [spx_cos_norm_folded_eq, spx_cos_norm_folded_eq]
    unfold to_int32
    split_ifs <;> omega

theorem spx_cos_norm_first_quarter (y : Int) (h1 : 1 ≤ y) (h2 : y ≤ 32767) :
    spx_cos_norm y = _spx_cos_pi_2 y := by
  have hf : spx_cos_norm_folded y = y := by
    rw [spx_cos_norm_folded_eq]
    split_ifs <;> omega
  obtain ⟨b1, b2⟩ := spx_cos_pi_2_bounds y h1 h2
  unfold spx_cos_norm
  simp only [hf, (bit_and_mask y).2.2, shl_one.1]
  rw [if_pos (by omega), if_pos (by omega)]
  unfold EXTRACT16
  rw [to_int16_of_range y (by omega) (by omega),
    to_int16_of_range _ (by omega) (by omega)]

theorem spx_cos_norm_second_quarter (y : Int) (h1 : 32769 ≤ y) (h2 : y ≤ 65535) :
    spx_cos_norm y = -_spx_cos_pi_2 (65536 - y) := by
  have hf : spx_cos_norm_folded y = y := by
    rw [spx_cos_norm_folded_eq]
    split_ifs <;> omega
  obtain ⟨b1, b2⟩ := spx_cos_pi_2_bounds (65536 - y) (by omega) (by omega)
  unfold spx_cos_norm
  simp only [hf, (bit_and_mask y).2.2, shl_one.1]
  rw [if_pos (by omega), if_neg (by omega)]
  unfold EXTRACT16 NEG32
  rw [to_int32_of_range (65536 - y) (by omega) (by omega),
    to_int16_of_range (65536 - y) (by omega) (by omega),
    to_int32_of_range _ (by omega) (by omega),
    to_int16_of_range _ (by omega) (by omega)]

theorem spx_cos_norm_range (x : Int) (h0 : 0 ≤ x) (h1 : x ≤ 65536) :
    -32767 ≤ spx_cos_norm x ∧ spx_cos_norm x ≤ 32767 := by
  by_cases ha : x = 0
  · subst ha
    decide
  by_cases hb : x = 32768
  · subst hb
    decide
  by_cases hc : x = 65536
  · subst hc
    decide
  by_cases hd : x ≤ 32767
  · rw [spx_cos_norm_first_quarter x (by omega) hd]
    have := spx_cos_pi_2_bounds x (by omega) hd
    omega
  · rw [spx_cos_norm_second_quarter x (by omega) (by omega)]
    have := spx_cos_pi_2_bounds (65536 - x) (by omega) (by omega)
    omega

/-- C24: with the Speex definitions of the fixed-point macros, `spx_cos_norm`
is antisymmetric about the quarter period: for every `int x` with
`0 <= x <= 65536`, `spx_cos_norm(65536 - x) = -spx_cos_norm(x)`, and the
negation does not wrap in 16 bits, because `_spx_cos_pi_2` never returns -32768
on `[1, 32767]` (its values there lie in `[-7649, 32767]`). -/
theorem C24_spx_cos_norm_antisymmetric (x : Int) (h0 : 0 ≤ x) (h1 : x ≤ 65536) :
    spx_cos_norm (to_int32 (65536 - x)) = -spx_cos_norm x ∧
    to_int16 (-spx_cos_norm x) = -spx_cos_norm x ∧
    (∀ y, 1 ≤ y → y ≤ 32767 →
      _spx_cos_pi_2 y ≠ -32768 ∧ -7649 ≤ _spx_cos_pi_2 y ∧ _spx_cos_pi_2 y ≤ 32767) := by
  obtain ⟨r1, r2⟩ := spx_cos_norm_range x h0 h1
  refine ⟨?_, to_int16_of_range _ (by omega) (by omega), ?_⟩
  · rw [to_int32_of_range (65536 - x) (by omega) (by omega)]
    by_cases ha : x = 0
    · subst ha
      decide
    by_cases hb : x = 32768
    · subst hb
      decide
    by_cases hc : x = 65536
    · subst hc
      decide
    by_cases hd : x ≤ 32767
    · rw [spx_cos_norm_first_quarter x (by omega) hd,
        spx_cos_norm_second_quarter (65536 - x) (by omega) (by omega)]
      rw [show 65536 - (65536 - x) = x by omega]
    · rw [spx_cos_norm_second_quarter x (by omega) (by omega),
        spx_cos_norm_first_quarter (65536 - x) (by omega) (by omega)]
      omega
  · intro y hy1 hy2
    obtain ⟨b1, b2⟩ := spx_cos_pi_2_bounds y hy1 hy2
    exact ⟨by omega, b1, b2⟩

/-- Witness of C24 at `x = 16384`, where both sides are -23171. -/
theorem C24_spx_cos_norm_antisymmetric_witness :
    (0 : Int) ≤ 16384 ∧ (16384 : Int) ≤ 65536 ∧
    (spx_cos_norm (to_int32 (65536 - 16384)) = -spx_cos_norm 16384 ∧
    to_int16 (-spx_cos_norm 16384) = -spx_cos_norm 16384 ∧
    (∀ y, 1 ≤ y → y ≤ 32767 →
      _spx_cos_pi_2 y ≠ -32768 ∧ -7649 ≤ _spx_cos_pi_2 y ∧ _spx_cos_pi_2 y ≤ 32767)) :=
  ⟨by decide, by decide, C24_spx_cos_norm_antisymmetric 16384 (by decide) (by decide)⟩

theorem MULT16_16_P14_scale (x : Int) (h1 : -32768 ≤ x) (h2 : x ≤ 32767) :
    MULT16_16_P14 23637 x = (8192 + 23637 * x) / 16384 ∧
      MULT16_16_P14 23637 x = SHR (8192 + 23637 * x) 14 := by
  have e : MULT16_16_P14 23637 x = (8192 + 23637 * x) / 16384 := by
    unfold MULT16_16_P14 MULT16_16
    rw [to_int16_of_range 23637 (by decide) (by decide), to_int16_of_range x h1 h2,
      to_int32_of_range (23637 * x) (by omega) (by omega),
      ADD32_eq _ _ (by decide) (by decide) (by omega) (by omega), (shr_eq_div _).2]
  exact ⟨e, by rw [e, (shr_eq_div _).2]⟩

/-- C25: `spx_exp` saturates only at its own thresholds: for every 16-bit `x`,
`spx_exp(x) = 0x7fffffff` when `x > 21290` and `spx_exp(x) = 0` when
`x < -21290`; and for `-21290 <= x <= 21290` the value
`MULT16_16_P14(23637, x) = (8192 + 23637 * x) >> 14` passed to `spx_exp2` fits
in a signed 16-bit integer and has its integer part `value >> 11` in
`[-15, 14]`, so neither saturation test of `spx_exp2` succeeds. -/
theorem C25_spx_exp_saturation (x : Int) (hx : -32768 ≤ x ∧ x ≤ 32767) :
    (x > 21290 → spx_exp x = 0x7fffffff) ∧
    (x < -21290 → spx_exp x = 0) ∧
    (-21290 ≤ x ∧ x ≤ 21290 →
      MULT16_16_P14 23637 x = SHR (8192 + 23637 * x) 14 ∧
      MULT16_16_P14 23637 x = (8192 + 23637 * x) / 16384 ∧
      to_int16 (MULT16_16_P14 23637 x) = MULT16_16_P14 23637 x ∧
      -15 ≤ SHR16 (MULT16_16_P14 23637 x) 11 ∧ SHR16 (MULT16_16_P14 23637 x) 11 ≤ 14 ∧
      ¬ to_int32 (SHR16 (MULT16_16_P14 23637 x) 11) > 14 ∧
      ¬ to_int32 (SHR16 (MULT16_16_P14 23637 x) 11) < -15 ∧
      spx_exp x = spx_exp2 (MULT16_16_P14 23637 x)) := by
  obtain ⟨e1, e2⟩ := MULT16_16_P14_scale x hx.1 hx.2
  refine ⟨?_, ?_, ?_⟩
  · intro h
    unfold spx_exp
    rw [if_pos h]
  · intro h
    unfold spx_exp
    rw [if_neg (by omega), if_pos h]
  · rintro ⟨hlo, hhi⟩
    have hv : -30715 ≤ MULT16_16_P14 23637 x ∧ MULT16_16_P14 23637 x ≤ 30715 := by
      rw [e1]
      omega
    have h16 := to_int16_of_range (MULT16_16_P14 23637 x) (by omega) (by omega)
    obtain ⟨hs, hs32⟩ := shr11_of_short (MULT16_16_P14 23637 x) (by omega) (by omega)
    have hb : -15 ≤ SHR16 (MULT16_16_P14 23637 x) 11 ∧
        SHR16 (MULT16_16_P14 23637 x) 11 ≤ 14 := by
      rw [hs]
      omega
    refine ⟨e2, e1, h16, hb.1, hb.2, ?_, ?_, ?_⟩
    · rw [hs32]
      omega
    · rw [hs32]
      omega
    · unfold spx_exp
      rw [if_neg (by omega), if_neg (by omega), h16]

/-- Witness of C25 at the upper threshold `x = 21290`. -/
theorem C25_spx_exp_saturation_witness :
    ((-32768 : Int) ≤ 21290 ∧ (21290 : Int) ≤ 32767) ∧
    ((21290 > (21290 : Int) → spx_exp 21290 = 0x7fffffff) ∧
    ((21290 : Int) < -21290 → spx_exp 21290 = 0) ∧
    (-21290 ≤ (21290 : Int) ∧ (21290 : Int) ≤ 21290 →
      MULT16_16_P14 23637 21290 = SHR (8192 + 23637 * 21290) 14 ∧
      MULT16_16_P14 23637 21290 = (8192 + 23637 * 21290) / 16384 ∧
      to_int16 (MULT16_16_P14 23637 21290) = MULT16_16_P14 23637 21290 ∧
      -15 ≤ SHR16 (MULT16_16_P14 23637 21290) 11 ∧
      SHR16 (MULT16_16_P14 23637 21290) 11 ≤ 14 ∧
      ¬ to_int32 (SHR16 (MULT16_16_P14 23637 21290) 11) > 14 ∧
      ¬ to_int32 (SHR16 (MULT16_16_P14 23637 21290) 11) < -15 ∧
      spx_exp 21290 = spx_exp2 (MULT16_16_P14 23637 21290))) :=
  ⟨by decide, C25_spx_exp_saturation 21290 (by decide)⟩

theorem spx_exp_threshold_samples :
    MULT16_16_P14 23637 21290 = 30715 ∧ SHR16 30715 11 = 14 ∧
    MULT16_16_P14 23637 (-21290) = -30715 ∧ SHR16 (-30715) 11 = -15 ∧
    spx_exp 21290 = 2143682560 ∧ spx_exp (-21290) = 2 := by
  decide


end B91
